import Mathlib

/-!
# hildon-desktop application manager (`src/launcher/hd-app-mgr.c`)

A shallow embedding of the application-lifecycle manager: the four
application queues, the memory-limit policy, the launch executor, the
state-check loop and the signal intake, followed by theorems about them.

Conventions of the embedding

* `AppRef` is the address of a (non-null) `HdLauncherApp`; a C parameter of
  type `HdLauncherApp *` is an `Option AppRef`, `none` being `NULL`.  The
  queues hold `AppRef`s: `hd_app_mgr_add_to_queue` is the only function that
  creates a list cell and it returns early on `NULL`.
* `size_t` and `long` values are naturals / integers; `w` is the width of
  both in bits, and arithmetic that can wrap is written with `% 2 ^ w`.
* A zero-terminated C string is a `String` (its characters, without the
  terminator); a `NULL`-able one is an `Option String`.
* What the operating system, the D-Bus daemon and the other modules answer
  during one call is passed in as a record `Env`.
* GObject reference counts are not modelled.
-/

namespace HdAppMgr

/-! ## Data model -/

/-- The address of an `HdLauncherApp` (never `NULL`). -/
abbrev AppRef := Nat

/-- The enum `HdAppMgrQueue` (without its `NUM_QUEUES` terminator). -/
inductive HdAppMgrQueue where
  | QUEUE_PRESTARTABLE
  | QUEUE_PRESTARTED
  | QUEUE_HIBERNATABLE
  | QUEUE_HIBERNATED
  deriving DecidableEq, Repr

/-- The enum `HdAppMgrPrestartMode`. -/
inductive HdAppMgrPrestartMode where
  | PRESTART_NEVER
  | PRESTART_AUTO
  | PRESTART_ALWAYS
  deriving DecidableEq, Repr

/-- The lifecycle states of an application (`HdLauncherAppState`). -/
inductive HdLauncherAppState where
  | HD_APP_STATE_INACTIVE
  | HD_APP_STATE_HIBERNATING
  | HD_APP_STATE_PRESTARTED
  | HD_APP_STATE_LOADING
  | HD_APP_STATE_SHOWN
  deriving DecidableEq, Repr

/-- The per-application prestart policy (`HdLauncherAppPrestartMode`). -/
inductive HdLauncherAppPrestartMode where
  | HD_APP_PRESTART_NONE
  | HD_APP_PRESTART_ALWAYS
  deriving DecidableEq, Repr

/-- The kind of a launcher item, as far as the manager looks at it:
`hd_launcher_item_get_item_type (item) == HD_APPLICATION_LAUNCHER` or not. -/
inductive HdLauncherItemType where
  | HD_APPLICATION_LAUNCHER
  | HD_CATEGORY_LAUNCHER
  deriving DecidableEq, Repr

/-- The fields of a launcher item that the manager reads or writes through
the `hd_launcher_item_*` / `hd_launcher_app_*` accessors.  Optional strings
are `NULL`-able `const gchar *`. -/
structure HdLauncherItem where
  item_type : HdLauncherItemType
  id : String
  service : Option String
  exec : Option String
  wm_class : Option String
  state : HdLauncherAppState
  pid : Nat
  prestart_mode : HdLauncherAppPrestartMode
  deriving DecidableEq, Repr

/-- What the manager does that is visible outside its own fields, in the
order in which it happens. -/
inductive Event where
  /-- Entry of `hd_app_mgr_kill (app)`. -/
  | kill_called (app : AppRef)
  /-- The system call `kill (pid, SIGTERM)`. -/
  | sigterm (pid : Nat)
  /-- Entry of `hd_app_mgr_prestart (app)`. -/
  | prestart_called (app : AppRef)
  /-- The request `dbus_bus_start_service_by_name (conn, service, ...)`. -/
  | start_service (service : String)
  /-- The method call built by `hd_app_mgr_service_top (service, param)`. -/
  | service_top (service : String) (param : Option String)
  /-- The call `hd_app_mgr_execute (exec, &pid)`. -/
  | execute (exec : String)
  /-- Emission of the signal "application-launched". -/
  | app_launched (app : AppRef)
  /-- Emission of the signal "application-appeared". -/
  | app_shown (app : AppRef)
  /-- The call `g_timeout_add_seconds (STATE_CHECK_INTERVAL, ...)`. -/
  | timeout_add
  /-- Entry of `hd_app_mgr_state_check_loop`. -/
  | state_check_loop
  /-- A `g_warning` or `g_debug` message. -/
  | message
  deriving DecidableEq, Repr

/-- The struct `_HdAppMgrPrivate`, without the tree and the two D-Bus
proxies (the tree is `Mgr.tree`).  The last four fields are the one-bit
flags; a Boolean says whether the flag is set (see `flag_value` for the
integer a set flag reads as). -/
structure HdAppMgrPrivate where
  queues : HdAppMgrQueue → List AppRef
  state_check_looping : Bool
  prestart_mode : HdAppMgrPrestartMode
  prestart_required_pages : Nat
  launch_required_pages : Nat
  notify_low_pages : Nat
  notify_high_pages : Nat
  nr_decay_pages : Nat
  bg_killing : Bool
  lowmem : Bool
  init_done : Bool
  launcher_shown : Bool

/-- The manager singleton together with the objects it points to: the
private struct, the launcher items by address, the item list of the
launcher tree (`hd_launcher_tree_get_items`), the number of armed
state-check timers in the main loop, and the log of visible actions. -/
structure Mgr where
  priv : HdAppMgrPrivate
  items : AppRef → HdLauncherItem
  tree : List AppRef
  timers : Nat
  log : List Event

/-- Append an event to the log. -/
def Mgr.emit (m : Mgr) (e : Event) : Mgr :=
  { m with log := m.log ++ [e] }

/-- The content of one queue, `priv->queues[queue]`. -/
def Mgr.queue (m : Mgr) (q : HdAppMgrQueue) : List AppRef :=
  m.priv.queues q

/-- The assignment `priv->queues[queue] = l`. -/
def Mgr.set_queue (m : Mgr) (q : HdAppMgrQueue) (l : List AppRef) : Mgr :=
  { m with priv := { m.priv with
      queues := fun q' => if q' = q then l else m.priv.queues q' } }

/-- The call `hd_launcher_app_set_state (app, st)`. -/
def hd_launcher_app_set_state (app : AppRef) (st : HdLauncherAppState)
    (m : Mgr) : Mgr :=
  { m with items := fun a =>
      if a = app then { m.items app with state := st } else m.items a }

/-- The call `hd_launcher_app_set_pid (app, pid)`. -/
def hd_launcher_app_set_pid (app : AppRef) (pid : Nat) (m : Mgr) : Mgr :=
  { m with items := fun a =>
      if a = app then { m.items app with pid := pid } else m.items a }

/-! ## The queues (`hd_app_mgr_add_to_queue` and friends)

`g_slist_append (l, x)` is `l ++ [x]`; `g_slist_find (l, x)` returns the
first cell holding `x`, so that deleting or unlinking the cell it returns
is `List.erase`; `g_slist_concat (l, link)` with a single unlinked cell is
`l ++ [x]`. -/

/-- The function `hd_app_mgr_add_to_queue`. -/
def hd_app_mgr_add_to_queue (queue : HdAppMgrQueue) (app : Option AppRef)
    (m : Mgr) : Mgr :=
  match app with
  | none => m
  | some a => m.set_queue queue (m.queue queue ++ [a])

/-- The function `hd_app_mgr_remove_from_queue`.  No cell holds `NULL`, so
`g_slist_find (queue, NULL)` finds nothing. -/
def hd_app_mgr_remove_from_queue (queue : HdAppMgrQueue)
    (app : Option AppRef) (m : Mgr) : Mgr :=
  match app with
  | none => m
  | some a =>
    if a ∈ m.queue queue then
      m.set_queue queue ((m.queue queue).erase a)
    else m

/-- The function `hd_app_mgr_move_queue`. -/
def hd_app_mgr_move_queue (queue_from queue_to : HdAppMgrQueue)
    (app : Option AppRef) (m : Mgr) : Mgr :=
  match app with
  | none => m
  | some a =>
    if a ∈ m.queue queue_from then
      let m1 := m.set_queue queue_from ((m.queue queue_from).erase a)
      m1.set_queue queue_to (m1.queue queue_to ++ [a])
    else
      hd_app_mgr_add_to_queue queue_to app m

/-- The function `hd_app_mgr_prestartable`. -/
def hd_app_mgr_prestartable (app : Option AppRef) (m : Mgr) : Mgr :=
  hd_app_mgr_add_to_queue .QUEUE_PRESTARTABLE app m

/-- The function `hd_app_mgr_not_prestartable`. -/
def hd_app_mgr_not_prestartable (app : Option AppRef) (m : Mgr) : Mgr :=
  hd_app_mgr_remove_from_queue .QUEUE_PRESTARTABLE app m

/-- The function `hd_app_mgr_hibernatable`. -/
def hd_app_mgr_hibernatable (app : Option AppRef) (m : Mgr) : Mgr :=
  hd_app_mgr_add_to_queue .QUEUE_HIBERNATABLE app m

/-- The function `hd_app_mgr_not_hibernatable`. -/
def hd_app_mgr_not_hibernatable (app : Option AppRef) (m : Mgr) : Mgr :=
  hd_app_mgr_remove_from_queue .QUEUE_HIBERNATABLE app m

/-! ## Memory limits

`strtol` and `isspace` belong to the C library; they are written out after
the C standard ("C" locale, base 10), with `long` of `w` bits. -/

/-- The largest `size_t`, `NSIZE = (size_t)(-1)`: the "unavailable" mark. -/
def NSIZE (w : Nat) : Nat := 2 ^ w - 1

/-- The conversion `(size_t) v` of a `long`. -/
def size_t_of_long (w : Nat) (v : Int) : Nat := (v % 2 ^ w).toNat

/-- The C library `isspace` in the "C" locale. -/
def isspace (c : Char) : Bool :=
  c.toNat = 32 || (9 ≤ c.toNat && c.toNat ≤ 13)

/-- The value of the longest run of decimal digits at the start of the
text, `acc` being the value of the digits already consumed. -/
def strtol_digits (acc : Nat) : List Char → Nat
  | [] => acc
  | c :: cs =>
    if 48 ≤ c.toNat ∧ c.toNat ≤ 57 then
      strtol_digits (acc * 10 + (c.toNat - 48)) cs
    else acc

/-- The C library call `strtol (s, NULL, 10)`: white space is skipped, one
sign is accepted, the digits that follow are converted (none: 0) and a value
out of the range of `long` is clamped to `LONG_MAX` or `LONG_MIN`. -/
def strtol (w : Nat) (s : List Char) : Int :=
  match s.dropWhile isspace with
  | [] => 0
  | c :: cs =>
    if c = '-' then
      let n := strtol_digits 0 cs
      if 2 ^ (w - 1) < n then -(2 ^ (w - 1) : Int) else -(n : Int)
    else
      let n := strtol_digits 0 (if c = '+' then cs else c :: cs)
      if 2 ^ (w - 1) - 1 < n then ((2 ^ (w - 1) - 1 : Nat) : Int) else (n : Int)

/-- What `open` and `read` do with one of the `/proc/sys/vm/lowmem_*`
files during one call of `hd_app_mgr_read_lowmem`. -/
inductive LowmemFile where
  /-- The call `open` returns a negative descriptor. -/
  | no_file
  /-- The call `read` returns -1; `stack` is what the uninitialised buffer
  and the memory after it hold, up to the first zero byte. -/
  | read_error (stack : List Char)
  /-- The file opens and holds `bytes`; `read` returns the first 31. -/
  | content (bytes : List Char)

/-- The function `hd_app_mgr_read_lowmem`.  When `read` fails, `size` is
`(size_t)(-1)`, which is positive: the guard passes and `strtol` runs over
the buffer that was never filled. -/
def hd_app_mgr_read_lowmem (w : Nat) (file : LowmemFile) : Nat :=
  match file with
  | .no_file => NSIZE w
  | .read_error stack => size_t_of_long w (strtol w stack)
  | .content bytes =>
    let buffer := bytes.take 31
    if 0 < buffer.length then size_t_of_long w (strtol w buffer)
    else NSIZE w

/-- The test that `hd_app_mgr_setup_prestart` makes twice on the value of
the environment variable `HILDON_DESKTOP_APPS_PRESTART`:
`prestart_env && *prestart_env && g_strcmp0 (prestart_env, "no") &&
g_strcmp0 (prestart_env, "false")`. -/
def prestart_env_enabled (prestart_env : Option String) : Bool :=
  match prestart_env with
  | none => false
  | some s => s ≠ "" && s ≠ "no" && s ≠ "false"

/-- The function `hd_app_mgr_setup_prestart`; the pair is the returned mode
and the value stored in `*prestart_required_pages`.  `prestart_env` is what
`getenv (PRESTART_ENV_VAR)` returns and `nr_decay_file` is the state of
`LOWMEM_PROC_NR_DECAY` when it is read again. -/
def hd_app_mgr_setup_prestart (w : Nat) (prestart_env : Option String)
    (nr_decay_file : LowmemFile) (low_pages nr_decay_pages : Nat) :
    HdAppMgrPrestartMode × Nat :=
  if low_pages = NSIZE w ∨ nr_decay_pages = NSIZE w then
    if prestart_env_enabled prestart_env then (.PRESTART_ALWAYS, NSIZE w)
    else (.PRESTART_NEVER, NSIZE w)
  else if prestart_env_enabled prestart_env then
    let reserved :=
      size_t_of_long w (strtol w ((prestart_env.getD "").toList))
    if reserved = 0 then
      (.PRESTART_AUTO,
        (low_pages + hd_app_mgr_read_lowmem w nr_decay_file) % 2 ^ w)
    else
      (.PRESTART_AUTO, (low_pages + reserved) % 2 ^ w)
  else (.PRESTART_NEVER, NSIZE w)

/-- The function `hd_app_mgr_setup_launch`; the result is the value stored
in `*launch_required_pages`. -/
def hd_app_mgr_setup_launch (w : Nat) (high_pages nr_decay_pages : Nat) :
    Nat :=
  if high_pages = NSIZE w ∨ nr_decay_pages = NSIZE w then NSIZE w
  else (high_pages + nr_decay_pages) % 2 ^ w

/-- The function `hd_app_mgr_can_launch`; `free_file` is the state of
`LOWMEM_PROC_FREE` at the call. -/
def hd_app_mgr_can_launch (w : Nat) (free_file : LowmemFile)
    (priv : HdAppMgrPrivate) : Bool :=
  if priv.launch_required_pages = NSIZE w then true
  else
    let free_pages := hd_app_mgr_read_lowmem w free_file
    if free_pages = NSIZE w then true
    else decide (priv.launch_required_pages ≤ free_pages)

/-- The function `hd_app_mgr_can_prestart`; `free_file` is the state of
`LOWMEM_PROC_FREE` at the call. -/
def hd_app_mgr_can_prestart (w : Nat) (free_file : LowmemFile)
    (priv : HdAppMgrPrivate) : Bool :=
  match priv.prestart_mode with
  | .PRESTART_ALWAYS => true
  | .PRESTART_NEVER => false
  | .PRESTART_AUTO =>
    let free_pages := hd_app_mgr_read_lowmem w free_file
    if free_pages = NSIZE w then true
    else decide (priv.prestart_required_pages ≤ free_pages)

/-! ## The environment of one call -/

/-- The answers of the outside world during one call into the manager.
`hd_launcher_app_is_executing` lives in `hd-launcher-app.c`; the manager
only uses its result, so it is taken as it comes. -/
structure Env where
  /-- The state of `/proc/sys/vm/lowmem_free_pages`. -/
  free_file : LowmemFile
  /-- The result of `hd_launcher_app_is_executing (app)`. -/
  is_executing : HdLauncherItem → Bool
  /-- Whether `kill (pid, SIGTERM)` returns 0. -/
  kill_ok : Nat → Bool
  /-- Whether `dbus_bus_get (DBUS_BUS_SESSION, &derror)` sets no error. -/
  bus_get_ok : Bool
  /-- The result of `dbus_bus_start_service_by_name` for a service. -/
  start_service_ok : String → Bool
  /-- Whether `dbus_message_new_method_call` returns a message. -/
  message_new_ok : Bool
  /-- The result of `dbus_connection_send`. -/
  connection_send_ok : Bool
  /-- The process id that `GetConnectionUnixProcessID` reports for a
  service, 0 when the call fails (`_hd_app_mgr_get_service_pid`). -/
  service_pid : String → Nat
  /-- The outcome of `hd_app_mgr_execute (exec, &pid)`: the process id of
  the spawned child, or `none` when parsing or spawning fails. -/
  execute : String → Option Nat
  /-- Whether `hd_render_manager_get_state () == HDRM_STATE_LAUNCHER`. -/
  hdrm_launcher : Bool

/-! ## Application management -/

/-- The function `hd_app_mgr_service_top`. -/
def hd_app_mgr_service_top (env : Env) (service : String)
    (param : Option String) (m : Mgr) : Mgr × Bool :=
  let m := m.emit (.service_top service param)
  if !env.bus_get_ok then (m.emit .message, false)
  else if !env.message_new_ok then (m.emit .message, false)
  else if !env.connection_send_ok then (m.emit .message, false)
  else (m, true)

/-- The function `hd_app_mgr_launch`. -/
def hd_app_mgr_launch (w : Nat) (env : Env) (app : AppRef) (m : Mgr) :
    Mgr × Bool :=
  let service := (m.items app).service
  if !hd_app_mgr_can_launch w env.free_file m.priv then
    (m.emit .message, false)
  else
    let (m, result, pid) :=
      match service with
      | some sv =>
        let (m1, result) := hd_app_mgr_service_top env sv none m
        let pid := if result then env.service_pid sv else 0
        (hd_app_mgr_not_prestartable (some app) m1, result, pid)
      | none =>
        match (m.items app).exec with
        | some exec =>
          match env.execute exec with
          | some pid => (m.emit (.execute exec), true, pid)
          | none => (m.emit (.execute exec), false, 0)
        | none => (m, false, 0)
    if result then
      let m := hd_launcher_app_set_pid app pid m
      let m := hd_launcher_app_set_state app .HD_APP_STATE_LOADING m
      (m.emit (.app_launched app), true)
    else (m, false)

/-- The function `hd_app_mgr_relaunch`. -/
def hd_app_mgr_relaunch (env : Env) (app : AppRef) (m : Mgr) : Mgr × Bool :=
  match (m.items app).service with
  | some sv => hd_app_mgr_service_top env sv none m
  | none => (m, true)

/-- The function `hd_app_mgr_kill`. -/
def hd_app_mgr_kill (env : Env) (app : AppRef) (m : Mgr) : Mgr × Bool :=
  let pid := (m.items app).pid
  let m := m.emit (.kill_called app)
  if !env.is_executing (m.items app) then (m, false)
  else if pid = 0 then (m.emit .message, false)
  else
    let m := m.emit (.sigterm pid)
    if !env.kill_ok pid then (m, false)
    else
      let m := hd_app_mgr_remove_from_queue .QUEUE_PRESTARTED (some app) m
      let m := hd_app_mgr_remove_from_queue .QUEUE_HIBERNATABLE (some app) m
      let m := hd_launcher_app_set_state app .HD_APP_STATE_INACTIVE m
      (m, true)

/-- The function `hd_app_mgr_prestart`. -/
def hd_app_mgr_prestart (env : Env) (app : AppRef) (m : Mgr) : Mgr × Bool :=
  let service := (m.items app).service
  let m := m.emit (.prestart_called app)
  if env.is_executing (m.items app) then (m, true)
  else
    match service with
    | none => (m.emit .message, false)
    | some sv =>
      if !env.bus_get_ok then (m.emit .message, false)
      else
        let res := env.start_service_ok sv
        let m := m.emit (.start_service sv)
        if res then
          let m := hd_app_mgr_move_queue .QUEUE_PRESTARTABLE
            .QUEUE_PRESTARTED (some app) m
          let m := hd_launcher_app_set_pid app (env.service_pid sv) m
          let m := hd_launcher_app_set_state app .HD_APP_STATE_PRESTARTED m
          (m, true)
        else
          let m := hd_app_mgr_remove_from_queue .QUEUE_PRESTARTABLE
            (some app) m
          let m := hd_app_mgr_add_to_queue .QUEUE_PRESTARTABLE (some app) m
          (m, false)

/-- The function `hd_app_mgr_wakeup`. -/
def hd_app_mgr_wakeup (w : Nat) (env : Env) (app : AppRef) (m : Mgr) :
    Mgr × Bool :=
  let service := (m.items app).service
  if (m.items app).state ≠ .HD_APP_STATE_HIBERNATING then (m, true)
  else
    match service with
    | none => (m.emit .message, false)
    | some sv =>
      if !hd_app_mgr_can_launch w env.free_file m.priv then
        (m.emit .message, false)
      else
        let (m, res) := hd_app_mgr_service_top env sv (some "RESTORE") m
        if res then
          let m := hd_app_mgr_remove_from_queue .QUEUE_HIBERNATED
            (some app) m
          let m := hd_launcher_app_set_pid app (env.service_pid sv) m
          let m := hd_launcher_app_set_state app .HD_APP_STATE_LOADING m
          (m, true)
        else (m, false)

/-! ## The state check -/

/-- The first block of `hd_app_mgr_state_check_loop`: when memory is low,
kill the application at the head of the prestarted queue. -/
def state_check_loop_lowmem (env : Env) (m : Mgr) (loop : Bool) :
    Mgr × Bool :=
  if m.priv.lowmem then
    match m.queue .QUEUE_PRESTARTED with
    | app :: _ =>
      let m1 := (hd_app_mgr_kill env app m).1
      if m1.queue .QUEUE_PRESTARTED ≠ [] then (m1, true) else (m1, loop)
    | [] => (m, loop)
  else (m, loop)

/-- The second block of `hd_app_mgr_state_check_loop`: hibernation is a
TODO in the source; only the loop flag is set. -/
def state_check_loop_bgkill (m : Mgr) (loop : Bool) : Mgr × Bool :=
  if m.priv.bg_killing then
    if m.queue .QUEUE_HIBERNATABLE ≠ [] then (m, true) else (m, loop)
  else (m, loop)

/-- The condition of the third block of `hd_app_mgr_state_check_loop`. -/
def state_check_loop_may_prestart (w : Nat) (env : Env) (m : Mgr) : Bool :=
  m.priv.init_done && !m.priv.lowmem && !m.priv.bg_killing &&
    !m.priv.launcher_shown && (m.queue .QUEUE_PRESTARTABLE ≠ []) &&
    hd_app_mgr_can_prestart w env.free_file m.priv

/-- The third block of `hd_app_mgr_state_check_loop`: prestart the
application at the head of the prestartable queue. -/
def state_check_loop_prestart (w : Nat) (env : Env) (m : Mgr) (loop : Bool) :
    Mgr × Bool :=
  if state_check_loop_may_prestart w env m then
    match m.queue .QUEUE_PRESTARTABLE with
    | app :: _ =>
      let m1 := (hd_app_mgr_prestart env app m).1
      if m1.queue .QUEUE_PRESTARTABLE ≠ [] then (m1, true) else (m1, loop)
    | [] => (m, loop)
  else (m, loop)

/-- The last block of `hd_app_mgr_state_check_loop`: arm the timer or clear
the looping flag. -/
def state_check_loop_timer (m : Mgr) (loop : Bool) : Mgr × Bool :=
  if !m.priv.state_check_looping && loop then
    let m := m.emit .timeout_add
    ({ m with timers := m.timers + 1,
              priv := { m.priv with state_check_looping := true } }, loop)
  else if !loop then
    ({ m with priv := { m.priv with state_check_looping := false } }, loop)
  else (m, loop)

/-- The function `hd_app_mgr_state_check_loop`; the Boolean is its return
value `loop`. -/
def hd_app_mgr_state_check_loop (w : Nat) (env : Env) (m : Mgr) :
    Mgr × Bool :=
  let m := m.emit .state_check_loop
  let (m, loop) := state_check_loop_lowmem env m false
  let (m, loop) := state_check_loop_bgkill m loop
  let (m, loop) := state_check_loop_prestart w env m loop
  state_check_loop_timer m loop

/-- The function `hd_app_mgr_state_check`. -/
def hd_app_mgr_state_check (w : Nat) (env : Env) (m : Mgr) : Mgr :=
  if m.priv.state_check_looping then m
  else (hd_app_mgr_state_check_loop w env m).1

/-- The value of a `gboolean` (an `int`) that holds the result of a C
comparison: 1 for true, 0 for false. -/
def gboolean_value (b : Bool) : Int := if b then 1 else 0

/-- The value read from one of the flags `gboolean f:1` of
`_HdAppMgrPrivate`.  `gboolean` is `int`, so the flag is a signed field of
one bit: it holds 0 or -1, and a flag in which `TRUE` (1) was stored reads
-1.  In the model `true` stands for the set flag. -/
def flag_value (b : Bool) : Int := if b then -1 else 0

/-- The function `hd_app_mgr_hdrm_state_change`.  The test
`launcher != priv->launcher_shown` compares the `int` `launcher` (0 or 1)
with the flag (0 or -1): it fails only when both are 0, so that every
notification received while the launcher is shown stores the flag again and
runs the state check. -/
def hd_app_mgr_hdrm_state_change (w : Nat) (env : Env) (m : Mgr) : Mgr :=
  let launcher := env.hdrm_launcher
  if gboolean_value launcher ≠ flag_value m.priv.launcher_shown then
    hd_app_mgr_state_check w env
      { m with priv := { m.priv with launcher_shown := launcher } }
  else m

/-! ## Signal intake -/

/-- The D-Bus messages that `hd_app_mgr_signal_handler` tells apart. -/
inductive DBusMessage where
  | lowmem_on
  | lowmem_off
  | bgkill_on
  | bgkill_off
  | init_done
  | other
  deriving DecidableEq, Repr

/-- The function `hd_app_mgr_signal_handler`. -/
def hd_app_mgr_signal_handler (w : Nat) (env : Env) (msg : DBusMessage)
    (m : Mgr) : Mgr :=
  match msg with
  | .lowmem_on =>
    hd_app_mgr_state_check w env
      { m with priv := { m.priv with lowmem := true } }
  | .lowmem_off =>
    hd_app_mgr_state_check w env
      { m with priv := { m.priv with lowmem := false } }
  | .bgkill_on =>
    hd_app_mgr_state_check w env
      { m with priv := { m.priv with bg_killing := true } }
  | .bgkill_off =>
    hd_app_mgr_state_check w env
      { m with priv := { m.priv with bg_killing := false } }
  | .init_done =>
    hd_app_mgr_state_check w env
      { m with priv := { m.priv with init_done := true } }
  | .other => m

/-- The `while` loop of `hd_app_mgr_dbus_name_owner_changed` over the items
of the tree: the first application whose service is `name` is dealt with
and the loop stops. -/
def name_owner_changed_items (w : Nat) (env : Env) (name : String)
    (m : Mgr) : List AppRef → Mgr
  | [] => m
  | item :: items =>
    if (m.items item).item_type = .HD_APPLICATION_LAUNCHER ∧
        (m.items item).service = some name then
      let m1 :=
        if (m.items item).state ≠ .HD_APP_STATE_HIBERNATING then
          hd_launcher_app_set_state item .HD_APP_STATE_INACTIVE m
        else m
      if (m1.items item).prestart_mode = .HD_APP_PRESTART_ALWAYS then
        hd_app_mgr_state_check w env
          (hd_app_mgr_add_to_queue .QUEUE_PRESTARTABLE (some item) m1)
      else m1
    else name_owner_changed_items w env name m items

/-- The function `hd_app_mgr_dbus_name_owner_changed`. -/
def hd_app_mgr_dbus_name_owner_changed (w : Nat) (env : Env)
    (name _old_owner new_owner : String) (m : Mgr) : Mgr :=
  if new_owner ≠ "" then m
  else name_owner_changed_items w env name m m.tree

/-- The callback `_hd_app_mgr_collect_prestarted`. -/
def _hd_app_mgr_collect_prestarted (item : AppRef) (m : Mgr) : Mgr :=
  if (m.items item).item_type = .HD_APPLICATION_LAUNCHER then
    if (m.items item).prestart_mode = .HD_APP_PRESTART_ALWAYS then
      hd_app_mgr_prestartable (some item) m
    else m
  else m

/-- The function `hd_app_mgr_populate_tree_finished`. -/
def hd_app_mgr_populate_tree_finished (w : Nat) (env : Env) (m : Mgr) :
    Mgr :=
  hd_app_mgr_state_check w env
    (m.tree.foldl (fun acc item => _hd_app_mgr_collect_prestarted item acc) m)

/-! ## Window matching -/

/-- The GLib function `g_ascii_tolower`. -/
def g_ascii_tolower (c : Char) : Char :=
  if 65 ≤ c.toNat ∧ c.toNat ≤ 90 then Char.ofNat (c.toNat + 32) else c

/-- The GLib function `g_ascii_strncasecmp (s1, s2, n)` on the characters
of two zero-terminated strings. -/
def g_ascii_strncasecmp : List Char → List Char → Nat → Int
  | _, _, 0 => 0
  | c1 :: s1, c2 :: s2, n + 1 =>
    if g_ascii_tolower c1 ≠ g_ascii_tolower c2 then
      ((g_ascii_tolower c1).toNat : Int) - ((g_ascii_tolower c2).toNat : Int)
    else g_ascii_strncasecmp s1 s2 n
  | [], s2, _ + 1 => 0 - (((s2.head?).map Char.toNat).getD 0 : Int)
  | c1 :: _, [], _ + 1 => (c1.toNat : Int)

/-- The body of the `while` loop of `hd_app_mgr_match_window` for one
application: the three tests, in the order of the source. -/
def match_window_app (res_name res_class : Option String)
    (app : HdLauncherItem) : Bool :=
  (match res_class, app.wm_class with
    | some c, some wc => decide (wc = c)
    | _, _ => false) ||
  (match res_class with
    | some c =>
      decide (g_ascii_strncasecmp c.toList app.id.toList c.toList.length = 0)
    | none => false) ||
  (match res_name with
    | some n => decide (app.exec = some n)
    | none => false)

/-- The `while` loop of `hd_app_mgr_match_window`: the first application of
the tree that passes one of the tests. -/
def match_window_items (res_name res_class : Option String)
    (items : AppRef → HdLauncherItem) : List AppRef → Option AppRef
  | [] => none
  | p :: apps =>
    if (items p).item_type ≠ .HD_APPLICATION_LAUNCHER then
      match_window_items res_name res_class items apps
    else if match_window_app res_name res_class (items p) then some p
    else match_window_items res_name res_class items apps

/-- The function `hd_app_mgr_match_window`. -/
def hd_app_mgr_match_window (res_name res_class : Option String)
    (m : Mgr) : Mgr × Option AppRef :=
  if res_name = none ∧ res_class = none then (m.emit .message, none)
  else
    match match_window_items res_name res_class m.items m.tree with
    | some result =>
      let m := m.emit (.app_shown result)
      let m := hd_app_mgr_remove_from_queue .QUEUE_PRESTARTED (some result) m
      let m :=
        hd_app_mgr_remove_from_queue .QUEUE_PRESTARTABLE (some result) m
      (m, some result)
    | none => (m, none)

/-! ## Start-up and runs -/

/-- The function `hd_app_mgr_init`, as far as the private struct goes: the
instance memory is zeroed (empty queues, all flags clear) and the memory
limits are read.  `low_file`, `high_file` and `decay_file` are the states
of the three counters when they are read, `decay_file2` the state of the
decay counter when `hd_app_mgr_setup_prestart` reads it again. -/
def hd_app_mgr_init (w : Nat) (prestart_env : Option String)
    (low_file high_file decay_file decay_file2 : LowmemFile)
    (items : AppRef → HdLauncherItem) (tree : List AppRef) : Mgr :=
  let notify_low_pages := hd_app_mgr_read_lowmem w low_file
  let notify_high_pages := hd_app_mgr_read_lowmem w high_file
  let nr_decay_pages := hd_app_mgr_read_lowmem w decay_file
  let pre := hd_app_mgr_setup_prestart w prestart_env decay_file2
    notify_low_pages nr_decay_pages
  { priv :=
      { queues := fun _ => []
        state_check_looping := false
        prestart_mode := pre.1
        prestart_required_pages := pre.2
        launch_required_pages :=
          hd_app_mgr_setup_launch w notify_high_pages nr_decay_pages
        notify_low_pages := notify_low_pages
        notify_high_pages := notify_high_pages
        nr_decay_pages := nr_decay_pages
        bg_killing := false
        lowmem := false
        init_done := false
        launcher_shown := false }
    items := items
    tree := tree
    timers := 0
    log := [] }

/-- One entry into the manager from outside: a public function, a D-Bus
callback, a notification of the render manager or the main loop firing an
armed state-check timer. -/
inductive Op where
  | prestartable (app : Option AppRef)
  | not_prestartable (app : Option AppRef)
  | hibernatable (app : Option AppRef)
  | not_hibernatable (app : Option AppRef)
  | launch (app : AppRef)
  | relaunch (app : AppRef)
  | prestart (app : AppRef)
  | wakeup (app : AppRef)
  | kill (app : AppRef)
  | match_window (res_name res_class : Option String)
  | name_owner_changed (name old_owner new_owner : String)
  | signal (msg : DBusMessage)
  | hdrm_state_change
  | populate_tree_finished
  | timeout

/-- The main loop fires an armed state-check timer: the callback runs and
the source is removed when it returns `FALSE`. -/
def timeout_fired (w : Nat) (env : Env) (m : Mgr) : Mgr :=
  if m.timers = 0 then m
  else
    let r := hd_app_mgr_state_check_loop w env m
    if r.2 then r.1 else { r.1 with timers := r.1.timers - 1 }

/-- The effect of one entry into the manager. -/
def step (w : Nat) (env : Env) (op : Op) (m : Mgr) : Mgr :=
  match op with
  | .prestartable app => hd_app_mgr_prestartable app m
  | .not_prestartable app => hd_app_mgr_not_prestartable app m
  | .hibernatable app => hd_app_mgr_hibernatable app m
  | .not_hibernatable app => hd_app_mgr_not_hibernatable app m
  | .launch app => (hd_app_mgr_launch w env app m).1
  | .relaunch app => (hd_app_mgr_relaunch env app m).1
  | .prestart app => (hd_app_mgr_prestart env app m).1
  | .wakeup app => (hd_app_mgr_wakeup w env app m).1
  | .kill app => (hd_app_mgr_kill env app m).1
  | .match_window res_name res_class =>
    (hd_app_mgr_match_window res_name res_class m).1
  | .name_owner_changed name old_owner new_owner =>
    hd_app_mgr_dbus_name_owner_changed w env name old_owner new_owner m
  | .signal msg => hd_app_mgr_signal_handler w env msg m
  | .hdrm_state_change => hd_app_mgr_hdrm_state_change w env m
  | .populate_tree_finished => hd_app_mgr_populate_tree_finished w env m
  | .timeout => timeout_fired w env m

/-- A finite sequence of entries, each with the environment it meets. -/
def run (w : Nat) (ops : List (Env × Op)) (m : Mgr) : Mgr :=
  ops.foldl (fun acc eo => step w eo.1 eo.2 acc) m

/-- The four queues one after the other. -/
def all_queues (m : Mgr) : List AppRef :=
  m.queue .QUEUE_PRESTARTABLE ++ m.queue .QUEUE_PRESTARTED ++
    m.queue .QUEUE_HIBERNATABLE ++ m.queue .QUEUE_HIBERNATED

/-- The applications on which `hd_app_mgr_kill` was entered, in order. -/
def kill_calls (log : List Event) : List AppRef :=
  log.filterMap fun e =>
    match e with
    | .kill_called app => some app
    | _ => none

/-- The applications on which `hd_app_mgr_prestart` was entered, in
order. -/
def prestart_calls (log : List Event) : List AppRef :=
  log.filterMap fun e =>
    match e with
    | .prestart_called app => some app
    | _ => none

/-- The process ids to which `SIGTERM` was sent, in order. -/
def sigterm_calls (log : List Event) : List Nat :=
  log.filterMap fun e =>
    match e with
    | .sigterm pid => some pid
    | _ => none

/-- The services whose start was requested with
`dbus_bus_start_service_by_name`, in order. -/
def start_service_calls (log : List Event) : List String :=
  log.filterMap fun e =>
    match e with
    | .start_service service => some service
    | _ => none

/-- The number of `g_timeout_add_seconds` calls. -/
def timeout_add_calls (log : List Event) : Nat :=
  log.count .timeout_add

/-! ## Sample data for the concrete instances -/

/-- A catalog in which every address holds an application with a service
and the always-on prestart policy, inactive and without process id. -/
def sample_items : AppRef → HdLauncherItem := fun _ =>
  { item_type := .HD_APPLICATION_LAUNCHER
    id := "sample"
    service := some "com.nokia.sample"
    exec := none
    wm_class := none
    state := .HD_APP_STATE_INACTIVE
    pid := 0
    prestart_mode := .HD_APP_PRESTART_ALWAYS }

/-- A freshly initialised manager on a system without memory counters and
with `HILDON_DESKTOP_APPS_PRESTART=yes`, over `sample_items`. -/
def sample_mgr : Mgr :=
  hd_app_mgr_init 32 (some "yes") .no_file .no_file .no_file .no_file
    sample_items [1, 2, 3]

/-- The sample manager with given contents of the prestartable and the
prestarted queue. -/
def sample_mgr_with (prestartable prestarted : List AppRef) : Mgr :=
  (sample_mgr.set_queue .QUEUE_PRESTARTABLE prestartable).set_queue
    .QUEUE_PRESTARTED prestarted

/-- An environment in which every request succeeds: an application is
executing when its state is Prestarted, Loading or Shown, signals are
delivered, the session bus answers, services start with process id 4321,
and no memory counter exists. -/
def sample_env : Env :=
  { free_file := .no_file
    is_executing := fun it =>
      decide (it.state = .HD_APP_STATE_PRESTARTED ∨
        it.state = .HD_APP_STATE_LOADING ∨ it.state = .HD_APP_STATE_SHOWN)
    kill_ok := fun _ => true
    bus_get_ok := true
    start_service_ok := fun _ => true
    message_new_ok := true
    connection_send_ok := true
    service_pid := fun _ => 4321
    execute := fun _ => some 4322
    hdrm_launcher := false }

/-- The sample manager under low memory, with application 3 waiting to be
prestarted and applications 1 and 2 prestarted (every application in state
Prestarted, with process id 100 plus its address). -/
def sample_mgr_lowmem : Mgr :=
  { sample_mgr_with [3] [1, 2] with
    priv := { (sample_mgr_with [3] [1, 2]).priv with
      lowmem := true, init_done := true }
    items := fun a =>
      { sample_items a with
        state := .HD_APP_STATE_PRESTARTED, pid := 100 + a } }

/-- The sample manager after start-up has finished, with applications 1
and 2 waiting to be prestarted. -/
def sample_mgr_ready : Mgr :=
  { sample_mgr_with [1, 2] [] with
    priv := { (sample_mgr_with [1, 2] []).priv with init_done := true } }

/-- A run from start-up over a catalog holding the one always-on
application 1: the tree is populated (1 becomes prestartable), start-up
finishes (`init_done`: 1 is prestarted), the service of application 1 loses
its owner. -/
def service_loss_run : List (Env × Op) :=
  [(sample_env, .populate_tree_finished),
   (sample_env, .signal .init_done),
   (sample_env, .name_owner_changed "com.nokia.sample" ":1.42" "")]

/-- The environment `sample_env`, except that no service can be started. -/
def sample_env_no_start : Env :=
  { sample_env with start_service_ok := fun _ => false }

/-- The run `service_loss_run` with the service failing to start again after
it lost its owner. -/
def service_loss_run_no_restart : List (Env × Op) :=
  [(sample_env, .populate_tree_finished),
   (sample_env, .signal .init_done),
   (sample_env_no_start, .name_owner_changed "com.nokia.sample" ":1.42" "")]

/-- The manager at start-up over the catalog holding application 1 only. -/
def sample_mgr_single : Mgr :=
  hd_app_mgr_init 32 (some "yes") .no_file .no_file .no_file .no_file
    sample_items [1]

/-! ## Further readings of the log and of a pair of states -/

/-- The calls of `hd_app_mgr_service_top`, service and parameter, in
order. -/
def service_top_calls (log : List Event) : List (String × Option String) :=
  log.filterMap fun e =>
    match e with
    | .service_top service param => some (service, param)
    | _ => none

/-- The command lines handed to `hd_app_mgr_execute`, in order. -/
def execute_calls (log : List Event) : List String :=
  log.filterMap fun e =>
    match e with
    | .execute exec => some exec
    | _ => none

/-- The applications for which "application-launched" was emitted, in
order. -/
def app_launched_calls (log : List Event) : List AppRef :=
  log.filterMap fun e =>
    match e with
    | .app_launched app => some app
    | _ => none

/-- The number of entries into `hd_app_mgr_state_check_loop`. -/
def state_check_loop_calls (log : List Event) : Nat :=
  log.count .state_check_loop

/-- The state `m2` differs from `m1` at most in the contents of the queues,
in the launcher items and in the log: the flags, the limits, the looping
flag, the tree and the number of timers are the same. -/
def queues_only (m1 m2 : Mgr) : Prop :=
  (∃ qs, m2.priv = { m1.priv with queues := qs }) ∧
    m2.timers = m1.timers ∧ m2.tree = m1.tree

/-- The number of armed state-check timers agrees with the flag
`state_check_looping`: one when it is set, none when it is clear. -/
def timer_invariant (m : Mgr) : Prop :=
  m.timers = if m.priv.state_check_looping then 1 else 0

/-- The first three blocks of `hd_app_mgr_state_check_loop`: the state and
the value of `loop` when the last block, which deals with the timer, is
reached. -/
def state_check_loop_blocks (w : Nat) (env : Env) (m : Mgr) : Mgr × Bool :=
  let m := m.emit .state_check_loop
  let (m, loop) := state_check_loop_lowmem env m false
  let (m, loop) := state_check_loop_bgkill m loop
  state_check_loop_prestart w env m loop

/-- The four status flags of `m2` are those of `m1`. -/
def same_flags (m1 m2 : Mgr) : Prop :=
  m2.priv.lowmem = m1.priv.lowmem ∧ m2.priv.bg_killing = m1.priv.bg_killing ∧
    m2.priv.init_done = m1.priv.init_done ∧
    m2.priv.launcher_shown = m1.priv.launcher_shown

/-- The assignment `priv->lowmem = b`. -/
def Mgr.set_lowmem (m : Mgr) (b : Bool) : Mgr :=
  { m with priv := { m.priv with lowmem := b } }

/-- The assignment `priv->bg_killing = b`. -/
def Mgr.set_bg_killing (m : Mgr) (b : Bool) : Mgr :=
  { m with priv := { m.priv with bg_killing := b } }

/-- The assignment `priv->init_done = b`. -/
def Mgr.set_init_done (m : Mgr) (b : Bool) : Mgr :=
  { m with priv := { m.priv with init_done := b } }

/-- The sample manager with every application in a given state and with a
given process id, and with given contents of the four queues. -/
def sample_mgr_of (st : HdLauncherAppState) (pid : Nat)
    (prestartable prestarted hibernatable hibernated : List AppRef) : Mgr :=
  { sample_mgr with
    priv := { sample_mgr.priv with
      queues := fun q =>
        match q with
        | .QUEUE_PRESTARTABLE => prestartable
        | .QUEUE_PRESTARTED => prestarted
        | .QUEUE_HIBERNATABLE => hibernatable
        | .QUEUE_HIBERNATED => hibernated }
    items := fun a => { sample_items a with state := st, pid := pid } }

/-- The environment `sample_env`, except that signals are not delivered. -/
def sample_env_no_kill : Env :=
  { sample_env with kill_ok := fun _ => false }

/-- The environment `sample_env`, except that the session bus cannot be
reached. -/
def sample_env_no_bus : Env :=
  { sample_env with bus_get_ok := false }

/-- The environment `sample_env`, except that the free-page counter reads
10 pages. -/
def sample_env_low_free : Env :=
  { sample_env with free_file := .content "10\n".toList }

/-- The sample manager of `sample_mgr_of` on a system whose counters give a
launch threshold of 900 + 100 pages. -/
def sample_mgr_limits (st : HdLauncherAppState) (pid : Nat)
    (prestartable prestarted hibernatable hibernated : List AppRef) : Mgr :=
  { sample_mgr_of st pid prestartable prestarted hibernatable hibernated with
    priv := { (sample_mgr_of st pid prestartable prestarted hibernatable
        hibernated).priv with
      launch_required_pages :=
        hd_app_mgr_setup_launch 32
          (hd_app_mgr_read_lowmem 32 (.content "900\n".toList))
          (hd_app_mgr_read_lowmem 32 (.content "100\n".toList)) } }

/-! ## Window matching in the words of the specification -/

/-- The applications for which "application-appeared" was emitted, in
order. -/
def app_shown_calls (log : List Event) : List AppRef :=
  log.filterMap fun e =>
    match e with
    | .app_shown app => some app
    | _ => none

/-- A `String` that can be the content of a zero-terminated C string: no
character of it is the terminator. -/
def c_string (s : String) : Prop :=
  ∀ ch ∈ s.toList, ch.toNat ≠ 0

/-- The three tests of the specification for one application record:
(a) the class hint is the declared window class, (b) the class hint is,
ignoring ASCII case, a beginning of the catalog id, (c) the name hint is the
executable string.  This follows the wording of the specification; the
source is `match_window_app`. -/
def window_matches (res_name res_class : Option String)
    (app : HdLauncherItem) : Prop :=
  (∃ c, res_class = some c ∧ app.wm_class = some c) ∨
  (∃ c, res_class = some c ∧
    c.toList.map g_ascii_tolower <+: app.id.toList.map g_ascii_tolower) ∨
  (∃ n, res_name = some n ∧ app.exec = some n)

/-! ## More sample data -/

/-- A small catalog: item 1 is a category called "mail-folders", item 2 the
application "browser-settings" without declared window class, item 3 the
application "osso-web" with declared window class "Browser", item 4 the
application "mail"; every other address holds an application "other". -/
def sample_items_desk : AppRef → HdLauncherItem := fun a =>
  if a = 1 then
    { sample_items a with
      item_type := .HD_CATEGORY_LAUNCHER, id := "mail-folders",
      service := none }
  else if a = 2 then
    { sample_items a with
      id := "browser-settings", service := some "com.nokia.settings",
      exec := some "/usr/bin/browser-settings" }
  else if a = 3 then
    { sample_items a with
      id := "osso-web", service := some "com.nokia.web",
      wm_class := some "Browser" }
  else if a = 4 then
    { sample_items a with
      id := "mail", service := some "com.nokia.mail",
      exec := some "/usr/bin/mail" }
  else { sample_items a with id := "other" }

/-- The sample manager over the catalog `sample_items_desk` with the tree
`[1, 2, 3, 4]` and given prestartable and prestarted queues. -/
def sample_mgr_desk (prestartable prestarted : List AppRef) : Mgr :=
  { sample_mgr_with prestartable prestarted with
    items := sample_items_desk, tree := [1, 2, 3, 4] }

/-- The catalog `sample_items` with application 1 lacking a service. -/
def sample_items_no_service : AppRef → HdLauncherItem := fun a =>
  if a = 1 then { sample_items a with service := none } else sample_items a

/-- The manager `sample_mgr_ready` (start-up finished, prestartable queue
`[1, 2]`) over `sample_items_no_service`. -/
def sample_mgr_no_service : Mgr :=
  { sample_mgr_ready with items := sample_items_no_service }

/-- The manager `sample_mgr_ready` with every application already shown. -/
def sample_mgr_ready_shown : Mgr :=
  { sample_mgr_ready with
    items := fun a =>
      { sample_items a with state := .HD_APP_STATE_SHOWN, pid := 100 + a } }

/-- A run from start-up over the catalog holding application 1: the tree is
populated, start-up finishes (application 1 is prestarted), the user
launches application 1, low memory is reported. -/
def launch_prestarted_run : List (Env × Op) :=
  [(sample_env, .populate_tree_finished),
   (sample_env, .signal .init_done),
   (sample_env, .launch 1),
   (sample_env, .signal .lowmem_on)]

/-! ## One call of `hd_app_mgr_read_lowmem` and the memory it finds -/

/-- The environment `sample_env` with the render manager in the launcher
state. -/
def sample_env_launcher : Env :=
  { sample_env with hdrm_launcher := true }

/-- A run in which the launcher is shown and stays shown: the render manager
reports the launcher state, background killing is switched on, application 1
becomes hibernatable, and the render manager notifies again, still in the
launcher state. -/
def launcher_shown_run : List (Env × Op) :=
  [(sample_env_launcher, .hdrm_state_change),
   (sample_env_launcher, .signal .bgkill_on),
   (sample_env_launcher, .hibernatable (some 1)),
   (sample_env_launcher, .hdrm_state_change)]

end HdAppMgr

/-! # Theorems -/

namespace HdAppMgr

/-! ## Queue lemmas -/

theorem queue_set_queue (m : Mgr) (q q' : HdAppMgrQueue) (l : List AppRef) :
    (m.set_queue q l).queue q' = if q' = q then l else m.queue q' := rfl

theorem set_queue_self (m : Mgr) (q : HdAppMgrQueue) :
    m.set_queue q (m.queue q) = m := by
  have h : (fun q' => if q' = q then m.priv.queues q else m.priv.queues q')
      = m.priv.queues := by
    funext q'
    split <;> simp_all
  simp only [Mgr.set_queue, Mgr.queue, h]

theorem set_queue_set_queue (m : Mgr) (q : HdAppMgrQueue)
    (l l' : List AppRef) :
    (m.set_queue q l).set_queue q l' = m.set_queue q l' := by
  have h : (fun q' => if q' = q then l'
      else (fun q'' => if q'' = q then l else m.priv.queues q'') q')
      = (fun q' => if q' = q then l' else m.priv.queues q') := by
    funext q'
    split <;> simp_all
  simp only [Mgr.set_queue]
  rw [h]

theorem erase_append_self_of_not_mem (l : List AppRef) (a : AppRef)
    (h : a ∉ l) : (l ++ [a]).erase a = l := by
  induction l with
  | nil => simp
  | cons b t ih =>
    have hb : b ≠ a := fun e => h (by simp [e])
    have ht : a ∉ t := fun e => h (by simp [e])
    simp [List.erase_cons, hb, ih ht]

/-! ## C2: moving an application that is not in the source queue -/

/-- C2: for every manager state, every pair of queues and every application
pointer (`NULL` included) that is not a member of `queue_from`,
`hd_app_mgr_move_queue` yields the same state, hence the same four queues,
as `hd_app_mgr_add_to_queue` on `queue_to`. -/
theorem move_queue_eq_add_to_queue_of_not_mem (m : Mgr)
    (queue_from queue_to : HdAppMgrQueue) (app : Option AppRef)
    (h : ∀ a, app = some a → a ∉ m.queue queue_from) :
    hd_app_mgr_move_queue queue_from queue_to app m =
        hd_app_mgr_add_to_queue queue_to app m ∧
      ∀ q, (hd_app_mgr_move_queue queue_from queue_to app m).queue q =
        (hd_app_mgr_add_to_queue queue_to app m).queue q := by
  have key : hd_app_mgr_move_queue queue_from queue_to app m =
      hd_app_mgr_add_to_queue queue_to app m := by
    cases app with
    | none => rfl
    | some a =>
      have ha : a ∉ m.queue queue_from := h a rfl
      simp [hd_app_mgr_move_queue, ha]
  exact ⟨key, fun q => by rw [key]⟩

/-- C2 at a concrete state: application 1 is not in the prestartable queue
`[2, 3]`; moving it to the prestarted queue `[4]` gives `[4, 1]` there, as
adding it does. -/
theorem move_queue_eq_add_to_queue_witness :
    (hd_app_mgr_move_queue .QUEUE_PRESTARTABLE .QUEUE_PRESTARTED (some 1)
        (sample_mgr_with [2, 3] [4]) =
      hd_app_mgr_add_to_queue .QUEUE_PRESTARTED (some 1)
        (sample_mgr_with [2, 3] [4]) ∧
    ∀ q, (hd_app_mgr_move_queue .QUEUE_PRESTARTABLE .QUEUE_PRESTARTED
        (some 1) (sample_mgr_with [2, 3] [4])).queue q =
      (hd_app_mgr_add_to_queue .QUEUE_PRESTARTED (some 1)
        (sample_mgr_with [2, 3] [4])).queue q) ∧
    (hd_app_mgr_move_queue .QUEUE_PRESTARTABLE .QUEUE_PRESTARTED (some 1)
        (sample_mgr_with [2, 3] [4])).queue .QUEUE_PRESTARTED = [4, 1] :=
  ⟨move_queue_eq_add_to_queue_of_not_mem (sample_mgr_with [2, 3] [4])
      .QUEUE_PRESTARTABLE .QUEUE_PRESTARTED (some 1)
      (by intro a ha; cases ha; decide),
    by decide⟩

/-! ## C3: adding and then removing -/

/-- C3 fails when the application is already in the queue: from the
prestartable queue `[1, 2]`, adding application 1 gives `[1, 2, 1]` and
removing it deletes the first cell, leaving `[2, 1]`. -/
theorem add_then_remove_reorders :
    (sample_mgr_with [1, 2] []).queue .QUEUE_PRESTARTABLE = [1, 2] ∧
    (hd_app_mgr_remove_from_queue .QUEUE_PRESTARTABLE (some 1)
      (hd_app_mgr_add_to_queue .QUEUE_PRESTARTABLE (some 1)
        (sample_mgr_with [1, 2] []))).queue .QUEUE_PRESTARTABLE = [2, 1] := by
  decide

/-- C3, amended: for every queue, every content of it that does not hold
the (non-null) application already, `hd_app_mgr_add_to_queue` followed by
`hd_app_mgr_remove_from_queue` leaves that queue as it was before the add,
elements and order, and leaves the other three queues unchanged. -/
theorem add_then_remove_of_not_mem (m : Mgr) (queue : HdAppMgrQueue)
    (a : AppRef) (h : a ∉ m.queue queue) :
    ∀ q, (hd_app_mgr_remove_from_queue queue (some a)
      (hd_app_mgr_add_to_queue queue (some a) m)).queue q = m.queue q := by
  intro q
  simp only [hd_app_mgr_add_to_queue, hd_app_mgr_remove_from_queue,
    queue_set_queue, if_true, set_queue_set_queue]
  simp [erase_append_self_of_not_mem _ _ h, set_queue_self]

/-- C3, amended, at a concrete state: application 3 is not in the
prestartable queue `[1, 2]`, which is `[1, 2]` again after add and
remove. -/
theorem add_then_remove_witness :
    3 ∉ (sample_mgr_with [1, 2] []).queue .QUEUE_PRESTARTABLE ∧
    ∀ q, (hd_app_mgr_remove_from_queue .QUEUE_PRESTARTABLE (some 3)
      (hd_app_mgr_add_to_queue .QUEUE_PRESTARTABLE (some 3)
        (sample_mgr_with [1, 2] []))).queue q =
      (sample_mgr_with [1, 2] []).queue q :=
  ⟨by decide,
    add_then_remove_of_not_mem (sample_mgr_with [1, 2] [])
      .QUEUE_PRESTARTABLE 3 (by decide)⟩

/-! ## Memory-limit lemmas -/

theorem prestart_env_enabled_of_ne (t : String) (h0 : t ≠ "")
    (h1 : t ≠ "no") (h2 : t ≠ "false") :
    prestart_env_enabled (some t) = true := by
  simp [prestart_env_enabled, h0, h1, h2]

theorem prestart_env_enabled_of_off (e : Option String)
    (h : e = none ∨ e = some "" ∨ e = some "no" ∨ e = some "false") :
    prestart_env_enabled e = false := by
  rcases h with h | h | h | h <;> subst h <;> decide

theorem strtol_of_no_number (w : Nat) (c : Char) (cs : List Char)
    (hs : isspace c = false) (hm : c ≠ '-') (hp : c ≠ '+')
    (hd : ¬ (48 ≤ c.toNat ∧ c.toNat ≤ 57)) :
    strtol w (c :: cs) = 0 := by
  simp [strtol, List.dropWhile, hs, hm, hp, strtol_digits, hd]

/-! ## C4: `hd_app_mgr_can_launch` -/

/-- C4: `hd_app_mgr_can_launch` returns true if and only if
`launch_required_pages` is `NSIZE`, or the free-page counter read at the call
is `NSIZE`, or the free pages are at least `launch_required_pages`; and when
`launch_required_pages` is `NSIZE` it returns true whatever the state of the
free-page counter. -/
theorem can_launch_iff (w : Nat) (free_file : LowmemFile)
    (priv : HdAppMgrPrivate) :
    (hd_app_mgr_can_launch w free_file priv = true ↔
      (priv.launch_required_pages = NSIZE w ∨
        hd_app_mgr_read_lowmem w free_file = NSIZE w ∨
        priv.launch_required_pages ≤ hd_app_mgr_read_lowmem w free_file)) ∧
    (priv.launch_required_pages = NSIZE w →
      ∀ f : LowmemFile, hd_app_mgr_can_launch w f priv = true) := by
  constructor
  · unfold hd_app_mgr_can_launch
    by_cases h1 : priv.launch_required_pages = NSIZE w
    · simp [h1]
    · by_cases h2 : hd_app_mgr_read_lowmem w free_file = NSIZE w
      · simp [h1, h2]
      · simp [h1, h2]
  · intro h f
    simp [hd_app_mgr_can_launch, h]

/-! ## C5: `hd_app_mgr_can_prestart` -/

/-- C5: `hd_app_mgr_can_prestart` is true in mode Always and false in mode
Never whatever the free-page counter holds; in mode Auto it is true when the
counter reads `NSIZE` and otherwise it is the comparison
`free_pages >= prestart_required_pages`. -/
theorem can_prestart_by_mode (w : Nat) (free_file : LowmemFile)
    (priv : HdAppMgrPrivate) :
    (priv.prestart_mode = .PRESTART_ALWAYS →
      hd_app_mgr_can_prestart w free_file priv = true) ∧
    (priv.prestart_mode = .PRESTART_NEVER →
      hd_app_mgr_can_prestart w free_file priv = false) ∧
    (priv.prestart_mode = .PRESTART_AUTO →
      hd_app_mgr_read_lowmem w free_file = NSIZE w →
      hd_app_mgr_can_prestart w free_file priv = true) ∧
    (priv.prestart_mode = .PRESTART_AUTO →
      hd_app_mgr_read_lowmem w free_file ≠ NSIZE w →
      hd_app_mgr_can_prestart w free_file priv =
        decide (priv.prestart_required_pages ≤
          hd_app_mgr_read_lowmem w free_file)) := by
  refine ⟨?_, ?_, ?_, ?_⟩
  · intro h
    simp [hd_app_mgr_can_prestart, h]
  · intro h
    simp [hd_app_mgr_can_prestart, h]
  · intro h hf
    simp [hd_app_mgr_can_prestart, h, hf]
  · intro h hf
    simp [hd_app_mgr_can_prestart, h, hf]

/-! ## C6: `hd_app_mgr_setup_prestart` without memory limits -/

/-- C6 fails for the empty string: with both counters unavailable and
`HILDON_DESKTOP_APPS_PRESTART` set to "" (a value that is set and is neither
"no" nor "false"), `hd_app_mgr_setup_prestart` returns mode Never, not
Always. -/
theorem setup_prestart_no_limits_empty_value :
    ("" : String) ≠ "no" ∧ ("" : String) ≠ "false" ∧
    hd_app_mgr_setup_prestart 32 (some "") .no_file (NSIZE 32) (NSIZE 32) =
      (.PRESTART_NEVER, NSIZE 32) := by
  decide

/-- C6, amended: when the low watermark or the decay margin is `NSIZE`,
`hd_app_mgr_setup_prestart` stores `NSIZE` in `prestart_required_pages` and
returns mode Always for every configuration value that is set, is not empty
and is not "no" or "false", and mode Never when the value is unset, empty,
"no" or "false". -/
theorem setup_prestart_no_limits (w : Nat) (prestart_env : Option String)
    (nr_decay_file : LowmemFile) (low_pages nr_decay_pages : Nat)
    (h : low_pages = NSIZE w ∨ nr_decay_pages = NSIZE w) :
    (∀ t, prestart_env = some t → t ≠ "" → t ≠ "no" → t ≠ "false" →
      hd_app_mgr_setup_prestart w prestart_env nr_decay_file low_pages
        nr_decay_pages = (.PRESTART_ALWAYS, NSIZE w)) ∧
    (prestart_env = none ∨ prestart_env = some "" ∨
        prestart_env = some "no" ∨ prestart_env = some "false" →
      hd_app_mgr_setup_prestart w prestart_env nr_decay_file low_pages
        nr_decay_pages = (.PRESTART_NEVER, NSIZE w)) := by
  constructor
  · intro t ht h0 h1 h2
    subst ht
    simp [hd_app_mgr_setup_prestart, h, prestart_env_enabled_of_ne t h0 h1 h2]
  · intro hoff
    simp [hd_app_mgr_setup_prestart, h, prestart_env_enabled_of_off _ hoff]

/-- C6, amended, at the input of the specification: both counters
unavailable and the value "42" give mode Always; the value "no" gives
Never. -/
theorem setup_prestart_no_limits_witness :
    hd_app_mgr_setup_prestart 32 (some "42") .no_file (NSIZE 32) (NSIZE 32) =
      (.PRESTART_ALWAYS, NSIZE 32) ∧
    hd_app_mgr_setup_prestart 32 (some "no") .no_file (NSIZE 32) (NSIZE 32) =
      (.PRESTART_NEVER, NSIZE 32) :=
  ⟨(setup_prestart_no_limits 32 (some "42") .no_file (NSIZE 32) (NSIZE 32)
      (Or.inl rfl)).1 "42" rfl (by decide) (by decide) (by decide),
   (setup_prestart_no_limits 32 (some "no") .no_file (NSIZE 32) (NSIZE 32)
      (Or.inl rfl)).2 (by decide)⟩

/-! ## C7: `hd_app_mgr_setup_prestart` with memory limits -/

/-- C7 fails for the empty string: with low watermark 100 and decay margin
10 both available and `HILDON_DESKTOP_APPS_PRESTART` set to "" (not unset,
not "no", not "false"), `hd_app_mgr_setup_prestart` returns
(Never, `NSIZE`), not mode Auto. -/
theorem setup_prestart_limits_empty_value :
    (some "" : Option String) ≠ none ∧ (some "" : Option String) ≠ some "no" ∧
    (some "" : Option String) ≠ some "false" ∧
    (100 : Nat) ≠ NSIZE 32 ∧ (10 : Nat) ≠ NSIZE 32 ∧
    hd_app_mgr_setup_prestart 32 (some "") (.content "10\n".toList) 100 10 =
      (.PRESTART_NEVER, NSIZE 32) := by
  decide

/-- C7, amended: when the low watermark and the decay margin are both
available, `hd_app_mgr_setup_prestart` returns (Never, `NSIZE`) if the
configuration value is unset, empty, "no" or "false"; for every other value
it returns mode Auto with `prestart_required_pages = low_pages + reserved`
modulo `2 ^ w`, where `reserved = (size_t) strtol (value, NULL, 10)`, except
that for `reserved = 0` it is `low_pages` plus the decay margin read again
from the counter file (not the argument), modulo `2 ^ w`; and `reserved` is 0
for a value whose first character is not white space, a sign or a digit. -/
theorem setup_prestart_limits (w : Nat) (prestart_env : Option String)
    (nr_decay_file : LowmemFile) (low_pages nr_decay_pages : Nat)
    (hl : low_pages ≠ NSIZE w) (hd : nr_decay_pages ≠ NSIZE w) :
    (prestart_env = none ∨ prestart_env = some "" ∨
        prestart_env = some "no" ∨ prestart_env = some "false" →
      hd_app_mgr_setup_prestart w prestart_env nr_decay_file low_pages
        nr_decay_pages = (.PRESTART_NEVER, NSIZE w)) ∧
    (∀ t, prestart_env = some t → t ≠ "" → t ≠ "no" → t ≠ "false" →
      hd_app_mgr_setup_prestart w prestart_env nr_decay_file low_pages
        nr_decay_pages =
      (.PRESTART_AUTO,
        if size_t_of_long w (strtol w t.toList) = 0 then
          (low_pages + hd_app_mgr_read_lowmem w nr_decay_file) % 2 ^ w
        else (low_pages + size_t_of_long w (strtol w t.toList)) % 2 ^ w)) ∧
    (∀ c cs, isspace c = false → c ≠ '-' → c ≠ '+' →
      ¬ (48 ≤ c.toNat ∧ c.toNat ≤ 57) →
      size_t_of_long w (strtol w (c :: cs)) = 0) := by
  refine ⟨?_, ?_, ?_⟩
  · intro hoff
    simp [hd_app_mgr_setup_prestart, hl, hd,
      prestart_env_enabled_of_off _ hoff]
  · intro t ht h0 h1 h2
    subst ht
    simp only [hd_app_mgr_setup_prestart, hl, hd, or_self, if_false,
      prestart_env_enabled_of_ne t h0 h1 h2, if_true, Option.getD_some]
    split <;> rfl
  · intro c cs hs hm hp hdg
    simp [strtol_of_no_number w c cs hs hm hp hdg, size_t_of_long]

/-- C7, amended, at the input of the specification: low watermark 100,
decay margin argument 10 and the value "0", with the counter file now
holding 25, give mode Auto and 100 + 25 pages (the fresh reading, not the
argument); the value "auto" does the same and "50" gives 150. -/
theorem setup_prestart_limits_witness :
    hd_app_mgr_setup_prestart 32 (some "0") (.content "25\n".toList) 100 10 =
      (.PRESTART_AUTO, 125) ∧
    hd_app_mgr_setup_prestart 32 (some "auto") (.content "25\n".toList)
      100 10 = (.PRESTART_AUTO, 125) ∧
    hd_app_mgr_setup_prestart 32 (some "50") (.content "25\n".toList)
      100 10 = (.PRESTART_AUTO, 150) :=
  ⟨((setup_prestart_limits 32 (some "0") (.content "25\n".toList) 100 10
      (by decide) (by decide)).2.1 "0" rfl (by decide) (by decide)
      (by decide)).trans (by decide),
   by decide, by decide⟩


/-! ## Lemmas on the log and on `hd_app_mgr_kill` -/

theorem remove_from_queue_eq (m : Mgr) (q : HdAppMgrQueue) (a : AppRef) :
    hd_app_mgr_remove_from_queue q (some a) m =
      m.set_queue q ((m.queue q).erase a) := by
  unfold hd_app_mgr_remove_from_queue
  by_cases h : a ∈ m.queue q
  · simp [h]
  · simp only [h, if_false]
    rw [List.erase_of_not_mem h, set_queue_self]

theorem kill_calls_append (l l' : List Event) :
    kill_calls (l ++ l') = kill_calls l ++ kill_calls l' := by
  simp [kill_calls, List.filterMap_append]

theorem prestart_calls_append (l l' : List Event) :
    prestart_calls (l ++ l') = prestart_calls l ++ prestart_calls l' := by
  simp [prestart_calls, List.filterMap_append]

theorem sigterm_calls_append (l l' : List Event) :
    sigterm_calls (l ++ l') = sigterm_calls l ++ sigterm_calls l' := by
  simp [sigterm_calls, List.filterMap_append]

theorem start_service_calls_append (l l' : List Event) :
    start_service_calls (l ++ l') =
      start_service_calls l ++ start_service_calls l' := by
  simp [start_service_calls, List.filterMap_append]

/-- What `hd_app_mgr_kill` does, by its return value. -/
theorem kill_cases (env : Env) (app : AppRef) (m : Mgr) :
    ((hd_app_mgr_kill env app m).2 = false ∧
      (hd_app_mgr_kill env app m).1.priv = m.priv ∧
      (hd_app_mgr_kill env app m).1.items = m.items ∧
      (sigterm_calls (hd_app_mgr_kill env app m).1.log = sigterm_calls m.log ∨
        sigterm_calls (hd_app_mgr_kill env app m).1.log =
          sigterm_calls m.log ++ [(m.items app).pid])) ∨
    ((hd_app_mgr_kill env app m).2 = true ∧
      (hd_app_mgr_kill env app m).1.priv =
        ((m.set_queue .QUEUE_PRESTARTED
          ((m.queue .QUEUE_PRESTARTED).erase app)).set_queue
            .QUEUE_HIBERNATABLE
              ((m.queue .QUEUE_HIBERNATABLE).erase app)).priv ∧
      (hd_app_mgr_kill env app m).1.items =
        (hd_launcher_app_set_state app .HD_APP_STATE_INACTIVE m).items ∧
      sigterm_calls (hd_app_mgr_kill env app m).1.log =
        sigterm_calls m.log ++ [(m.items app).pid]) := by
  unfold hd_app_mgr_kill
  simp only [remove_from_queue_eq]
  by_cases h1 : env.is_executing (m.items app) = true <;>
  by_cases h2 : (m.items app).pid = 0 <;>
  by_cases h3 : env.kill_ok (m.items app).pid = true <;>
  simp [h1, h2, h3, Mgr.emit, Mgr.set_queue, Mgr.queue,
    hd_launcher_app_set_state, sigterm_calls_append, sigterm_calls]

theorem kill_log (env : Env) (app : AppRef) (m : Mgr) :
    kill_calls (hd_app_mgr_kill env app m).1.log =
      kill_calls m.log ++ [app] ∧
    prestart_calls (hd_app_mgr_kill env app m).1.log =
      prestart_calls m.log ∧
    start_service_calls (hd_app_mgr_kill env app m).1.log =
      start_service_calls m.log ∧
    (hd_app_mgr_kill env app m).1.timers = m.timers := by
  unfold hd_app_mgr_kill
  simp only [remove_from_queue_eq]
  by_cases h1 : env.is_executing (m.items app) = true <;>
  by_cases h2 : (m.items app).pid = 0 <;>
  by_cases h3 : env.kill_ok (m.items app).pid = true <;>
  simp [h1, h2, h3, Mgr.emit, Mgr.set_queue, hd_launcher_app_set_state,
    kill_calls_append, prestart_calls_append, start_service_calls_append,
    kill_calls, prestart_calls, start_service_calls]

theorem kill_snd_emit (env : Env) (app : AppRef) (m : Mgr) (e : Event) :
    (hd_app_mgr_kill env app (m.emit e)).2 = (hd_app_mgr_kill env app m).2 := by
  unfold hd_app_mgr_kill
  by_cases h1 : env.is_executing (m.items app) = true <;>
  by_cases h2 : (m.items app).pid = 0 <;>
  by_cases h3 : env.kill_ok (m.items app).pid = true <;>
  simp [h1, h2, h3, Mgr.emit]

/-! ## Lemmas on the blocks of the state check -/

theorem timer_frame (m : Mgr) (loop : Bool) :
    (state_check_loop_timer m loop).2 = loop ∧
    (state_check_loop_timer m loop).1.priv.queues = m.priv.queues ∧
    (state_check_loop_timer m loop).1.items = m.items ∧
    kill_calls (state_check_loop_timer m loop).1.log = kill_calls m.log ∧
    prestart_calls (state_check_loop_timer m loop).1.log =
      prestart_calls m.log ∧
    sigterm_calls (state_check_loop_timer m loop).1.log =
      sigterm_calls m.log ∧
    start_service_calls (state_check_loop_timer m loop).1.log =
      start_service_calls m.log := by
  unfold state_check_loop_timer
  cases hl : m.priv.state_check_looping <;> cases loop <;>
  simp [Mgr.emit, kill_calls_append, prestart_calls_append,
    sigterm_calls_append, start_service_calls_append, kill_calls,
    prestart_calls, sigterm_calls, start_service_calls]

theorem bgkill_frame (m : Mgr) (loop : Bool) :
    (state_check_loop_bgkill m loop).1 = m ∧
    (loop = true → (state_check_loop_bgkill m loop).2 = true) := by
  unfold state_check_loop_bgkill
  constructor
  · split
    · split <;> rfl
    · rfl
  · intro h
    subst h
    split
    · split <;> rfl
    · rfl


theorem state_check_loop_unfold (w : Nat) (env : Env) (m : Mgr) :
    hd_app_mgr_state_check_loop w env m =
      state_check_loop_timer
        (state_check_loop_prestart w env
          (state_check_loop_bgkill
            (state_check_loop_lowmem env (m.emit .state_check_loop) false).1
            (state_check_loop_lowmem env (m.emit .state_check_loop) false).2).1
          (state_check_loop_bgkill
            (state_check_loop_lowmem env (m.emit .state_check_loop) false).1
            (state_check_loop_lowmem env (m.emit .state_check_loop) false).2).2).1
        (state_check_loop_prestart w env
          (state_check_loop_bgkill
            (state_check_loop_lowmem env (m.emit .state_check_loop) false).1
            (state_check_loop_lowmem env (m.emit .state_check_loop) false).2).1
          (state_check_loop_bgkill
            (state_check_loop_lowmem env (m.emit .state_check_loop) false).1
            (state_check_loop_lowmem env (m.emit .state_check_loop) false).2).2).2 :=
  rfl

theorem lowmem_block_fires (env : Env) (m : Mgr) (loop : Bool)
    (app : AppRef) (rest : List AppRef) (hl : m.priv.lowmem = true)
    (hq : m.queue .QUEUE_PRESTARTED = app :: rest) :
    (state_check_loop_lowmem env m loop).1 = (hd_app_mgr_kill env app m).1 ∧
    ((hd_app_mgr_kill env app m).1.queue .QUEUE_PRESTARTED ≠ [] →
      (state_check_loop_lowmem env m loop).2 = true) := by
  unfold state_check_loop_lowmem
  simp only [hl, hq, if_true]
  constructor
  · split <;> rfl
  · intro h
    simp [h]

theorem lowmem_block_skips (env : Env) (m : Mgr) (loop : Bool)
    (h : m.priv.lowmem = false ∨ m.queue .QUEUE_PRESTARTED = []) :
    state_check_loop_lowmem env m loop = (m, loop) := by
  unfold state_check_loop_lowmem
  rcases h with h | h
  · simp [h]
  · simp [h]

theorem prestart_block_skips (w : Nat) (env : Env) (m : Mgr) (loop : Bool)
    (h : state_check_loop_may_prestart w env m = false) :
    state_check_loop_prestart w env m loop = (m, loop) := by
  unfold state_check_loop_prestart
  simp [h]

theorem prestart_block_fires (w : Nat) (env : Env) (m : Mgr) (loop : Bool)
    (app : AppRef) (rest : List AppRef)
    (h : state_check_loop_may_prestart w env m = true)
    (hq : m.queue .QUEUE_PRESTARTABLE = app :: rest) :
    (state_check_loop_prestart w env m loop).1 =
      (hd_app_mgr_prestart env app m).1 ∧
    ((hd_app_mgr_prestart env app m).1.queue .QUEUE_PRESTARTABLE ≠ [] →
      (state_check_loop_prestart w env m loop).2 = true) := by
  unfold state_check_loop_prestart
  simp only [h, hq, if_true]
  constructor
  · split <;> rfl
  · intro h'
    simp [h']


theorem may_prestart_false_of_lowmem (w : Nat) (env : Env) (m : Mgr)
    (h : m.priv.lowmem = true) :
    state_check_loop_may_prestart w env m = false := by
  simp [state_check_loop_may_prestart, h]

theorem kill_lowmem (env : Env) (app : AppRef) (m : Mgr) :
    (hd_app_mgr_kill env app m).1.priv.lowmem = m.priv.lowmem := by
  rcases kill_cases env app m with ⟨_, hp, _⟩ | ⟨_, hp, _⟩ <;>
    simp [hp, Mgr.set_queue]

theorem kill_queue_prestarted (env : Env) (app : AppRef) (m : Mgr) :
    ((hd_app_mgr_kill env app m).2 = false →
      (hd_app_mgr_kill env app m).1.queue .QUEUE_PRESTARTED =
        m.queue .QUEUE_PRESTARTED) ∧
    ((hd_app_mgr_kill env app m).2 = true →
      (hd_app_mgr_kill env app m).1.queue .QUEUE_PRESTARTED =
        (m.queue .QUEUE_PRESTARTED).erase app) := by
  rcases kill_cases env app m with ⟨hr, hp, _⟩ | ⟨hr, hp, _⟩
  · simp [hr, Mgr.queue, hp]
  · simp [hr, Mgr.queue, hp, Mgr.set_queue]


theorem move_queue_eq (m : Mgr) (f t : HdAppMgrQueue) (a : AppRef) :
    (hd_app_mgr_move_queue f t (some a) m).priv =
      ((m.set_queue f ((m.queue f).erase a)).set_queue t
        ((m.set_queue f ((m.queue f).erase a)).queue t ++ [a])).priv ∧
    (hd_app_mgr_move_queue f t (some a) m).items = m.items ∧
    (hd_app_mgr_move_queue f t (some a) m).log = m.log ∧
    (hd_app_mgr_move_queue f t (some a) m).timers = m.timers := by
  unfold hd_app_mgr_move_queue
  by_cases h : a ∈ m.queue f
  · simp [h, Mgr.set_queue]
  · simp only [h, if_false, hd_app_mgr_add_to_queue]
    rw [List.erase_of_not_mem h, set_queue_self]
    simp [Mgr.set_queue]

theorem prestart_log (env : Env) (app : AppRef) (m : Mgr) :
    kill_calls (hd_app_mgr_prestart env app m).1.log = kill_calls m.log ∧
    sigterm_calls (hd_app_mgr_prestart env app m).1.log =
      sigterm_calls m.log ∧
    prestart_calls (hd_app_mgr_prestart env app m).1.log =
      prestart_calls m.log ++ [app] := by
  unfold hd_app_mgr_prestart
  simp only [remove_from_queue_eq, hd_app_mgr_add_to_queue]
  cases h1 : env.is_executing (m.items app) <;>
  cases h2 : (m.items app).service <;>
  cases h3 : env.bus_get_ok <;>
  simp [h1, h2, h3, Mgr.emit, Mgr.set_queue, hd_launcher_app_set_state,
    hd_launcher_app_set_pid, kill_calls_append, prestart_calls_append,
    sigterm_calls_append, kill_calls, prestart_calls, sigterm_calls]
  split <;>
  simp [(move_queue_eq _ _ _ _).2.2.1, kill_calls_append,
    prestart_calls_append, sigterm_calls_append, kill_calls, prestart_calls,
    sigterm_calls]

theorem prestart_block_log (w : Nat) (env : Env) (m : Mgr) (loop : Bool) :
    kill_calls (state_check_loop_prestart w env m loop).1.log =
      kill_calls m.log ∧
    sigterm_calls (state_check_loop_prestart w env m loop).1.log =
      sigterm_calls m.log := by
  by_cases h : state_check_loop_may_prestart w env m = true
  · cases hq : m.queue .QUEUE_PRESTARTABLE with
    | nil =>
      unfold state_check_loop_prestart
      simp [h, hq]
    | cons app rest =>
      rw [(prestart_block_fires w env m loop app rest h hq).1]
      exact ⟨(prestart_log env _ m).1, (prestart_log env _ m).2.1⟩
  · rw [prestart_block_skips w env m loop (by simpa using h)]
    exact ⟨rfl, rfl⟩

/-! ## C8: the low-memory block of the state check -/

/-- C8: in a state with `lowmem` set and a non-empty prestarted queue, one
call of `hd_app_mgr_state_check_loop` enters `hd_app_mgr_kill` once, on the
head of the prestarted queue, sends `SIGTERM` to no process other than the
one recorded for that head, enters `hd_app_mgr_prestart` not at all and
requests no service start; the prestarted queue afterwards is the old one
when the kill fails and the old one without its head when it succeeds, and
the call returns `loop = TRUE` when that queue is still non-empty.  With
`lowmem` clear or the prestarted queue empty, the call enters
`hd_app_mgr_kill` for no application and sends no signal. -/
theorem state_check_loop_lowmem_kills_head (w : Nat) (env : Env) (m : Mgr) :
    (∀ app rest, m.priv.lowmem = true →
      m.queue .QUEUE_PRESTARTED = app :: rest →
      kill_calls (hd_app_mgr_state_check_loop w env m).1.log =
        kill_calls m.log ++ [app] ∧
      prestart_calls (hd_app_mgr_state_check_loop w env m).1.log =
        prestart_calls m.log ∧
      start_service_calls (hd_app_mgr_state_check_loop w env m).1.log =
        start_service_calls m.log ∧
      (sigterm_calls (hd_app_mgr_state_check_loop w env m).1.log =
          sigterm_calls m.log ∨
        sigterm_calls (hd_app_mgr_state_check_loop w env m).1.log =
          sigterm_calls m.log ++ [(m.items app).pid]) ∧
      ((hd_app_mgr_kill env app m).2 = false →
        (hd_app_mgr_state_check_loop w env m).1.queue .QUEUE_PRESTARTED =
          app :: rest) ∧
      ((hd_app_mgr_kill env app m).2 = true →
        (hd_app_mgr_state_check_loop w env m).1.queue .QUEUE_PRESTARTED =
          rest) ∧
      ((hd_app_mgr_state_check_loop w env m).1.queue .QUEUE_PRESTARTED ≠ [] →
        (hd_app_mgr_state_check_loop w env m).2 = true)) ∧
    (m.priv.lowmem = false ∨ m.queue .QUEUE_PRESTARTED = [] →
      kill_calls (hd_app_mgr_state_check_loop w env m).1.log =
        kill_calls m.log ∧
      sigterm_calls (hd_app_mgr_state_check_loop w env m).1.log =
        sigterm_calls m.log) := by
  constructor
  · intro app rest hl hq
    have hl0 : (m.emit .state_check_loop).priv.lowmem = true := hl
    have hq0 : (m.emit .state_check_loop).queue .QUEUE_PRESTARTED =
        app :: rest := hq
    obtain ⟨hL1, hL2⟩ :=
      lowmem_block_fires env (m.emit .state_check_loop) false app rest hl0 hq0
    obtain ⟨hk1, hk2, hk3, -⟩ := kill_log env app (m.emit .state_check_loop)
    obtain ⟨hkq1, hkq2⟩ :=
      kill_queue_prestarted env app (m.emit .state_check_loop)
    rw [state_check_loop_unfold]
    have hlow : (hd_app_mgr_kill env app (m.emit .state_check_loop)).1.priv.lowmem
        = true := by rw [kill_lowmem]; exact hl0
    rw [hL1] at *
    rw [(bgkill_frame _ _).1]
    rw [prestart_block_skips w env _ _ (may_prestart_false_of_lowmem w env _ hlow)]
    have hsig : sigterm_calls
          (hd_app_mgr_kill env app (m.emit .state_check_loop)).1.log =
          sigterm_calls m.log ∨
        sigterm_calls
          (hd_app_mgr_kill env app (m.emit .state_check_loop)).1.log =
          sigterm_calls m.log ++ [(m.items app).pid] := by
      have h0 : sigterm_calls (m.emit .state_check_loop).log =
          sigterm_calls m.log := by
        simp [Mgr.emit, sigterm_calls_append, sigterm_calls]
      have h1 : ((m.emit .state_check_loop).items app).pid =
          (m.items app).pid := rfl
      rcases kill_cases env app (m.emit .state_check_loop) with
        ⟨-, -, -, hs | hs⟩ | ⟨-, -, -, hs⟩
      · left; rw [hs, h0]
      · right; rw [hs, h0, h1]
      · right; rw [hs, h0, h1]
    obtain ⟨ht1, ht2, -, ht4, ht5, ht6, ht7⟩ := timer_frame
      (hd_app_mgr_kill env app (m.emit .state_check_loop)).1
      (state_check_loop_bgkill
        (hd_app_mgr_kill env app (m.emit .state_check_loop)).1
        (state_check_loop_lowmem env (m.emit .state_check_loop) false).2).2
    simp only [Mgr.queue, ht2, ht4, ht5, ht6, ht7, ht1]
    rw [kill_snd_emit] at hkq1 hkq2
    refine ⟨?_, ?_, ?_, hsig, ?_, ?_, ?_⟩
    · rw [hk1]; simp [Mgr.emit, kill_calls_append, kill_calls]
    · rw [hk2]; simp [Mgr.emit, prestart_calls_append, prestart_calls]
    · rw [hk3]
      simp [Mgr.emit, start_service_calls_append, start_service_calls]
    · intro hf
      have := hkq1 hf
      rw [hq0] at this
      exact this
    · intro hf
      have := hkq2 hf
      rw [hq0] at this
      simpa using this
    · intro hne
      exact (bgkill_frame _ _).2 (hL2 hne)
  · intro h
    rw [state_check_loop_unfold,
      lowmem_block_skips env (m.emit .state_check_loop) false h]
    simp only [(bgkill_frame _ _).1]
    obtain ⟨-, -, -, ht4, -, ht6, -⟩ := timer_frame
      (state_check_loop_prestart w env (m.emit .state_check_loop)
        (state_check_loop_bgkill (m.emit .state_check_loop) false).2).1
      (state_check_loop_prestart w env (m.emit .state_check_loop)
        (state_check_loop_bgkill (m.emit .state_check_loop) false).2).2
    rw [ht4, ht6, (prestart_block_log _ _ _ _).1,
      (prestart_block_log _ _ _ _).2]
    simp [Mgr.emit, kill_calls_append, sigterm_calls_append, kill_calls,
      sigterm_calls]


/-! ## C9: the gate of the prestart block -/

/-- What the low-memory block leaves alone. -/
theorem lowmem_block_frame (env : Env) (m : Mgr) (loop : Bool) :
    (state_check_loop_lowmem env m loop).1.priv.init_done = m.priv.init_done ∧
    (state_check_loop_lowmem env m loop).1.priv.lowmem = m.priv.lowmem ∧
    (state_check_loop_lowmem env m loop).1.priv.bg_killing =
      m.priv.bg_killing ∧
    (state_check_loop_lowmem env m loop).1.priv.launcher_shown =
      m.priv.launcher_shown ∧
    (state_check_loop_lowmem env m loop).1.priv.prestart_mode =
      m.priv.prestart_mode ∧
    (state_check_loop_lowmem env m loop).1.priv.prestart_required_pages =
      m.priv.prestart_required_pages ∧
    (state_check_loop_lowmem env m loop).1.priv.state_check_looping =
      m.priv.state_check_looping ∧
    (state_check_loop_lowmem env m loop).1.timers = m.timers ∧
    (state_check_loop_lowmem env m loop).1.queue .QUEUE_PRESTARTABLE =
      m.queue .QUEUE_PRESTARTABLE ∧
    ((state_check_loop_lowmem env m loop).1.queue .QUEUE_PRESTARTED =
        m.queue .QUEUE_PRESTARTED ∨
      (state_check_loop_lowmem env m loop).1.queue .QUEUE_PRESTARTED =
        (m.queue .QUEUE_PRESTARTED).tail) ∧
    prestart_calls (state_check_loop_lowmem env m loop).1.log =
      prestart_calls m.log ∧
    start_service_calls (state_check_loop_lowmem env m loop).1.log =
      start_service_calls m.log ∧
    ∀ a, ((state_check_loop_lowmem env m loop).1.items a).state =
        .HD_APP_STATE_PRESTARTED →
      (m.items a).state = .HD_APP_STATE_PRESTARTED := by
  by_cases hl : m.priv.lowmem = true
  · cases hq : m.queue .QUEUE_PRESTARTED with
    | nil =>
      rw [lowmem_block_skips env m loop (Or.inr hq)]
      simp [hq]
    | cons app rest =>
      rw [(lowmem_block_fires env m loop app rest hl hq).1]
      obtain ⟨-, hk2, hk3, hk4⟩ := kill_log env app m
      have hq' : m.priv.queues .QUEUE_PRESTARTED = app :: rest := hq
      rcases kill_cases env app m with ⟨-, hp, hi, -⟩ | ⟨-, hp, hi, -⟩
      · refine ⟨?_, ?_, ?_, ?_, ?_, ?_, ?_, hk4, ?_, ?_, hk2, hk3, ?_⟩ <;>
          simp [Mgr.queue, hp, hi, hq']
      · refine ⟨?_, ?_, ?_, ?_, ?_, ?_, ?_, hk4, ?_, ?_, hk2, hk3, ?_⟩
        all_goals
          simp only [Mgr.queue, hp, hi, Mgr.set_queue,
            hd_launcher_app_set_state]
        all_goals try simp
        · right
          simp [hq']
        · intro a
          split
          · simp
          · exact id
  · rw [lowmem_block_skips env m loop (Or.inl (by simpa using hl))]
    simp


theorem may_prestart_after_lowmem_block (w : Nat) (env : Env) (m : Mgr)
    (loop : Bool) :
    state_check_loop_may_prestart w env
        (state_check_loop_lowmem env m loop).1 =
      state_check_loop_may_prestart w env m := by
  obtain ⟨h1, h2, h3, h4, h5, h6, -, -, h9, -⟩ :=
    lowmem_block_frame env m loop
  simp only [state_check_loop_may_prestart, hd_app_mgr_can_prestart, h1, h2,
    h3, h4, h5, h6, h9]

theorem may_prestart_false_of_gate (w : Nat) (env : Env) (m : Mgr)
    (h : m.priv.init_done = false ∨ m.priv.lowmem = true ∨
      m.priv.bg_killing = true ∨ m.priv.launcher_shown = true ∨
      m.queue .QUEUE_PRESTARTABLE = [] ∨
      hd_app_mgr_can_prestart w env.free_file m.priv = false) :
    state_check_loop_may_prestart w env m = false := by
  unfold state_check_loop_may_prestart
  rcases h with h | h | h | h | h | h <;> simp [h]

/-- C9: when `init_done` is clear, or `lowmem`, `bg_killing` or
`launcher_shown` is set, or the prestartable queue is empty, or
`hd_app_mgr_can_prestart` is false, one call of
`hd_app_mgr_state_check_loop` does not enter `hd_app_mgr_prestart` and
requests no service start; the prestartable queue is unchanged, the
prestarted queue is the old one or the old one without its head (nothing is
appended), and every application in state Prestarted afterwards was in that
state before. -/
theorem state_check_loop_prestart_gated (w : Nat) (env : Env) (m : Mgr)
    (h : m.priv.init_done = false ∨ m.priv.lowmem = true ∨
      m.priv.bg_killing = true ∨ m.priv.launcher_shown = true ∨
      m.queue .QUEUE_PRESTARTABLE = [] ∨
      hd_app_mgr_can_prestart w env.free_file m.priv = false) :
    prestart_calls (hd_app_mgr_state_check_loop w env m).1.log =
      prestart_calls m.log ∧
    start_service_calls (hd_app_mgr_state_check_loop w env m).1.log =
      start_service_calls m.log ∧
    (hd_app_mgr_state_check_loop w env m).1.queue .QUEUE_PRESTARTABLE =
      m.queue .QUEUE_PRESTARTABLE ∧
    ((hd_app_mgr_state_check_loop w env m).1.queue .QUEUE_PRESTARTED =
        m.queue .QUEUE_PRESTARTED ∨
      (hd_app_mgr_state_check_loop w env m).1.queue .QUEUE_PRESTARTED =
        (m.queue .QUEUE_PRESTARTED).tail) ∧
    ∀ a, ((hd_app_mgr_state_check_loop w env m).1.items a).state =
        .HD_APP_STATE_PRESTARTED →
      (m.items a).state = .HD_APP_STATE_PRESTARTED := by
  have hgate : state_check_loop_may_prestart w env
      (state_check_loop_lowmem env (m.emit .state_check_loop) false).1 =
        false := by
    rw [may_prestart_after_lowmem_block]
    exact may_prestart_false_of_gate w env (m.emit .state_check_loop) h
  obtain ⟨-, -, -, -, -, -, -, -, f9, f10, f11, f12, f13⟩ :=
    lowmem_block_frame env (m.emit .state_check_loop) false
  rw [state_check_loop_unfold]
  simp only [(bgkill_frame _ _).1]
  rw [prestart_block_skips w env _ _ hgate]
  obtain ⟨-, ht2, ht3, -, ht5, -, ht7⟩ := timer_frame
    (state_check_loop_lowmem env (m.emit .state_check_loop) false).1
    (state_check_loop_bgkill
      (state_check_loop_lowmem env (m.emit .state_check_loop) false).1
      (state_check_loop_lowmem env (m.emit .state_check_loop) false).2).2
  simp only [Mgr.queue] at f9 f10 ⊢
  rw [ht2, ht3, ht5, ht7, f11, f12]
  refine ⟨?_, ?_, f9, f10, f13⟩
  · simp [Mgr.emit, prestart_calls_append, prestart_calls]
  · simp [Mgr.emit, start_service_calls_append, start_service_calls]


/-! ## C10: one prestart per state check -/

theorem timer_of_loop (m : Mgr) :
    (state_check_loop_timer m true).1.priv.state_check_looping = true ∧
    (state_check_loop_timer m true).1.timers =
      (if m.priv.state_check_looping then m.timers else m.timers + 1) ∧
    timeout_add_calls (state_check_loop_timer m true).1.log =
      (if m.priv.state_check_looping then timeout_add_calls m.log
        else timeout_add_calls m.log + 1) := by
  unfold state_check_loop_timer
  cases hl : m.priv.state_check_looping <;>
    simp [Mgr.emit, timeout_add_calls, List.count_append, hl]

/-- What `hd_app_mgr_prestart` does when the service starts. -/
theorem prestart_success (env : Env) (app : AppRef) (m : Mgr) (sv : String)
    (hexec : env.is_executing (m.items app) = false)
    (hsv : (m.items app).service = some sv)
    (hbus : env.bus_get_ok = true)
    (hstart : env.start_service_ok sv = true) :
    (hd_app_mgr_prestart env app m).1.priv =
      ((m.set_queue .QUEUE_PRESTARTABLE
        ((m.queue .QUEUE_PRESTARTABLE).erase app)).set_queue
          .QUEUE_PRESTARTED (m.queue .QUEUE_PRESTARTED ++ [app])).priv ∧
    ((hd_app_mgr_prestart env app m).1.items app).state =
      .HD_APP_STATE_PRESTARTED ∧
    ((hd_app_mgr_prestart env app m).1.items app).pid = env.service_pid sv ∧
    (hd_app_mgr_prestart env app m).1.timers = m.timers ∧
    (hd_app_mgr_prestart env app m).1.log =
      m.log ++ [.prestart_called app, .start_service sv] := by
  unfold hd_app_mgr_prestart
  simp only [Mgr.emit, hexec, hsv, hbus, hstart, if_true, Bool.not_true,
    Bool.false_eq_true, if_false]
  simp [hd_launcher_app_set_state, hd_launcher_app_set_pid,
    (move_queue_eq _ _ _ _).1, (move_queue_eq _ _ _ _).2,
    Mgr.set_queue, Mgr.queue]

/-- C10: with prestartable queue `app :: rest`, `rest` non-empty, `lowmem`,
`bg_killing` and `launcher_shown` clear, `init_done` set,
`hd_app_mgr_can_prestart` true, `app` not executing and with a service whose
start succeeds on a reachable session bus, one call of
`hd_app_mgr_state_check_loop` leaves prestartable = `rest` and prestarted =
the old prestarted queue with `app` appended, sets the state of `app` to
Prestarted and its process id to the one resolved for the service, returns
`loop = TRUE` and leaves `state_check_looping` set, adding one timer exactly
when the check was not looping before. -/
theorem state_check_loop_prestarts_head (w : Nat) (env : Env) (m : Mgr)
    (app : AppRef) (rest : List AppRef) (sv : String)
    (hq : m.queue .QUEUE_PRESTARTABLE = app :: rest) (hrest : rest ≠ [])
    (hlow : m.priv.lowmem = false) (hbg : m.priv.bg_killing = false)
    (hinit : m.priv.init_done = true)
    (hshown : m.priv.launcher_shown = false)
    (hcan : hd_app_mgr_can_prestart w env.free_file m.priv = true)
    (hexec : env.is_executing (m.items app) = false)
    (hsv : (m.items app).service = some sv)
    (hbus : env.bus_get_ok = true)
    (hstart : env.start_service_ok sv = true) :
    (hd_app_mgr_state_check_loop w env m).1.queue .QUEUE_PRESTARTABLE =
      rest ∧
    (hd_app_mgr_state_check_loop w env m).1.queue .QUEUE_PRESTARTED =
      m.queue .QUEUE_PRESTARTED ++ [app] ∧
    ((hd_app_mgr_state_check_loop w env m).1.items app).state =
      .HD_APP_STATE_PRESTARTED ∧
    ((hd_app_mgr_state_check_loop w env m).1.items app).pid =
      env.service_pid sv ∧
    (hd_app_mgr_state_check_loop w env m).2 = true ∧
    (hd_app_mgr_state_check_loop w env m).1.priv.state_check_looping =
      true ∧
    (hd_app_mgr_state_check_loop w env m).1.timers =
      (if m.priv.state_check_looping then m.timers else m.timers + 1) ∧
    timeout_add_calls (hd_app_mgr_state_check_loop w env m).1.log =
      (if m.priv.state_check_looping then timeout_add_calls m.log
        else timeout_add_calls m.log + 1) := by
  have hmay : state_check_loop_may_prestart w env
      (m.emit .state_check_loop) = true := by
    have hq0 : m.priv.queues .QUEUE_PRESTARTABLE = app :: rest := hq
    simp [state_check_loop_may_prestart, Mgr.emit, Mgr.queue, hq0, hlow,
      hbg, hinit, hshown, hcan]
  obtain ⟨hp, hst, hpid, htm, hlog⟩ :=
    prestart_success env app (m.emit .state_check_loop) sv hexec hsv hbus
      hstart
  have hq1 : (hd_app_mgr_prestart env app
      (m.emit .state_check_loop)).1.queue .QUEUE_PRESTARTABLE = rest := by
    have hq0 : m.priv.queues .QUEUE_PRESTARTABLE = app :: rest := hq
    simp only [Mgr.queue]
    rw [hp]
    simp [Mgr.set_queue, Mgr.emit, Mgr.queue, hq0]
  have hq2 : (hd_app_mgr_prestart env app
      (m.emit .state_check_loop)).1.queue .QUEUE_PRESTARTED =
        m.queue .QUEUE_PRESTARTED ++ [app] := by
    simp only [Mgr.queue]
    rw [hp]
    simp [Mgr.set_queue, Mgr.emit, Mgr.queue]
  obtain ⟨hb1, hb2⟩ := prestart_block_fires w env (m.emit .state_check_loop)
    (state_check_loop_bgkill (m.emit .state_check_loop) false).2 app rest
    hmay hq
  have hloop := hb2 (by rw [hq1]; exact hrest)
  rw [state_check_loop_unfold,
    lowmem_block_skips env (m.emit .state_check_loop) false (Or.inl hlow)]
  simp only [(bgkill_frame _ _).1]
  rw [hloop, hb1]
  obtain ⟨ht1, ht2, ht3, -⟩ := timer_frame
    (hd_app_mgr_prestart env app (m.emit .state_check_loop)).1 true
  obtain ⟨hl1, hl2, hl3⟩ := timer_of_loop
    (hd_app_mgr_prestart env app (m.emit .state_check_loop)).1
  have hlk : (hd_app_mgr_prestart env app
      (m.emit .state_check_loop)).1.priv.state_check_looping =
        m.priv.state_check_looping := by
    rw [hp]
    simp [Mgr.set_queue, Mgr.emit]
  refine ⟨?_, ?_, ?_, ?_, ht1, hl1, ?_, ?_⟩
  · simpa [Mgr.queue, ht2] using hq1
  · simpa [Mgr.queue, ht2] using hq2
  · rw [ht3]; exact hst
  · rw [ht3]; exact hpid
  · rw [hl2, hlk, htm]; rfl
  · rw [hl3, hlk, hlog]
    simp [timeout_add_calls, Mgr.emit, List.count_append]


/-! ## Concrete instances of C8, C9 and C10 -/

/-- C8 at a concrete state: under low memory with prestarted queue `[1, 2]`,
one state check kills application 1 only (process 101), prestarts nothing,
leaves `[2]` and asks for another round. -/
theorem state_check_loop_lowmem_witness :
    kill_calls (hd_app_mgr_state_check_loop 32 sample_env
      sample_mgr_lowmem).1.log = [1] ∧
    sigterm_calls (hd_app_mgr_state_check_loop 32 sample_env
      sample_mgr_lowmem).1.log = [101] ∧
    prestart_calls (hd_app_mgr_state_check_loop 32 sample_env
      sample_mgr_lowmem).1.log = [] ∧
    (hd_app_mgr_state_check_loop 32 sample_env
      sample_mgr_lowmem).1.queue .QUEUE_PRESTARTED = [2] ∧
    (hd_app_mgr_state_check_loop 32 sample_env sample_mgr_lowmem).2 = true :=
  have h := (state_check_loop_lowmem_kills_head 32 sample_env
    sample_mgr_lowmem).1 1 [2] (by decide) (by decide)
  ⟨h.1, by decide, h.2.1, h.2.2.2.2.2.1 (by decide),
    h.2.2.2.2.2.2 (by decide)⟩

/-- C9 at a concrete state: under low memory with application 3 waiting,
one state check prestarts nothing, leaves the prestartable queue `[3]` and
only shortens the prestarted queue. -/
theorem state_check_loop_prestart_gated_witness :
    sample_mgr_lowmem.priv.lowmem = true ∧
    prestart_calls (hd_app_mgr_state_check_loop 32 sample_env
      sample_mgr_lowmem).1.log = [] ∧
    start_service_calls (hd_app_mgr_state_check_loop 32 sample_env
      sample_mgr_lowmem).1.log = [] ∧
    (hd_app_mgr_state_check_loop 32 sample_env
      sample_mgr_lowmem).1.queue .QUEUE_PRESTARTABLE = [3] ∧
    (hd_app_mgr_state_check_loop 32 sample_env
      sample_mgr_lowmem).1.queue .QUEUE_PRESTARTED = [2] :=
  have h := state_check_loop_prestart_gated 32 sample_env sample_mgr_lowmem
    (Or.inr (Or.inl rfl))
  ⟨rfl, h.1, h.2.1, h.2.2.1, by decide⟩

/-- C10 at the input of the specification: prestartable `[1, 2]`, nothing
prestarted, start-up finished, memory fine: one state check gives
prestartable `[2]`, prestarted `[1]`, application 1 in state Prestarted, and
arms the timer. -/
theorem state_check_loop_prestarts_head_witness :
    (hd_app_mgr_state_check_loop 32 sample_env
      sample_mgr_ready).1.queue .QUEUE_PRESTARTABLE = [2] ∧
    (hd_app_mgr_state_check_loop 32 sample_env
      sample_mgr_ready).1.queue .QUEUE_PRESTARTED = [1] ∧
    ((hd_app_mgr_state_check_loop 32 sample_env
      sample_mgr_ready).1.items 1).state = .HD_APP_STATE_PRESTARTED ∧
    ((hd_app_mgr_state_check_loop 32 sample_env
      sample_mgr_ready).1.items 1).pid = 4321 ∧
    (hd_app_mgr_state_check_loop 32 sample_env sample_mgr_ready).2 = true ∧
    (hd_app_mgr_state_check_loop 32 sample_env
      sample_mgr_ready).1.priv.state_check_looping = true ∧
    (hd_app_mgr_state_check_loop 32 sample_env sample_mgr_ready).1.timers =
      1 ∧
    timeout_add_calls (hd_app_mgr_state_check_loop 32 sample_env
      sample_mgr_ready).1.log = 1 :=
  state_check_loop_prestarts_head 32 sample_env sample_mgr_ready 1 [2]
    "com.nokia.sample" (by decide) (by decide) (by decide) (by decide)
    (by decide) (by decide) (by decide) (by decide) (by decide) (by decide)
    (by decide)

/-! ## C1: at most one queue membership -/

/-- C1 fails on the code: from empty queues, with the always-on application
1 in the catalog, the run "tree populated, init done, service of 1 loses its
owner" prestarts application 1 and then, on the loss of its service, adds it
to the prestartable queue while it is still in the prestarted queue; the
state check that follows prestarts it again, so that it stands twice in the
prestarted queue, or, when the service does not start again, once in the
prestartable and once in the prestarted queue. -/
theorem service_loss_duplicates_app :
    all_queues sample_mgr_single = [] ∧
    (run 32 (service_loss_run.take 2) sample_mgr_single).queue
      .QUEUE_PRESTARTED = [1] ∧
    (run 32 service_loss_run sample_mgr_single).queue .QUEUE_PRESTARTED =
      [1, 1] ∧
    (all_queues (run 32 service_loss_run sample_mgr_single)).count 1 = 2 ∧
    (run 32 service_loss_run_no_restart sample_mgr_single).queue
      .QUEUE_PRESTARTABLE = [1] ∧
    (run 32 service_loss_run_no_restart sample_mgr_single).queue
      .QUEUE_PRESTARTED = [1] ∧
    (all_queues (run 32 service_loss_run_no_restart
      sample_mgr_single)).count 1 = 2 := by
  decide

/-! ## C11: the loop flag -/

theorem kill_priv_emit (env : Env) (app : AppRef) (m : Mgr) (e : Event) :
    (hd_app_mgr_kill env app (m.emit e)).1.priv =
      (hd_app_mgr_kill env app m).1.priv := by
  unfold hd_app_mgr_kill
  simp only [remove_from_queue_eq]
  by_cases h1 : env.is_executing (m.items app) = true <;>
  by_cases h2 : (m.items app).pid = 0 <;>
  by_cases h3 : env.kill_ok (m.items app).pid = true <;>
  simp [h1, h2, h3, Mgr.emit, Mgr.set_queue, Mgr.queue,
    hd_launcher_app_set_state]

theorem lowmem_block_snd (env : Env) (m : Mgr) (loop : Bool) :
    (state_check_loop_lowmem env m loop).2 = true ↔
      loop = true ∨ (m.priv.lowmem = true ∧
        ∃ app rest, m.queue .QUEUE_PRESTARTED = app :: rest ∧
          (hd_app_mgr_kill env app m).1.queue .QUEUE_PRESTARTED ≠ []) := by
  unfold state_check_loop_lowmem
  by_cases hl : m.priv.lowmem = true
  · cases hq : m.queue .QUEUE_PRESTARTED with
    | nil => simp [hl]
    | cons app rest =>
      simp only [hl, if_true]
      by_cases hk : (hd_app_mgr_kill env app m).1.queue .QUEUE_PRESTARTED = []
      · simp [hk]
      · simp [hk]
  · simp [hl]

theorem bgkill_snd (m : Mgr) (loop : Bool) :
    (state_check_loop_bgkill m loop).2 = true ↔
      loop = true ∨ (m.priv.bg_killing = true ∧
        m.queue .QUEUE_HIBERNATABLE ≠ []) := by
  unfold state_check_loop_bgkill
  by_cases hb : m.priv.bg_killing = true
  · by_cases hq : m.queue .QUEUE_HIBERNATABLE = []
    · simp [hb, hq]
    · simp [hb, hq]
  · simp [hb]

theorem prestart_block_snd (w : Nat) (env : Env) (m : Mgr) (loop : Bool) :
    (state_check_loop_prestart w env m loop).2 = true ↔
      loop = true ∨ (state_check_loop_may_prestart w env m = true ∧
        (state_check_loop_prestart w env m loop).1.queue
          .QUEUE_PRESTARTABLE ≠ []) := by
  by_cases h : state_check_loop_may_prestart w env m = true
  · cases hq : m.queue .QUEUE_PRESTARTABLE with
    | nil =>
      have : state_check_loop_may_prestart w env m = false := by
        have hq0 : m.priv.queues .QUEUE_PRESTARTABLE = [] := hq
        simp [state_check_loop_may_prestart, Mgr.queue, hq0]
      rw [this] at h
      exact absurd h (by simp)
    | cons app rest =>
      obtain ⟨h1, h2⟩ := prestart_block_fires w env m loop app rest h hq
      rw [h1]
      unfold state_check_loop_prestart
      simp only [h, hq, if_true]
      by_cases hk : (hd_app_mgr_prestart env app m).1.queue
          .QUEUE_PRESTARTABLE = []
      · simp [hk]
      · simp [hk]
  · rw [prestart_block_skips w env m loop (by simpa using h)]
    simp [h]

theorem timer_looping (m : Mgr) (loop : Bool) :
    (state_check_loop_timer m loop).1.priv.state_check_looping = loop ∧
    (state_check_loop_timer m loop).1.timers =
      (if m.priv.state_check_looping = false ∧ loop = true then m.timers + 1
        else m.timers) ∧
    timeout_add_calls (state_check_loop_timer m loop).1.log =
      (if m.priv.state_check_looping = false ∧ loop = true then
        timeout_add_calls m.log + 1
      else timeout_add_calls m.log) := by
  unfold state_check_loop_timer
  cases hl : m.priv.state_check_looping <;> cases loop <;>
    simp [Mgr.emit, timeout_add_calls, List.count_append, hl]

/-! ## What the operations leave alone -/

theorem queues_only_refl (m : Mgr) : queues_only m m :=
  ⟨⟨m.priv.queues, rfl⟩, rfl, rfl⟩

theorem queues_only_trans {m1 m2 m3 : Mgr} (h12 : queues_only m1 m2)
    (h23 : queues_only m2 m3) : queues_only m1 m3 := by
  obtain ⟨⟨q2, hp2⟩, ht2, hr2⟩ := h12
  obtain ⟨⟨q3, hp3⟩, ht3, hr3⟩ := h23
  refine ⟨⟨q3, ?_⟩, ht3.trans ht2, hr3.trans hr2⟩
  rw [hp3, hp2]

theorem queues_only_emit (m : Mgr) (e : Event) : queues_only m (m.emit e) :=
  ⟨⟨m.priv.queues, rfl⟩, rfl, rfl⟩

theorem queues_only_set_queue (m : Mgr) (q : HdAppMgrQueue)
    (l : List AppRef) : queues_only m (m.set_queue q l) :=
  ⟨⟨_, rfl⟩, rfl, rfl⟩

theorem queues_only_set_state (m : Mgr) (a : AppRef)
    (st : HdLauncherAppState) :
    queues_only m (hd_launcher_app_set_state a st m) :=
  ⟨⟨m.priv.queues, rfl⟩, rfl, rfl⟩

theorem queues_only_set_pid (m : Mgr) (a : AppRef) (pid : Nat) :
    queues_only m (hd_launcher_app_set_pid a pid m) :=
  ⟨⟨m.priv.queues, rfl⟩, rfl, rfl⟩

theorem queues_only_add (m : Mgr) (q : HdAppMgrQueue) (app : Option AppRef) :
    queues_only m (hd_app_mgr_add_to_queue q app m) := by
  cases app with
  | none => exact queues_only_refl m
  | some a => exact queues_only_set_queue m q _

theorem queues_only_remove (m : Mgr) (q : HdAppMgrQueue)
    (app : Option AppRef) :
    queues_only m (hd_app_mgr_remove_from_queue q app m) := by
  cases app with
  | none => exact queues_only_refl m
  | some a =>
    rw [remove_from_queue_eq]
    exact queues_only_set_queue m q _

theorem queues_only_move (m : Mgr) (f t : HdAppMgrQueue)
    (app : Option AppRef) :
    queues_only m (hd_app_mgr_move_queue f t app m) := by
  cases app with
  | none => exact queues_only_refl m
  | some a =>
    by_cases h : a ∈ m.queue f
    · simp only [hd_app_mgr_move_queue, h, if_true]
      exact queues_only_trans (queues_only_set_queue m f _)
        (queues_only_set_queue _ t _)
    · simp only [hd_app_mgr_move_queue, h, if_false]
      exact queues_only_add m t (some a)

theorem queues_only_kill (env : Env) (app : AppRef) (m : Mgr) :
    queues_only m (hd_app_mgr_kill env app m).1 := by
  unfold hd_app_mgr_kill
  by_cases h1 : env.is_executing (m.items app) = true <;>
  by_cases h2 : (m.items app).pid = 0 <;>
  by_cases h3 : env.kill_ok (m.items app).pid = true <;>
  simp only [h1, h2, h3, Mgr.emit, Bool.not_true, Bool.not_false,
    Bool.false_eq_true, if_true, if_false, Bool.not_eq_true] <;>
  first
  | exact ⟨⟨_, rfl⟩, rfl, rfl⟩
  | exact queues_only_trans (queues_only_emit m _)
      (queues_only_trans (queues_only_emit _ _)
        (queues_only_trans (queues_only_remove _ _ _)
          (queues_only_trans (queues_only_remove _ _ _)
            (queues_only_set_state _ _ _))))

theorem queues_only_prestart (env : Env) (app : AppRef) (m : Mgr) :
    queues_only m (hd_app_mgr_prestart env app m).1 := by
  unfold hd_app_mgr_prestart
  cases h1 : env.is_executing (m.items app) <;>
  cases h2 : (m.items app).service <;>
  cases h3 : env.bus_get_ok <;>
  simp only [h1, h2, h3, Mgr.emit, Bool.not_true, Bool.not_false,
    Bool.false_eq_true, if_true, if_false] <;>
  first
  | exact ⟨⟨_, rfl⟩, rfl, rfl⟩
  | (split
     · exact queues_only_trans (queues_only_emit m _)
        (queues_only_trans (queues_only_emit _ _)
          (queues_only_trans (queues_only_move _ _ _ _)
            (queues_only_trans (queues_only_set_pid _ _ _)
              (queues_only_set_state _ _ _))))
     · exact queues_only_trans (queues_only_emit m _)
        (queues_only_trans (queues_only_emit _ _)
          (queues_only_trans (queues_only_remove _ _ _)
            (queues_only_add _ _ _))))

theorem queues_only_service_top (env : Env) (sv : String)
    (param : Option String) (m : Mgr) :
    queues_only m (hd_app_mgr_service_top env sv param m).1 := by
  unfold hd_app_mgr_service_top
  cases env.bus_get_ok <;> cases env.message_new_ok <;>
    cases env.connection_send_ok <;> exact ⟨⟨_, rfl⟩, rfl, rfl⟩

theorem queues_only_lowmem_block (env : Env) (m : Mgr) (loop : Bool) :
    queues_only m (state_check_loop_lowmem env m loop).1 := by
  by_cases hl : m.priv.lowmem = true
  · cases hq : m.queue .QUEUE_PRESTARTED with
    | nil =>
      rw [lowmem_block_skips env m loop (Or.inr hq)]
      exact queues_only_refl m
    | cons app rest =>
      rw [(lowmem_block_fires env m loop app rest hl hq).1]
      exact queues_only_kill env app m
  · rw [lowmem_block_skips env m loop (Or.inl (by simpa using hl))]
    exact queues_only_refl m

theorem queues_only_prestart_block (w : Nat) (env : Env) (m : Mgr)
    (loop : Bool) :
    queues_only m (state_check_loop_prestart w env m loop).1 := by
  by_cases h : state_check_loop_may_prestart w env m = true
  · cases hq : m.queue .QUEUE_PRESTARTABLE with
    | nil =>
      unfold state_check_loop_prestart
      simp only [h, hq, if_true]
      exact queues_only_refl m
    | cons app rest =>
      rw [(prestart_block_fires w env m loop app rest h hq).1]
      exact queues_only_prestart env app m
  · rw [prestart_block_skips w env m loop (by simpa using h)]
    exact queues_only_refl m

theorem state_check_loop_eq_timer (w : Nat) (env : Env) (m : Mgr) :
    hd_app_mgr_state_check_loop w env m =
      state_check_loop_timer (state_check_loop_blocks w env m).1
        (state_check_loop_blocks w env m).2 := rfl

theorem state_check_loop_blocks_unfold (w : Nat) (env : Env) (m : Mgr) :
    state_check_loop_blocks w env m =
      state_check_loop_prestart w env
        (state_check_loop_lowmem env (m.emit .state_check_loop) false).1
        (state_check_loop_bgkill
          (state_check_loop_lowmem env (m.emit .state_check_loop) false).1
          (state_check_loop_lowmem env
            (m.emit .state_check_loop) false).2).2 := by
  have e : state_check_loop_blocks w env m =
      state_check_loop_prestart w env
        (state_check_loop_bgkill
          (state_check_loop_lowmem env (m.emit .state_check_loop) false).1
          (state_check_loop_lowmem env
            (m.emit .state_check_loop) false).2).1
        (state_check_loop_bgkill
          (state_check_loop_lowmem env (m.emit .state_check_loop) false).1
          (state_check_loop_lowmem env
            (m.emit .state_check_loop) false).2).2 := rfl
  rw [e, (bgkill_frame _ _).1]

theorem queues_only_blocks (w : Nat) (env : Env) (m : Mgr) :
    queues_only m (state_check_loop_blocks w env m).1 := by
  rw [state_check_loop_blocks_unfold]
  exact queues_only_trans (queues_only_emit m _)
    (queues_only_trans (queues_only_lowmem_block env _ false)
      (queues_only_prestart_block w env _ _))

theorem prestart_queue_other (env : Env) (app : AppRef) (m : Mgr)
    (q : HdAppMgrQueue) (h1 : q ≠ .QUEUE_PRESTARTABLE)
    (h2 : q ≠ .QUEUE_PRESTARTED) :
    (hd_app_mgr_prestart env app m).1.queue q = m.queue q := by
  unfold hd_app_mgr_prestart
  simp only [remove_from_queue_eq, hd_app_mgr_add_to_queue]
  cases h1 : env.is_executing (m.items app) <;>
  cases h2 : (m.items app).service <;>
  cases h3 : env.bus_get_ok <;>
  simp [h1, h2, h3, Mgr.emit, Mgr.set_queue, Mgr.queue,
    hd_launcher_app_set_state, hd_launcher_app_set_pid]
  split
  · simp [(move_queue_eq _ _ _ _).1, Mgr.set_queue, Mgr.queue, *]
  · simp [*]

theorem prestart_block_queue_other (w : Nat) (env : Env) (m : Mgr)
    (loop : Bool) (q : HdAppMgrQueue) (h1 : q ≠ .QUEUE_PRESTARTABLE)
    (h2 : q ≠ .QUEUE_PRESTARTED) :
    (state_check_loop_prestart w env m loop).1.queue q = m.queue q := by
  by_cases h : state_check_loop_may_prestart w env m = true
  · cases hq : m.queue .QUEUE_PRESTARTABLE with
    | nil =>
      unfold state_check_loop_prestart
      simp only [h, hq, if_true]
    | cons app rest =>
      rw [(prestart_block_fires w env m loop app rest h hq).1]
      exact prestart_queue_other env app m q h1 h2
  · rw [prestart_block_skips w env m loop (by simpa using h)]

/-- When the last block is reached, `loop` is set exactly in the three
cases of the source. -/
theorem blocks_snd (w : Nat) (env : Env) (m : Mgr) :
    (state_check_loop_blocks w env m).2 = true ↔
      (m.priv.lowmem = true ∧
        ∃ app rest, m.queue .QUEUE_PRESTARTED = app :: rest ∧
          (hd_app_mgr_kill env app m).1.queue .QUEUE_PRESTARTED ≠ []) ∨
      (m.priv.bg_killing = true ∧
        (state_check_loop_blocks w env m).1.queue .QUEUE_HIBERNATABLE ≠
          []) ∨
      (state_check_loop_may_prestart w env m = true ∧
        (state_check_loop_blocks w env m).1.queue .QUEUE_PRESTARTABLE ≠
          []) := by
  rw [state_check_loop_blocks_unfold, prestart_block_snd, bgkill_snd,
    lowmem_block_snd, may_prestart_after_lowmem_block,
    prestart_block_queue_other w env _ _ .QUEUE_HIBERNATABLE (by decide)
      (by decide)]
  have hb : (state_check_loop_lowmem env (m.emit .state_check_loop)
      false).1.priv.bg_killing = m.priv.bg_killing :=
    (lowmem_block_frame env (m.emit .state_check_loop) false).2.2.1
  have hk : ∀ app, (hd_app_mgr_kill env app
      (m.emit .state_check_loop)).1.queue .QUEUE_PRESTARTED =
        (hd_app_mgr_kill env app m).1.queue .QUEUE_PRESTARTED := by
    intro app
    simp only [Mgr.queue, kill_priv_emit]
  have hm : state_check_loop_may_prestart w env (m.emit .state_check_loop) =
      state_check_loop_may_prestart w env m := rfl
  have hl : (m.emit .state_check_loop).priv.lowmem = m.priv.lowmem := rfl
  have hq : (m.emit .state_check_loop).queue .QUEUE_PRESTARTED =
      m.queue .QUEUE_PRESTARTED := rfl
  simp only [hb, hk, hm, hl, hq, Bool.false_eq_true, false_or, or_assoc]

theorem kill_timeout_add (env : Env) (app : AppRef) (m : Mgr) :
    timeout_add_calls (hd_app_mgr_kill env app m).1.log =
      timeout_add_calls m.log := by
  unfold hd_app_mgr_kill
  simp only [remove_from_queue_eq]
  by_cases h1 : env.is_executing (m.items app) = true <;>
  by_cases h2 : (m.items app).pid = 0 <;>
  by_cases h3 : env.kill_ok (m.items app).pid = true <;>
  simp [h1, h2, h3, Mgr.emit, Mgr.set_queue, hd_launcher_app_set_state,
    timeout_add_calls, List.count_append]

theorem prestart_timeout_add (env : Env) (app : AppRef) (m : Mgr) :
    timeout_add_calls (hd_app_mgr_prestart env app m).1.log =
      timeout_add_calls m.log := by
  unfold hd_app_mgr_prestart
  simp only [remove_from_queue_eq, hd_app_mgr_add_to_queue]
  cases h1 : env.is_executing (m.items app) <;>
  cases h2 : (m.items app).service <;>
  cases h3 : env.bus_get_ok <;>
  simp [h1, h2, h3, Mgr.emit, Mgr.set_queue, hd_launcher_app_set_state,
    hd_launcher_app_set_pid, timeout_add_calls, List.count_append]
  split <;>
  simp [(move_queue_eq _ _ _ _).2.2.1, timeout_add_calls, List.count_append]

theorem blocks_timeout_add (w : Nat) (env : Env) (m : Mgr) :
    timeout_add_calls (state_check_loop_blocks w env m).1.log =
      timeout_add_calls m.log := by
  rw [state_check_loop_blocks_unfold]
  have h0 : timeout_add_calls (m.emit .state_check_loop).log =
      timeout_add_calls m.log := by
    simp [Mgr.emit, timeout_add_calls, List.count_append]
  have h1 : ∀ (m1 : Mgr) (loop : Bool),
      timeout_add_calls (state_check_loop_lowmem env m1 loop).1.log =
        timeout_add_calls m1.log := by
    intro m1 loop
    by_cases hl : m1.priv.lowmem = true
    · cases hq : m1.queue .QUEUE_PRESTARTED with
      | nil => rw [lowmem_block_skips env m1 loop (Or.inr hq)]
      | cons app rest =>
        rw [(lowmem_block_fires env m1 loop app rest hl hq).1]
        exact kill_timeout_add env app m1
    · rw [lowmem_block_skips env m1 loop (Or.inl (by simpa using hl))]
  have h2 : ∀ (m1 : Mgr) (loop : Bool),
      timeout_add_calls (state_check_loop_prestart w env m1 loop).1.log =
        timeout_add_calls m1.log := by
    intro m1 loop
    by_cases h : state_check_loop_may_prestart w env m1 = true
    · cases hq : m1.queue .QUEUE_PRESTARTABLE with
      | nil =>
        unfold state_check_loop_prestart
        simp only [h, hq, if_true]
      | cons app rest =>
        rw [(prestart_block_fires w env m1 loop app rest h hq).1]
        exact prestart_timeout_add env app m1
    · rw [prestart_block_skips w env m1 loop (by simpa using h)]
  rw [h2, h1, h0]

theorem lowmem_block_hibernatable (env : Env) (m : Mgr) (loop : Bool)
    (h : ∀ a rest, m.queue .QUEUE_PRESTARTED = a :: rest →
      a ∉ m.queue .QUEUE_HIBERNATABLE) :
    (state_check_loop_lowmem env m loop).1.queue .QUEUE_HIBERNATABLE =
      m.queue .QUEUE_HIBERNATABLE := by
  by_cases hl : m.priv.lowmem = true
  · cases hq : m.queue .QUEUE_PRESTARTED with
    | nil => rw [lowmem_block_skips env m loop (Or.inr hq)]
    | cons app rest =>
      rw [(lowmem_block_fires env m loop app rest hl hq).1]
      have hn : app ∉ m.priv.queues .QUEUE_HIBERNATABLE := h app rest hq
      rcases kill_cases env app m with ⟨-, hp, -⟩ | ⟨-, hp, -⟩
      · simp only [Mgr.queue, hp]
      · simp only [Mgr.queue, hp]
        simp [Mgr.set_queue, Mgr.queue, List.erase_of_not_mem hn]
  · rw [lowmem_block_skips env m loop (Or.inl (by simpa using hl))]

/-- C11: `hd_app_mgr_state_check_loop` returns `loop`, which is true exactly
when (`lowmem` is set, the prestarted queue is non-empty and is still
non-empty after the kill of its head was tried), or (`bg_killing` is set and
the hibernatable queue, as the second block finds it, is non-empty), or (the
condition of the prestart block holds and the prestartable queue is
non-empty after it); `state_check_looping` is left equal to the returned
value; one timer is added, with one `g_timeout_add_seconds` call, exactly
when `state_check_looping` was clear and `loop` is true, and none otherwise;
the `bg_killing` block returns the state it was given, queues and
application states included.  The hibernatable queue that the second block
finds is the one of the final state, and it is the one from before the call
whenever the head of the prestarted queue is not in it. -/
theorem state_check_loop_loop_flag (w : Nat) (env : Env) (m : Mgr) :
    ((hd_app_mgr_state_check_loop w env m).2 = true ↔
      (m.priv.lowmem = true ∧
        ∃ app rest, m.queue .QUEUE_PRESTARTED = app :: rest ∧
          (hd_app_mgr_kill env app m).1.queue .QUEUE_PRESTARTED ≠ []) ∨
      (m.priv.bg_killing = true ∧
        (hd_app_mgr_state_check_loop w env m).1.queue
          .QUEUE_HIBERNATABLE ≠ []) ∨
      (state_check_loop_may_prestart w env m = true ∧
        (hd_app_mgr_state_check_loop w env m).1.queue
          .QUEUE_PRESTARTABLE ≠ [])) ∧
    (hd_app_mgr_state_check_loop w env m).1.priv.state_check_looping =
      (hd_app_mgr_state_check_loop w env m).2 ∧
    (hd_app_mgr_state_check_loop w env m).1.timers =
      (if m.priv.state_check_looping = false ∧
          (hd_app_mgr_state_check_loop w env m).2 = true then m.timers + 1
        else m.timers) ∧
    timeout_add_calls (hd_app_mgr_state_check_loop w env m).1.log =
      (if m.priv.state_check_looping = false ∧
          (hd_app_mgr_state_check_loop w env m).2 = true then
        timeout_add_calls m.log + 1
      else timeout_add_calls m.log) ∧
    (∀ (m1 : Mgr) (loop : Bool), (state_check_loop_bgkill m1 loop).1 = m1) ∧
    ((∀ a rest, m.queue .QUEUE_PRESTARTED = a :: rest →
        a ∉ m.queue .QUEUE_HIBERNATABLE) →
      (hd_app_mgr_state_check_loop w env m).1.queue .QUEUE_HIBERNATABLE =
        m.queue .QUEUE_HIBERNATABLE) := by
  obtain ⟨ht1, ht2, -⟩ := timer_frame (state_check_loop_blocks w env m).1
    (state_check_loop_blocks w env m).2
  obtain ⟨hl1, hl2, hl3⟩ := timer_looping (state_check_loop_blocks w env m).1
    (state_check_loop_blocks w env m).2
  obtain ⟨⟨qs, hp⟩, htm, -⟩ := queues_only_blocks w env m
  have hlk : (state_check_loop_blocks w env m).1.priv.state_check_looping =
      m.priv.state_check_looping := by rw [hp]
  rw [state_check_loop_eq_timer]
  simp only [Mgr.queue, ht1, ht2, hl1, hl2, hl3, hlk, htm,
    blocks_timeout_add]
  refine ⟨blocks_snd w env m, trivial, trivial, trivial,
    fun m1 loop => (bgkill_frame m1 loop).1, ?_⟩
  intro h
  rw [state_check_loop_blocks_unfold]
  have := prestart_block_queue_other w env
    (state_check_loop_lowmem env (m.emit .state_check_loop) false).1
    (state_check_loop_bgkill
      (state_check_loop_lowmem env (m.emit .state_check_loop) false).1
      (state_check_loop_lowmem env (m.emit .state_check_loop) false).2).2
    .QUEUE_HIBERNATABLE (by decide) (by decide)
  simp only [Mgr.queue] at this
  rw [this]
  exact lowmem_block_hibernatable env (m.emit .state_check_loop) false h

/-- C11 at a concrete state: under low memory with prestarted queue
`[1, 2]` and the check not looping, the call returns true, sets
`state_check_looping` and arms one timer. -/
theorem state_check_loop_loop_flag_witness :
    (hd_app_mgr_state_check_loop 32 sample_env sample_mgr_lowmem).2 = true ∧
    (hd_app_mgr_state_check_loop 32 sample_env
      sample_mgr_lowmem).1.priv.state_check_looping = true ∧
    (hd_app_mgr_state_check_loop 32 sample_env sample_mgr_lowmem).1.timers =
      1 :=
  have h := state_check_loop_loop_flag 32 sample_env sample_mgr_lowmem
  have h2 : (hd_app_mgr_state_check_loop 32 sample_env
      sample_mgr_lowmem).2 = true :=
    h.1.2 (Or.inl ⟨rfl, 1, [2], rfl, by decide⟩)
  ⟨h2, h.2.1.trans h2, by decide⟩

/-! ## C12: the timer invariant -/

theorem same_flags_refl (m : Mgr) : same_flags m m := ⟨rfl, rfl, rfl, rfl⟩

theorem same_flags_trans {m1 m2 m3 : Mgr} (h12 : same_flags m1 m2)
    (h23 : same_flags m2 m3) : same_flags m1 m3 :=
  ⟨h23.1.trans h12.1, h23.2.1.trans h12.2.1, h23.2.2.1.trans h12.2.2.1,
    h23.2.2.2.trans h12.2.2.2⟩

theorem same_flags_of_queues_only {m1 m2 : Mgr} (h : queues_only m1 m2) :
    same_flags m1 m2 := by
  obtain ⟨⟨qs, hp⟩, -, -⟩ := h
  simp [same_flags, hp]

theorem timer_invariant_of_queues_only {m1 m2 : Mgr}
    (h : queues_only m1 m2) (hi : timer_invariant m1) :
    timer_invariant m2 := by
  obtain ⟨⟨qs, hp⟩, ht, -⟩ := h
  simp only [timer_invariant, ht, hp]
  exact hi

/-- What `hd_app_mgr_state_check_loop` does to the looping flag, the timers,
the flags and the tree. -/
theorem state_check_loop_control (w : Nat) (env : Env) (m : Mgr) :
    (hd_app_mgr_state_check_loop w env m).1.priv.state_check_looping =
      (hd_app_mgr_state_check_loop w env m).2 ∧
    (hd_app_mgr_state_check_loop w env m).1.timers =
      (if m.priv.state_check_looping = false ∧
          (hd_app_mgr_state_check_loop w env m).2 = true then m.timers + 1
        else m.timers) ∧
    same_flags m (hd_app_mgr_state_check_loop w env m).1 ∧
    (hd_app_mgr_state_check_loop w env m).1.tree = m.tree := by
  obtain ⟨ht1, -⟩ := timer_frame (state_check_loop_blocks w env m).1
    (state_check_loop_blocks w env m).2
  obtain ⟨hl1, hl2, -⟩ := timer_looping (state_check_loop_blocks w env m).1
    (state_check_loop_blocks w env m).2
  obtain ⟨⟨qs, hp⟩, htm, htr⟩ := queues_only_blocks w env m
  have hlk : (state_check_loop_blocks w env m).1.priv.state_check_looping =
      m.priv.state_check_looping := by rw [hp]
  rw [state_check_loop_eq_timer]
  refine ⟨by rw [hl1, ht1], by rw [hl2, ht1, hlk, htm], ?_, ?_⟩
  · unfold state_check_loop_timer
    split
    · simp [same_flags, Mgr.emit, hp]
    · split <;> simp [same_flags, hp]
  · unfold state_check_loop_timer
    split
    · simpa [Mgr.emit] using htr
    · split <;> simpa using htr

theorem state_check_timer_invariant (w : Nat) (env : Env) (m : Mgr)
    (hi : timer_invariant m) :
    timer_invariant (hd_app_mgr_state_check w env m) := by
  unfold hd_app_mgr_state_check
  cases hl : m.priv.state_check_looping with
  | true => simpa using hi
  | false =>
    obtain ⟨h1, h2, -⟩ := state_check_loop_control w env m
    have ht : m.timers = 0 := by simpa [timer_invariant, hl] using hi
    simp only [Bool.false_eq_true, if_false, timer_invariant, h1, h2, hl, ht]
    cases (hd_app_mgr_state_check_loop w env m).2 <;> simp

theorem state_check_same_flags (w : Nat) (env : Env) (m : Mgr) :
    same_flags m (hd_app_mgr_state_check w env m) ∧
    (hd_app_mgr_state_check w env m).tree = m.tree := by
  unfold hd_app_mgr_state_check
  split
  · exact ⟨same_flags_refl m, rfl⟩
  · exact ⟨(state_check_loop_control w env m).2.2.1,
      (state_check_loop_control w env m).2.2.2⟩

theorem timeout_fired_timer_invariant (w : Nat) (env : Env) (m : Mgr)
    (hi : timer_invariant m) : timer_invariant (timeout_fired w env m) := by
  unfold timeout_fired
  by_cases ht : m.timers = 0
  · simpa [ht] using hi
  · simp only [ht, if_false]
    have hl : m.priv.state_check_looping = true := by
      cases h : m.priv.state_check_looping with
      | true => rfl
      | false =>
        exact absurd (by simpa [timer_invariant, h] using hi) ht
    have ht1 : m.timers = 1 := by simpa [timer_invariant, hl] using hi
    obtain ⟨h1, h2, -⟩ := state_check_loop_control w env m
    cases hr : (hd_app_mgr_state_check_loop w env m).2 with
    | true =>
      simp only [if_true, timer_invariant, h1, h2, hr, hl, ht1]
      simp
    | false =>
      simp only [Bool.false_eq_true, if_false, timer_invariant, h1, h2, hr,
        hl, ht1]
      simp

theorem timeout_fired_same_flags (w : Nat) (env : Env) (m : Mgr) :
    same_flags m (timeout_fired w env m) := by
  unfold timeout_fired
  by_cases ht : m.timers = 0
  · simp only [ht, if_true]
    exact same_flags_refl m
  · simp only [ht, if_false]
    cases hr : (hd_app_mgr_state_check_loop w env m).2 with
    | true =>
      simp only [if_true]
      exact (state_check_loop_control w env m).2.2.1
    | false =>
      simp only [Bool.false_eq_true, if_false]
      exact (state_check_loop_control w env m).2.2.1

theorem queues_only_launch (w : Nat) (env : Env) (app : AppRef) (m : Mgr) :
    queues_only m (hd_app_mgr_launch w env app m).1 := by
  unfold hd_app_mgr_launch
  cases hc : hd_app_mgr_can_launch w env.free_file m.priv
  · exact queues_only_emit m _
  · simp only [Bool.not_true, Bool.false_eq_true, if_false]
    cases hs : (m.items app).service with
    | some sv =>
      simp only
      have hq := queues_only_trans (queues_only_service_top env sv none m)
        (queues_only_remove (hd_app_mgr_service_top env sv none m).1
          .QUEUE_PRESTARTABLE (some app))
      cases hr : (hd_app_mgr_service_top env sv none m).2
      · simpa [hd_app_mgr_not_prestartable] using hq
      · simp only [if_true]
        exact queues_only_trans hq
          (queues_only_trans (queues_only_set_pid _ _ _)
            (queues_only_trans (queues_only_set_state _ _ _)
              (queues_only_emit _ _)))
    | none =>
      simp only
      cases he : (m.items app).exec with
      | none => exact queues_only_refl m
      | some exec =>
        simp only
        cases hx : env.execute exec with
        | none => exact queues_only_emit m _
        | some pid =>
          exact queues_only_trans (queues_only_emit m _)
            (queues_only_trans (queues_only_set_pid _ _ _)
              (queues_only_trans (queues_only_set_state _ _ _)
                (queues_only_emit _ _)))

theorem queues_only_relaunch (env : Env) (app : AppRef) (m : Mgr) :
    queues_only m (hd_app_mgr_relaunch env app m).1 := by
  unfold hd_app_mgr_relaunch
  cases (m.items app).service with
  | none => exact queues_only_refl m
  | some sv => exact queues_only_service_top env sv none m

theorem queues_only_wakeup (w : Nat) (env : Env) (app : AppRef) (m : Mgr) :
    queues_only m (hd_app_mgr_wakeup w env app m).1 := by
  unfold hd_app_mgr_wakeup
  by_cases hst : (m.items app).state = .HD_APP_STATE_HIBERNATING
  · simp only [hst, ne_eq, not_true, if_false]
    cases hs : (m.items app).service with
    | none => exact queues_only_emit m _
    | some sv =>
      simp only
      cases hc : hd_app_mgr_can_launch w env.free_file m.priv
      · exact queues_only_emit m _
      · simp only [Bool.not_true, Bool.false_eq_true, if_false]
        cases hr : (hd_app_mgr_service_top env sv (some "RESTORE") m).2
        · simpa using queues_only_service_top env sv (some "RESTORE") m
        · simp only [if_true]
          exact queues_only_trans
            (queues_only_service_top env sv (some "RESTORE") m)
            (queues_only_trans (queues_only_remove _ _ _)
              (queues_only_trans (queues_only_set_pid _ _ _)
                (queues_only_set_state _ _ _)))
  · simp only [ne_eq, hst, not_false_eq_true, if_true]
    exact queues_only_refl m

theorem queues_only_match_window (res_name res_class : Option String)
    (m : Mgr) :
    queues_only m (hd_app_mgr_match_window res_name res_class m).1 := by
  unfold hd_app_mgr_match_window
  split
  · exact queues_only_emit m _
  · split
    · exact queues_only_trans (queues_only_emit m _)
        (queues_only_trans (queues_only_remove _ _ _)
          (queues_only_remove _ _ _))
    · exact queues_only_refl m

theorem queues_only_collect (item : AppRef) (m : Mgr) :
    queues_only m (_hd_app_mgr_collect_prestarted item m) := by
  unfold _hd_app_mgr_collect_prestarted
  split
  · split
    · exact queues_only_add m _ _
    · exact queues_only_refl m
  · exact queues_only_refl m

theorem queues_only_collect_all (items : List AppRef) (m : Mgr) :
    queues_only m
      (items.foldl (fun acc item => _hd_app_mgr_collect_prestarted item acc)
        m) := by
  induction items generalizing m with
  | nil => exact queues_only_refl m
  | cons i t ih =>
    exact queues_only_trans (queues_only_collect i m) (ih _)

theorem owner_found_control (w : Nat) (env : Env) (item : AppRef)
    (m1 : Mgr) :
    (timer_invariant m1 →
      timer_invariant
        (if (m1.items item).prestart_mode = .HD_APP_PRESTART_ALWAYS then
          hd_app_mgr_state_check w env
            (hd_app_mgr_add_to_queue .QUEUE_PRESTARTABLE (some item) m1)
        else m1)) ∧
    same_flags m1
      (if (m1.items item).prestart_mode = .HD_APP_PRESTART_ALWAYS then
        hd_app_mgr_state_check w env
          (hd_app_mgr_add_to_queue .QUEUE_PRESTARTABLE (some item) m1)
      else m1) := by
  have h2 := queues_only_add m1 .QUEUE_PRESTARTABLE (some item)
  split
  · exact ⟨fun hi => state_check_timer_invariant w env _
        (timer_invariant_of_queues_only h2 hi),
      same_flags_trans (same_flags_of_queues_only h2)
        (state_check_same_flags w env _).1⟩
  · exact ⟨id, same_flags_refl m1⟩

theorem name_owner_changed_items_control (w : Nat) (env : Env)
    (name : String) (items : List AppRef) (m : Mgr) :
    (timer_invariant m →
      timer_invariant (name_owner_changed_items w env name m items)) ∧
    same_flags m (name_owner_changed_items w env name m items) := by
  induction items with
  | nil => exact ⟨id, same_flags_refl m⟩
  | cons item rest ih =>
    by_cases hm : (m.items item).item_type = .HD_APPLICATION_LAUNCHER ∧
        (m.items item).service = some name
    · simp only [name_owner_changed_items, hm, and_self, if_true]
      have h1 : queues_only m
          (if (m.items item).state ≠ .HD_APP_STATE_HIBERNATING then
            hd_launcher_app_set_state item .HD_APP_STATE_INACTIVE m
          else m) := by
        split
        · exact queues_only_set_state m _ _
        · exact queues_only_refl m
      obtain ⟨c1, c2⟩ := owner_found_control w env item
        (if (m.items item).state ≠ .HD_APP_STATE_HIBERNATING then
          hd_launcher_app_set_state item .HD_APP_STATE_INACTIVE m
        else m)
      exact ⟨fun hi => c1 (timer_invariant_of_queues_only h1 hi),
        same_flags_trans (same_flags_of_queues_only h1) c2⟩
    · simp only [name_owner_changed_items, hm, if_false]
      exact ih

theorem signal_handler_control (w : Nat) (env : Env) (msg : DBusMessage)
    (m : Mgr) :
    (timer_invariant m →
      timer_invariant (hd_app_mgr_signal_handler w env msg m)) ∧
    (m.priv.init_done = true →
      (hd_app_mgr_signal_handler w env msg m).priv.init_done = true) := by
  cases msg <;> simp only [hd_app_mgr_signal_handler]
  case other => exact ⟨id, id⟩
  all_goals
    refine ⟨fun hi => state_check_timer_invariant w env _ hi, fun h => ?_⟩
    first
    | exact ((state_check_same_flags w env _).1.2.2.1).trans h
    | exact ((state_check_same_flags w env _).1.2.2.1).trans rfl

theorem hdrm_state_change_control (w : Nat) (env : Env) (m : Mgr) :
    (timer_invariant m →
      timer_invariant (hd_app_mgr_hdrm_state_change w env m)) ∧
    (m.priv.init_done = true →
      (hd_app_mgr_hdrm_state_change w env m).priv.init_done = true) := by
  unfold hd_app_mgr_hdrm_state_change
  simp only
  split
  · refine ⟨fun hi => state_check_timer_invariant w env _ hi, fun h => ?_⟩
    rw [(state_check_same_flags w env _).1.2.2.1]
    exact h
  · exact ⟨id, id⟩

/-- While the render manager is in the launcher state, every notification
stores the flag and runs the state check, also when the flag was set
already; in any other state the check runs only if the flag was set. -/
theorem hdrm_state_change_cases (w : Nat) (env : Env) (m : Mgr) :
    (env.hdrm_launcher = true →
      hd_app_mgr_hdrm_state_change w env m =
        hd_app_mgr_state_check w env
          { m with priv := { m.priv with launcher_shown := true } }) ∧
    (env.hdrm_launcher = false → m.priv.launcher_shown = true →
      hd_app_mgr_hdrm_state_change w env m =
        hd_app_mgr_state_check w env
          { m with priv := { m.priv with launcher_shown := false } }) ∧
    (env.hdrm_launcher = false → m.priv.launcher_shown = false →
      hd_app_mgr_hdrm_state_change w env m = m) := by
  refine ⟨?_, ?_, ?_⟩
  · intro h
    cases hs : m.priv.launcher_shown <;>
      simp [hd_app_mgr_hdrm_state_change, gboolean_value, flag_value, h, hs]
  · intro h hs
    simp [hd_app_mgr_hdrm_state_change, gboolean_value, flag_value, h, hs]
  · intro h hs
    simp [hd_app_mgr_hdrm_state_change, gboolean_value, flag_value, h, hs]

theorem step_control (w : Nat) (env : Env) (op : Op) (m : Mgr) :
    (timer_invariant m → timer_invariant (step w env op m)) ∧
    (m.priv.init_done = true → (step w env op m).priv.init_done = true) := by
  have hq : ∀ m2, queues_only m m2 →
      (timer_invariant m → timer_invariant m2) ∧
      (m.priv.init_done = true → m2.priv.init_done = true) := by
    intro m2 h
    refine ⟨timer_invariant_of_queues_only h, fun hd => ?_⟩
    rw [(same_flags_of_queues_only h).2.2.1]
    exact hd
  cases op with
  | prestartable app => exact hq _ (queues_only_add m _ app)
  | not_prestartable app => exact hq _ (queues_only_remove m _ app)
  | hibernatable app => exact hq _ (queues_only_add m _ app)
  | not_hibernatable app => exact hq _ (queues_only_remove m _ app)
  | launch app => exact hq _ (queues_only_launch w env app m)
  | relaunch app => exact hq _ (queues_only_relaunch env app m)
  | prestart app => exact hq _ (queues_only_prestart env app m)
  | wakeup app => exact hq _ (queues_only_wakeup w env app m)
  | kill app => exact hq _ (queues_only_kill env app m)
  | match_window n c => exact hq _ (queues_only_match_window n c m)
  | name_owner_changed name old new =>
    simp only [step, hd_app_mgr_dbus_name_owner_changed]
    split
    · exact ⟨id, id⟩
    · obtain ⟨h1, h2⟩ := name_owner_changed_items_control w env name m.tree m
      exact ⟨h1, fun hd => by rw [h2.2.2.1]; exact hd⟩
  | signal msg => exact signal_handler_control w env msg m
  | hdrm_state_change => exact hdrm_state_change_control w env m
  | populate_tree_finished =>
    simp only [step, hd_app_mgr_populate_tree_finished]
    have h := queues_only_collect_all m.tree m
    refine ⟨fun hi => state_check_timer_invariant w env _
      (timer_invariant_of_queues_only h hi), fun hd => ?_⟩
    rw [(state_check_same_flags w env _).1.2.2.1,
      (same_flags_of_queues_only h).2.2.1]
    exact hd
  | timeout =>
    refine ⟨timeout_fired_timer_invariant w env m, fun hd => ?_⟩
    show (timeout_fired w env m).priv.init_done = true
    rw [(timeout_fired_same_flags w env m).2.2.1]
    exact hd

theorem run_control (w : Nat) (ops : List (Env × Op)) (m : Mgr) :
    (timer_invariant m → timer_invariant (run w ops m)) ∧
    (m.priv.init_done = true → (run w ops m).priv.init_done = true) := by
  induction ops generalizing m with
  | nil => exact ⟨id, id⟩
  | cons eo rest ih =>
    have hs := step_control w eo.1 eo.2 m
    have hr := ih (step w eo.1 eo.2 m)
    exact ⟨fun h => hr.1 (hs.1 h), fun h => hr.2 (hs.2 h)⟩

/-- C12: in every state reached from a state with `state_check_looping`
clear and no timer armed, by any finite sequence of entries into the manager
(state checks requested by signals and notifications, firings of an armed
timer, which is removed when the callback returns false, and every public
function that changes flags or queues in between), the number of armed
timers is 1 if `state_check_looping` is set and 0 otherwise; so there are
never two timers, and `hd_app_mgr_state_check` returns without entering
`hd_app_mgr_state_check_loop`, leaving the state as it is, while the check
is looping. -/
theorem timer_invariant_reachable (w : Nat) (ops : List (Env × Op))
    (m0 : Mgr) (hl : m0.priv.state_check_looping = false)
    (ht : m0.timers = 0) :
    (run w ops m0).timers =
      (if (run w ops m0).priv.state_check_looping then 1 else 0) ∧
    (run w ops m0).timers ≤ 1 ∧
    ∀ env : Env, (run w ops m0).priv.state_check_looping = true →
      hd_app_mgr_state_check w env (run w ops m0) = run w ops m0 := by
  have h0 : timer_invariant m0 := by simp [timer_invariant, hl, ht]
  have h := (run_control w ops m0).1 h0
  refine ⟨h, ?_, ?_⟩
  · rw [h]
    split <;> simp
  · intro env hlk
    simp [hd_app_mgr_state_check, hlk]

/-- C12 on concrete runs: from start-up, after the tree is populated,
start-up finishes and a service is lost, no timer is armed and the check is
not looping; in the state reached from `sample_mgr_ready` by one signal,
which leaves application 2 waiting, one timer is armed and the check is
looping, and two firings later none is armed; and when the render manager
notifies again while the launcher stays shown, the state check runs (the
hibernatable queue is not empty and background killing is on), so that the
check is looping with one timer. -/
theorem timer_invariant_reachable_witness :
    (run 32 service_loss_run sample_mgr_single).timers =
      (if (run 32 service_loss_run
        sample_mgr_single).priv.state_check_looping then 1 else 0) ∧
    (run 32 [(sample_env, .signal .lowmem_off)] sample_mgr_ready).timers =
      1 ∧
    (run 32 [(sample_env, .signal .lowmem_off)]
      sample_mgr_ready).priv.state_check_looping = true ∧
    (run 32 [(sample_env, .signal .lowmem_off), (sample_env, .timeout),
      (sample_env, .timeout)] sample_mgr_ready).timers = 0 ∧
    (run 32 launcher_shown_run sample_mgr).timers =
      (if (run 32 launcher_shown_run sample_mgr).priv.state_check_looping
        then 1 else 0) ∧
    (run 32 (launcher_shown_run.take 3)
      sample_mgr).priv.state_check_looping = false ∧
    (run 32 launcher_shown_run sample_mgr).priv.state_check_looping = true ∧
    (run 32 launcher_shown_run sample_mgr).timers = 1 :=
  ⟨(timer_invariant_reachable 32 service_loss_run sample_mgr_single rfl
      rfl).1,
    by decide, by decide, by decide,
    (timer_invariant_reachable 32 launcher_shown_run sample_mgr rfl rfl).1,
    by decide, by decide, by decide⟩

/-! ## C19: the signal handler -/

/-- C19: `hd_app_mgr_signal_handler` sets `lowmem` on `lowmem_on`, clears it
on `lowmem_off`, sets `bg_killing` on `bgkill_on`, clears it on
`bgkill_off` and sets `init_done` on `init_done`; in each case the result is
that of one call of `hd_app_mgr_state_check` on the state with that one
assignment made, and in it the flag has the assigned value while the other
two flags and `launcher_shown` are as before; for any other message the
state is returned as it is, so no flag changes and no state check runs.
And `init_done`, once set, is set after every finite sequence of entries
into the manager. -/
theorem signal_handler_flags (w : Nat) (env : Env) (m : Mgr) :
    (hd_app_mgr_signal_handler w env .lowmem_on m =
        hd_app_mgr_state_check w env (m.set_lowmem true) ∧
      (hd_app_mgr_signal_handler w env .lowmem_on m).priv.lowmem = true ∧
      (hd_app_mgr_signal_handler w env .lowmem_on m).priv.bg_killing =
        m.priv.bg_killing ∧
      (hd_app_mgr_signal_handler w env .lowmem_on m).priv.init_done =
        m.priv.init_done ∧
      (hd_app_mgr_signal_handler w env .lowmem_on m).priv.launcher_shown =
        m.priv.launcher_shown) ∧
    (hd_app_mgr_signal_handler w env .lowmem_off m =
        hd_app_mgr_state_check w env (m.set_lowmem false) ∧
      (hd_app_mgr_signal_handler w env .lowmem_off m).priv.lowmem = false ∧
      (hd_app_mgr_signal_handler w env .lowmem_off m).priv.bg_killing =
        m.priv.bg_killing ∧
      (hd_app_mgr_signal_handler w env .lowmem_off m).priv.init_done =
        m.priv.init_done ∧
      (hd_app_mgr_signal_handler w env .lowmem_off m).priv.launcher_shown =
        m.priv.launcher_shown) ∧
    (hd_app_mgr_signal_handler w env .bgkill_on m =
        hd_app_mgr_state_check w env (m.set_bg_killing true) ∧
      (hd_app_mgr_signal_handler w env .bgkill_on m).priv.bg_killing =
        true ∧
      (hd_app_mgr_signal_handler w env .bgkill_on m).priv.lowmem =
        m.priv.lowmem ∧
      (hd_app_mgr_signal_handler w env .bgkill_on m).priv.init_done =
        m.priv.init_done ∧
      (hd_app_mgr_signal_handler w env .bgkill_on m).priv.launcher_shown =
        m.priv.launcher_shown) ∧
    (hd_app_mgr_signal_handler w env .bgkill_off m =
        hd_app_mgr_state_check w env (m.set_bg_killing false) ∧
      (hd_app_mgr_signal_handler w env .bgkill_off m).priv.bg_killing =
        false ∧
      (hd_app_mgr_signal_handler w env .bgkill_off m).priv.lowmem =
        m.priv.lowmem ∧
      (hd_app_mgr_signal_handler w env .bgkill_off m).priv.init_done =
        m.priv.init_done ∧
      (hd_app_mgr_signal_handler w env .bgkill_off m).priv.launcher_shown =
        m.priv.launcher_shown) ∧
    (hd_app_mgr_signal_handler w env .init_done m =
        hd_app_mgr_state_check w env (m.set_init_done true) ∧
      (hd_app_mgr_signal_handler w env .init_done m).priv.init_done =
        true ∧
      (hd_app_mgr_signal_handler w env .init_done m).priv.lowmem =
        m.priv.lowmem ∧
      (hd_app_mgr_signal_handler w env .init_done m).priv.bg_killing =
        m.priv.bg_killing ∧
      (hd_app_mgr_signal_handler w env .init_done m).priv.launcher_shown =
        m.priv.launcher_shown) ∧
    hd_app_mgr_signal_handler w env .other m = m ∧
    (∀ ops : List (Env × Op), m.priv.init_done = true →
      (run w ops m).priv.init_done = true) := by
  have f := fun m1 => (state_check_same_flags w env m1).1
  refine ⟨⟨rfl, ?_, ?_, ?_, ?_⟩, ⟨rfl, ?_, ?_, ?_, ?_⟩, ⟨rfl, ?_, ?_, ?_, ?_⟩,
    ⟨rfl, ?_, ?_, ?_, ?_⟩, ⟨rfl, ?_, ?_, ?_, ?_⟩, rfl,
    fun ops => (run_control w ops m).2⟩
  · exact (f (m.set_lowmem true)).1
  · exact (f (m.set_lowmem true)).2.1
  · exact (f (m.set_lowmem true)).2.2.1
  · exact (f (m.set_lowmem true)).2.2.2
  · exact (f (m.set_lowmem false)).1
  · exact (f (m.set_lowmem false)).2.1
  · exact (f (m.set_lowmem false)).2.2.1
  · exact (f (m.set_lowmem false)).2.2.2
  · exact (f (m.set_bg_killing true)).2.1
  · exact (f (m.set_bg_killing true)).1
  · exact (f (m.set_bg_killing true)).2.2.1
  · exact (f (m.set_bg_killing true)).2.2.2
  · exact (f (m.set_bg_killing false)).2.1
  · exact (f (m.set_bg_killing false)).1
  · exact (f (m.set_bg_killing false)).2.2.1
  · exact (f (m.set_bg_killing false)).2.2.2
  · exact (f (m.set_init_done true)).2.2.1
  · exact (f (m.set_init_done true)).1
  · exact (f (m.set_init_done true)).2.1
  · exact (f (m.set_init_done true)).2.2.2

/-- C19 on a concrete run: the `init_done` signal sets the latch, and it is
still set after low memory is reported and a service is lost. -/
theorem signal_handler_flags_witness :
    (hd_app_mgr_signal_handler 32 sample_env .init_done
      sample_mgr_single).priv.init_done = true ∧
    (run 32 [(sample_env, .signal .lowmem_on),
        (sample_env, .name_owner_changed "com.nokia.sample" ":1.42" "")]
      (hd_app_mgr_signal_handler 32 sample_env .init_done
        sample_mgr_single)).priv.init_done = true :=
  have h := (signal_handler_flags 32 sample_env sample_mgr_single).2.2.2.2.1
  ⟨h.2.1,
    (signal_handler_flags 32 sample_env
      (hd_app_mgr_signal_handler 32 sample_env .init_done
        sample_mgr_single)).2.2.2.2.2.2 _ h.2.1⟩

/-! ## C13 and C14: `hd_app_mgr_kill` -/

theorem kill_snd (env : Env) (app : AppRef) (m : Mgr) :
    (hd_app_mgr_kill env app m).2 =
      (env.is_executing (m.items app) && decide ((m.items app).pid ≠ 0) &&
        env.kill_ok (m.items app).pid) := by
  unfold hd_app_mgr_kill
  by_cases h1 : env.is_executing (m.items app) = true <;>
  by_cases h2 : (m.items app).pid = 0 <;>
  by_cases h3 : env.kill_ok (m.items app).pid = true <;>
  simp [h1, h2, h3, Mgr.emit]

theorem nodup_of_all_queues (m : Mgr) (h : (all_queues m).Nodup)
    (q : HdAppMgrQueue) : (m.queue q).Nodup := by
  unfold all_queues at h
  simp only [List.nodup_append] at h
  cases q
  · exact h.1.1.1
  · exact h.1.1.2.1
  · exact h.1.2.1
  · exact h.2.1

/-- C13: when the application is executing, has a non-zero process id and
`kill (pid, SIGTERM)` succeeds, and no application occurs twice in the four
queues, `hd_app_mgr_kill` returns true; afterwards the application is in
neither the prestarted nor the hibernatable queue and its state is Inactive;
the prestartable and hibernated queues are unchanged; the prestarted and
hibernatable queues are the old ones without the application, the other
entries in their old order; and the signal went to the recorded process
id. -/
theorem kill_success (env : Env) (app : AppRef) (m : Mgr)
    (hex : env.is_executing (m.items app) = true)
    (hpid : (m.items app).pid ≠ 0)
    (hk : env.kill_ok (m.items app).pid = true)
    (hinv : (all_queues m).Nodup) :
    (hd_app_mgr_kill env app m).2 = true ∧
    app ∉ (hd_app_mgr_kill env app m).1.queue .QUEUE_PRESTARTED ∧
    app ∉ (hd_app_mgr_kill env app m).1.queue .QUEUE_HIBERNATABLE ∧
    ((hd_app_mgr_kill env app m).1.items app).state =
      .HD_APP_STATE_INACTIVE ∧
    (hd_app_mgr_kill env app m).1.queue .QUEUE_PRESTARTABLE =
      m.queue .QUEUE_PRESTARTABLE ∧
    (hd_app_mgr_kill env app m).1.queue .QUEUE_HIBERNATED =
      m.queue .QUEUE_HIBERNATED ∧
    (hd_app_mgr_kill env app m).1.queue .QUEUE_PRESTARTED =
      (m.queue .QUEUE_PRESTARTED).filter (fun a => a ≠ app) ∧
    (hd_app_mgr_kill env app m).1.queue .QUEUE_HIBERNATABLE =
      (m.queue .QUEUE_HIBERNATABLE).filter (fun a => a ≠ app) ∧
    sigterm_calls (hd_app_mgr_kill env app m).1.log =
      sigterm_calls m.log ++ [(m.items app).pid] := by
  have hr : (hd_app_mgr_kill env app m).2 = true := by
    rw [kill_snd]
    simp [hex, hpid, hk]
  have hn1 := nodup_of_all_queues m hinv .QUEUE_PRESTARTED
  have hn2 := nodup_of_all_queues m hinv .QUEUE_HIBERNATABLE
  rcases kill_cases env app m with ⟨hf, -⟩ | ⟨-, hp, hi, hs⟩
  · rw [hr] at hf
    exact absurd hf (by simp)
  · have e1 : (hd_app_mgr_kill env app m).1.queue .QUEUE_PRESTARTED =
        (m.queue .QUEUE_PRESTARTED).erase app := by
      simp only [Mgr.queue, hp]
      simp [Mgr.set_queue, Mgr.queue]
    have e2 : (hd_app_mgr_kill env app m).1.queue .QUEUE_HIBERNATABLE =
        (m.queue .QUEUE_HIBERNATABLE).erase app := by
      simp only [Mgr.queue, hp]
      simp [Mgr.set_queue, Mgr.queue]
    refine ⟨hr, ?_, ?_, ?_, ?_, ?_, ?_, ?_, hs⟩
    · rw [e1]
      exact hn1.not_mem_erase
    · rw [e2]
      exact hn2.not_mem_erase
    · rw [hi]
      simp [hd_launcher_app_set_state]
    · simp only [Mgr.queue, hp]
      simp [Mgr.set_queue]
    · simp only [Mgr.queue, hp]
      simp [Mgr.set_queue]
    · rw [e1, hn1.erase_eq_filter]
      congr 1
      funext a
      by_cases h : a = app <;> simp [h]
    · rw [e2, hn2.erase_eq_filter]
      congr 1
      funext a
      by_cases h : a = app <;> simp [h]

/-- C13 at the input of the specification: application 1 in state Shown
with process id 1234, listed in the hibernatable queue `[2, 1, 3]`: the kill
returns true, the queue becomes `[2, 3]`, the state Inactive, and the
prestartable queue `[4]` stays. -/
theorem kill_success_witness :
    (hd_app_mgr_kill sample_env 1
      (sample_mgr_of .HD_APP_STATE_SHOWN 1234 [4] [] [2, 1, 3] [])).2 =
      true ∧
    (hd_app_mgr_kill sample_env 1
      (sample_mgr_of .HD_APP_STATE_SHOWN 1234 [4] [] [2, 1, 3]
        [])).1.queue .QUEUE_HIBERNATABLE = [2, 3] ∧
    ((hd_app_mgr_kill sample_env 1
      (sample_mgr_of .HD_APP_STATE_SHOWN 1234 [4] [] [2, 1, 3]
        [])).1.items 1).state = .HD_APP_STATE_INACTIVE ∧
    (hd_app_mgr_kill sample_env 1
      (sample_mgr_of .HD_APP_STATE_SHOWN 1234 [4] [] [2, 1, 3]
        [])).1.queue .QUEUE_PRESTARTABLE = [4] :=
  have h := kill_success sample_env 1
    (sample_mgr_of .HD_APP_STATE_SHOWN 1234 [4] [] [2, 1, 3] [])
    (by decide) (by decide) (by decide) (by decide)
  ⟨h.1, by decide, h.2.2.2.1, h.2.2.2.2.1⟩

/-- C14: `hd_app_mgr_kill` returns false if and only if the application is
not executing, or its recorded process id is 0, or `kill (pid, SIGTERM)`
fails; whenever it returns false the four queues and every launcher item,
so the state and the process id of the application, are unchanged; and when
the application is not executing or has process id 0 no signal is sent. -/
theorem kill_failure (env : Env) (app : AppRef) (m : Mgr) :
    ((hd_app_mgr_kill env app m).2 = false ↔
      (env.is_executing (m.items app) = false ∨ (m.items app).pid = 0 ∨
        env.kill_ok (m.items app).pid = false)) ∧
    ((hd_app_mgr_kill env app m).2 = false →
      (∀ q, (hd_app_mgr_kill env app m).1.queue q = m.queue q) ∧
      (hd_app_mgr_kill env app m).1.items = m.items ∧
      ((hd_app_mgr_kill env app m).1.items app).state =
        (m.items app).state ∧
      ((hd_app_mgr_kill env app m).1.items app).pid = (m.items app).pid) ∧
    (env.is_executing (m.items app) = false ∨ (m.items app).pid = 0 →
      sigterm_calls (hd_app_mgr_kill env app m).1.log =
        sigterm_calls m.log) := by
  refine ⟨?_, ?_, ?_⟩
  · rw [kill_snd]
    cases env.is_executing (m.items app) <;>
      cases env.kill_ok (m.items app).pid <;>
      by_cases h2 : (m.items app).pid = 0 <;> simp [h2]
  · intro hf
    rcases kill_cases env app m with ⟨-, hp, hi, -⟩ | ⟨ht, -⟩
    · refine ⟨fun q => ?_, hi, by rw [hi], by rw [hi]⟩
      simp only [Mgr.queue, hp]
    · rw [hf] at ht
      exact absurd ht (by simp)
  · intro h
    unfold hd_app_mgr_kill
    rcases h with h | h
    · simp [h, Mgr.emit, sigterm_calls_append, sigterm_calls]
    · by_cases h1 : env.is_executing (m.items app) = true <;>
        simp [h, h1, Mgr.emit, sigterm_calls_append, sigterm_calls]

/-- C14 at concrete inputs: an inactive application, and a shown one whose
process does not take the signal, are not killed, and the hibernatable
queue `[2, 1, 3]` stays as it is. -/
theorem kill_failure_witness :
    (hd_app_mgr_kill sample_env 1
      (sample_mgr_of .HD_APP_STATE_INACTIVE 1234 [4] [] [2, 1, 3] [])).2 =
      false ∧
    (hd_app_mgr_kill sample_env_no_kill 1
      (sample_mgr_of .HD_APP_STATE_SHOWN 1234 [4] [] [2, 1, 3] [])).2 =
      false ∧
    (hd_app_mgr_kill sample_env_no_kill 1
      (sample_mgr_of .HD_APP_STATE_SHOWN 1234 [4] [] [2, 1, 3]
        [])).1.queue .QUEUE_HIBERNATABLE = [2, 1, 3] :=
  have h := kill_failure sample_env_no_kill 1
    (sample_mgr_of .HD_APP_STATE_SHOWN 1234 [4] [] [2, 1, 3] [])
  have hf := h.1.2 (Or.inr (Or.inr rfl))
  ⟨(kill_failure sample_env 1
      (sample_mgr_of .HD_APP_STATE_INACTIVE 1234 [4] [] [2, 1, 3]
        [])).1.2 (Or.inl rfl),
    hf, (h.2.1 hf).1 .QUEUE_HIBERNATABLE⟩

/-! ## C15 and C16: `hd_app_mgr_launch` -/

theorem not_mem_erase_of_count_le_one (l : List AppRef) (a : AppRef)
    (h : l.count a ≤ 1) : a ∉ l.erase a := by
  rw [← List.count_eq_zero, List.count_erase_self]
  omega

theorem service_top_eq (env : Env) (sv : String) (param : Option String)
    (m : Mgr) :
    hd_app_mgr_service_top env sv param m =
      if env.bus_get_ok = true ∧ env.message_new_ok = true ∧
          env.connection_send_ok = true then
        (m.emit (.service_top sv param), true)
      else ((m.emit (.service_top sv param)).emit .message, false) := by
  unfold hd_app_mgr_service_top
  by_cases hb : env.bus_get_ok = true <;>
    by_cases hm : env.message_new_ok = true <;>
    by_cases hc : env.connection_send_ok = true <;>
    simp [hb, hm, hc]

/-- C15: when `hd_app_mgr_can_launch` is false, `hd_app_mgr_launch` returns
false for every application, whether it has a service, an executable or
neither: `hd_app_mgr_service_top` and `hd_app_mgr_execute` are not called,
"application-launched" is not emitted, and the four queues and every
launcher item, so the state and the process id of the application, are
unchanged. -/
theorem launch_no_memory (w : Nat) (env : Env) (app : AppRef) (m : Mgr)
    (h : hd_app_mgr_can_launch w env.free_file m.priv = false) :
    (hd_app_mgr_launch w env app m).2 = false ∧
    service_top_calls (hd_app_mgr_launch w env app m).1.log =
      service_top_calls m.log ∧
    execute_calls (hd_app_mgr_launch w env app m).1.log =
      execute_calls m.log ∧
    app_launched_calls (hd_app_mgr_launch w env app m).1.log =
      app_launched_calls m.log ∧
    (hd_app_mgr_launch w env app m).1.items = m.items ∧
    ((hd_app_mgr_launch w env app m).1.items app).state =
      (m.items app).state ∧
    ((hd_app_mgr_launch w env app m).1.items app).pid = (m.items app).pid ∧
    ∀ q, (hd_app_mgr_launch w env app m).1.queue q = m.queue q := by
  have e : hd_app_mgr_launch w env app m = (m.emit .message, false) := by
    simp [hd_app_mgr_launch, h]
  rw [e]
  simp [Mgr.emit, Mgr.queue, service_top_calls, execute_calls,
    app_launched_calls, List.filterMap_append]

/-- C15 at a concrete state: with a launch threshold of 1000 pages and 10
free pages, launching application 1 from the prestartable queue `[1, 2]`
returns false and leaves the queue and the state of the application. -/
theorem launch_no_memory_witness :
    hd_app_mgr_can_launch 32 sample_env_low_free.free_file
      (sample_mgr_limits .HD_APP_STATE_INACTIVE 0 [1, 2] [] [] []).priv =
      false ∧
    (hd_app_mgr_launch 32 sample_env_low_free 1
      (sample_mgr_limits .HD_APP_STATE_INACTIVE 0 [1, 2] [] [] [])).2 =
      false ∧
    (hd_app_mgr_launch 32 sample_env_low_free 1
      (sample_mgr_limits .HD_APP_STATE_INACTIVE 0 [1, 2] [] []
        [])).1.queue .QUEUE_PRESTARTABLE = [1, 2] ∧
    ((hd_app_mgr_launch 32 sample_env_low_free 1
      (sample_mgr_limits .HD_APP_STATE_INACTIVE 0 [1, 2] [] []
        [])).1.items 1).state = .HD_APP_STATE_INACTIVE :=
  have h := launch_no_memory 32 sample_env_low_free 1
    (sample_mgr_limits .HD_APP_STATE_INACTIVE 0 [1, 2] [] [] [])
    (by decide)
  ⟨by decide, h.1, h.2.2.2.2.2.2.2 .QUEUE_PRESTARTABLE, h.2.2.2.2.2.1⟩

/-- C16: for an application with a service, when `hd_app_mgr_can_launch` is
true and the application occurs at most once in the prestartable queue,
`hd_app_mgr_launch` calls `hd_app_mgr_service_top` once, for that service
and without parameter, and afterwards the application is not in the
prestartable queue while the other three queues are unchanged.  When the
activation succeeds (the session bus is reached, the message is created and
sent) it returns true, the process id is the one resolved for the service,
the state is Loading and "application-launched" is emitted once, for the
application; when it fails it returns false, no launcher item changes and
nothing is emitted. -/
theorem launch_by_service (w : Nat) (env : Env) (app : AppRef) (m : Mgr)
    (sv : String) (hsv : (m.items app).service = some sv)
    (hcan : hd_app_mgr_can_launch w env.free_file m.priv = true)
    (hcount : (m.queue .QUEUE_PRESTARTABLE).count app ≤ 1) :
    service_top_calls (hd_app_mgr_launch w env app m).1.log =
      service_top_calls m.log ++ [(sv, none)] ∧
    app ∉ (hd_app_mgr_launch w env app m).1.queue .QUEUE_PRESTARTABLE ∧
    (∀ q, q ≠ .QUEUE_PRESTARTABLE →
      (hd_app_mgr_launch w env app m).1.queue q = m.queue q) ∧
    (env.bus_get_ok = true ∧ env.message_new_ok = true ∧
        env.connection_send_ok = true →
      (hd_app_mgr_launch w env app m).2 = true ∧
      ((hd_app_mgr_launch w env app m).1.items app).pid =
        env.service_pid sv ∧
      ((hd_app_mgr_launch w env app m).1.items app).state =
        .HD_APP_STATE_LOADING ∧
      app_launched_calls (hd_app_mgr_launch w env app m).1.log =
        app_launched_calls m.log ++ [app]) ∧
    (¬ (env.bus_get_ok = true ∧ env.message_new_ok = true ∧
        env.connection_send_ok = true) →
      (hd_app_mgr_launch w env app m).2 = false ∧
      (hd_app_mgr_launch w env app m).1.items = m.items ∧
      app_launched_calls (hd_app_mgr_launch w env app m).1.log =
        app_launched_calls m.log) := by
  have hne := not_mem_erase_of_count_le_one _ _ hcount
  simp only [Mgr.queue] at hne
  unfold hd_app_mgr_launch
  simp only [hcan, hsv, Bool.not_true, Bool.false_eq_true, if_false,
    hd_app_mgr_not_prestartable, remove_from_queue_eq, service_top_eq]
  by_cases hok : env.bus_get_ok = true ∧ env.message_new_ok = true ∧
      env.connection_send_ok = true
  · simp only [hok, and_self, if_true, not_true, true_implies]
    simp [Mgr.emit, Mgr.set_queue, Mgr.queue, hd_launcher_app_set_state,
      hd_launcher_app_set_pid, service_top_calls, app_launched_calls,
      List.filterMap_append, hne]
    exact fun q h1 h2 => absurd h2 h1
  · simp only [hok, if_false, not_false_eq_true, true_implies]
    simp [Mgr.emit, Mgr.set_queue, Mgr.queue, service_top_calls,
      app_launched_calls, List.filterMap_append, hne]
    exact fun q h1 h2 => absurd h2 h1

/-- C16 at a concrete state: launching application 1, which waits in the
prestartable queue `[1, 2]`, returns true, leaves `[2]`, and application 1
is Loading with the process id of its service. -/
theorem launch_by_service_witness :
    (hd_app_mgr_launch 32 sample_env 1
      (sample_mgr_of .HD_APP_STATE_INACTIVE 0 [1, 2] [] [] [])).2 = true ∧
    (hd_app_mgr_launch 32 sample_env 1
      (sample_mgr_of .HD_APP_STATE_INACTIVE 0 [1, 2] [] []
        [])).1.queue .QUEUE_PRESTARTABLE = [2] ∧
    ((hd_app_mgr_launch 32 sample_env 1
      (sample_mgr_of .HD_APP_STATE_INACTIVE 0 [1, 2] [] []
        [])).1.items 1).state = .HD_APP_STATE_LOADING ∧
    ((hd_app_mgr_launch 32 sample_env 1
      (sample_mgr_of .HD_APP_STATE_INACTIVE 0 [1, 2] [] []
        [])).1.items 1).pid = 4321 ∧
    (hd_app_mgr_launch 32 sample_env_no_bus 1
      (sample_mgr_of .HD_APP_STATE_INACTIVE 0 [1, 2] [] [] [])).2 = false :=
  have h := (launch_by_service 32 sample_env 1
    (sample_mgr_of .HD_APP_STATE_INACTIVE 0 [1, 2] [] [] [])
    "com.nokia.sample" rfl (by decide) (by decide)).2.2.2.1
      ⟨rfl, rfl, rfl⟩
  ⟨h.1, by decide, h.2.2.1, h.2.1,
    ((launch_by_service 32 sample_env_no_bus 1
      (sample_mgr_of .HD_APP_STATE_INACTIVE 0 [1, 2] [] [] [])
      "com.nokia.sample" rfl (by decide) (by decide)).2.2.2.2
        (by decide)).1⟩

/-! ## C17: a prestart that fails -/

/-- C17: for an application that is not executing and has a service, when
the session bus is reached and the start request
`dbus_bus_start_service_by_name` fails, `hd_app_mgr_prestart` returns false,
the prestartable queue becomes the old one with the first occurrence of the
application removed and the application appended at the tail, and the other
three queues and every launcher item, so the state and the process id of
the application, are unchanged.  (When the session bus is not reached no
start request is made: the function returns false and changes no queue and
no item.) -/
theorem prestart_failure_requeues (env : Env) (app : AppRef) (m : Mgr)
    (sv : String) (hexec : env.is_executing (m.items app) = false)
    (hsv : (m.items app).service = some sv) :
    (env.bus_get_ok = true → env.start_service_ok sv = false →
      (hd_app_mgr_prestart env app m).2 = false ∧
      (hd_app_mgr_prestart env app m).1.queue .QUEUE_PRESTARTABLE =
        (m.queue .QUEUE_PRESTARTABLE).erase app ++ [app] ∧
      (∀ q, q ≠ .QUEUE_PRESTARTABLE →
        (hd_app_mgr_prestart env app m).1.queue q = m.queue q) ∧
      (hd_app_mgr_prestart env app m).1.items = m.items ∧
      start_service_calls (hd_app_mgr_prestart env app m).1.log =
        start_service_calls m.log ++ [sv]) ∧
    (env.bus_get_ok = false →
      (hd_app_mgr_prestart env app m).2 = false ∧
      (∀ q, (hd_app_mgr_prestart env app m).1.queue q = m.queue q) ∧
      (hd_app_mgr_prestart env app m).1.items = m.items ∧
      start_service_calls (hd_app_mgr_prestart env app m).1.log =
        start_service_calls m.log) := by
  constructor
  · intro hbus hstart
    unfold hd_app_mgr_prestart
    simp only [Mgr.emit, hexec, hsv, hbus, hstart, Bool.false_eq_true,
      if_false, Bool.not_true, remove_from_queue_eq,
      hd_app_mgr_add_to_queue]
    simp [Mgr.set_queue, Mgr.queue, start_service_calls,
      List.filterMap_append]
    intro q h1
    simp [h1]
  · intro hbus
    unfold hd_app_mgr_prestart
    simp only [Mgr.emit, hexec, hsv, hbus, Bool.false_eq_true, if_false,
      Bool.not_false, if_true]
    simp [Mgr.queue, start_service_calls, List.filterMap_append]

/-- C17 at the input of the claim: with the prestartable queue `[1, 2, 3]`
and a service that does not start, prestarting application 1 returns false
and leaves `[2, 3, 1]`. -/
theorem prestart_failure_requeues_witness :
    (hd_app_mgr_prestart sample_env_no_start 1
      (sample_mgr_of .HD_APP_STATE_INACTIVE 0 [1, 2, 3] [] [] [])).2 =
      false ∧
    (hd_app_mgr_prestart sample_env_no_start 1
      (sample_mgr_of .HD_APP_STATE_INACTIVE 0 [1, 2, 3] [] []
        [])).1.queue .QUEUE_PRESTARTABLE = [2, 3, 1] :=
  have h := (prestart_failure_requeues sample_env_no_start 1
    (sample_mgr_of .HD_APP_STATE_INACTIVE 0 [1, 2, 3] [] [] [])
    "com.nokia.sample" rfl rfl).1 rfl rfl
  ⟨h.1, h.2.1⟩

/-! ## C18: `hd_app_mgr_wakeup` -/

/-- C18: `hd_app_mgr_wakeup` returns true and the state it was given when
the application is not Hibernating, whatever its service and the memory;
for a Hibernating application it returns false, without calling
`hd_app_mgr_service_top` and without changing a queue or a launcher item,
when the application has no service or when `hd_app_mgr_can_launch` is
false; otherwise it calls `hd_app_mgr_service_top` once with the parameter
"RESTORE", returns true exactly when that succeeds (bus reached, message
created and sent), and then the hibernated queue is the old one with the
first occurrence of the application removed, the other three queues are
unchanged, the process id is the one resolved for the service and the state
is Loading; when it fails no queue and no launcher item changes. -/
theorem wakeup_contract (w : Nat) (env : Env) (app : AppRef) (m : Mgr) :
    ((m.items app).state ≠ .HD_APP_STATE_HIBERNATING →
      hd_app_mgr_wakeup w env app m = (m, true)) ∧
    ((m.items app).state = .HD_APP_STATE_HIBERNATING →
      ((m.items app).service = none ∨
        hd_app_mgr_can_launch w env.free_file m.priv = false) →
      (hd_app_mgr_wakeup w env app m).2 = false ∧
      (hd_app_mgr_wakeup w env app m).1.priv = m.priv ∧
      (hd_app_mgr_wakeup w env app m).1.items = m.items ∧
      service_top_calls (hd_app_mgr_wakeup w env app m).1.log =
        service_top_calls m.log) ∧
    (∀ sv, (m.items app).state = .HD_APP_STATE_HIBERNATING →
      (m.items app).service = some sv →
      hd_app_mgr_can_launch w env.free_file m.priv = true →
      service_top_calls (hd_app_mgr_wakeup w env app m).1.log =
        service_top_calls m.log ++ [(sv, some "RESTORE")] ∧
      ((hd_app_mgr_wakeup w env app m).2 = true ↔
        (env.bus_get_ok = true ∧ env.message_new_ok = true ∧
          env.connection_send_ok = true)) ∧
      ((hd_app_mgr_wakeup w env app m).2 = true →
        (hd_app_mgr_wakeup w env app m).1.queue .QUEUE_HIBERNATED =
          (m.queue .QUEUE_HIBERNATED).erase app ∧
        (∀ q, q ≠ .QUEUE_HIBERNATED →
          (hd_app_mgr_wakeup w env app m).1.queue q = m.queue q) ∧
        ((hd_app_mgr_wakeup w env app m).1.items app).pid =
          env.service_pid sv ∧
        ((hd_app_mgr_wakeup w env app m).1.items app).state =
          .HD_APP_STATE_LOADING) ∧
      ((hd_app_mgr_wakeup w env app m).2 = false →
        (hd_app_mgr_wakeup w env app m).1.priv = m.priv ∧
        (hd_app_mgr_wakeup w env app m).1.items = m.items)) := by
  refine ⟨?_, ?_, ?_⟩
  · intro hst
    simp [hd_app_mgr_wakeup, hst]
  · intro hst h
    unfold hd_app_mgr_wakeup
    simp only [hst, ne_eq, not_true, if_false]
    cases hs : (m.items app).service with
    | none =>
      simp [Mgr.emit, service_top_calls, List.filterMap_append]
    | some sv =>
      have hc : hd_app_mgr_can_launch w env.free_file m.priv = false := by
        rcases h with h | h
        · rw [hs] at h
          exact absurd h (by simp)
        · exact h
      simp [hc, Mgr.emit, service_top_calls, List.filterMap_append]
  · intro sv hst hs hc
    unfold hd_app_mgr_wakeup
    simp only [hst, hs, hc, ne_eq, not_true, if_false, Bool.not_true,
      Bool.false_eq_true, remove_from_queue_eq, service_top_eq]
    by_cases hok : env.bus_get_ok = true ∧ env.message_new_ok = true ∧
        env.connection_send_ok = true
    · simp only [hok, and_self, if_true]
      simp [Mgr.emit, Mgr.set_queue, Mgr.queue, hd_launcher_app_set_state,
        hd_launcher_app_set_pid, service_top_calls, List.filterMap_append]
      exact fun q h1 h2 => absurd h2 h1
    · simp only [hok, if_false]
      simp [Mgr.emit, service_top_calls, List.filterMap_append]

/-- C18 at a concrete state: waking the hibernating application 1, listed
in the hibernated queue `[1, 2]`, returns true, leaves `[2]` and sets the
state Loading; with the bus out of reach it returns false and the queue
stays. -/
theorem wakeup_contract_witness :
    (hd_app_mgr_wakeup 32 sample_env 1
      (sample_mgr_of .HD_APP_STATE_HIBERNATING 0 [] [] [] [1, 2])).2 =
      true ∧
    (hd_app_mgr_wakeup 32 sample_env 1
      (sample_mgr_of .HD_APP_STATE_HIBERNATING 0 [] [] []
        [1, 2])).1.queue .QUEUE_HIBERNATED = [2] ∧
    ((hd_app_mgr_wakeup 32 sample_env 1
      (sample_mgr_of .HD_APP_STATE_HIBERNATING 0 [] [] []
        [1, 2])).1.items 1).state = .HD_APP_STATE_LOADING ∧
    (hd_app_mgr_wakeup 32 sample_env_no_bus 1
      (sample_mgr_of .HD_APP_STATE_HIBERNATING 0 [] [] []
        [1, 2])).1.priv.queues .QUEUE_HIBERNATED = [1, 2] :=
  have h := (wakeup_contract 32 sample_env 1
    (sample_mgr_of .HD_APP_STATE_HIBERNATING 0 [] [] [] [1, 2])).2.2
      "com.nokia.sample" rfl rfl (by decide)
  have ht := h.2.1.2 ⟨rfl, rfl, rfl⟩
  ⟨ht, (h.2.2.1 ht).1, (h.2.2.1 ht).2.2.2, by decide⟩

/-! ## C20: loss of the owner of a service -/

theorem name_owner_changed_items_skip (w : Nat) (env : Env) (name : String)
    (m : Mgr) (pre rest : List AppRef)
    (h : ∀ p ∈ pre, ¬ ((m.items p).item_type = .HD_APPLICATION_LAUNCHER ∧
      (m.items p).service = some name)) :
    name_owner_changed_items w env name m (pre ++ rest) =
      name_owner_changed_items w env name m rest := by
  induction pre with
  | nil => rfl
  | cons p t ih =>
    have hp := h p (by simp)
    have ht : ∀ q ∈ t, ¬ ((m.items q).item_type = .HD_APPLICATION_LAUNCHER ∧
        (m.items q).service = some name) :=
      fun q hq => h q (by simp [hq])
    simp only [List.cons_append, name_owner_changed_items, hp, if_false]
    exact ih ht

/-- C20: `hd_app_mgr_dbus_name_owner_changed` returns the state it was
given when the new owner is not empty, and when the new owner is empty and
no application of the tree has the reported service.  When the new owner is
empty and X is the first application of the tree, in its order, whose
service is the reported name, the handler first sets the state of X to
Inactive unless it is Hibernating, in which case it stays so, touching no
other launcher item, no queue and nothing else (the state `m1` below); then,
if the prestart policy of X is Always, it appends X at the tail of the
prestartable queue and calls `hd_app_mgr_state_check` once on the outcome,
and otherwise it returns `m1`, so that no queue changes and no state check
runs. -/
theorem name_owner_changed_spec (w : Nat) (env : Env)
    (name old_owner new_owner : String) (m : Mgr) :
    (new_owner ≠ "" →
      hd_app_mgr_dbus_name_owner_changed w env name old_owner new_owner m =
        m) ∧
    ((∀ p ∈ m.tree, ¬ ((m.items p).item_type = .HD_APPLICATION_LAUNCHER ∧
        (m.items p).service = some name)) →
      hd_app_mgr_dbus_name_owner_changed w env name old_owner "" m = m) ∧
    (∀ pre X post, m.tree = pre ++ X :: post →
      (∀ p ∈ pre, ¬ ((m.items p).item_type = .HD_APPLICATION_LAUNCHER ∧
        (m.items p).service = some name)) →
      (m.items X).item_type = .HD_APPLICATION_LAUNCHER →
      (m.items X).service = some name →
      ∃ m1 : Mgr,
        m1.priv = m.priv ∧ m1.log = m.log ∧ m1.timers = m.timers ∧
        m1.tree = m.tree ∧
        m1.items X = { m.items X with
          state := if (m.items X).state = .HD_APP_STATE_HIBERNATING then
            .HD_APP_STATE_HIBERNATING else .HD_APP_STATE_INACTIVE } ∧
        (∀ a, a ≠ X → m1.items a = m.items a) ∧
        (hd_app_mgr_add_to_queue .QUEUE_PRESTARTABLE (some X) m1).queue
            .QUEUE_PRESTARTABLE = m.queue .QUEUE_PRESTARTABLE ++ [X] ∧
        ((m.items X).prestart_mode = .HD_APP_PRESTART_ALWAYS →
          hd_app_mgr_dbus_name_owner_changed w env name old_owner "" m =
            hd_app_mgr_state_check w env
              (hd_app_mgr_add_to_queue .QUEUE_PRESTARTABLE (some X) m1)) ∧
        ((m.items X).prestart_mode ≠ .HD_APP_PRESTART_ALWAYS →
          hd_app_mgr_dbus_name_owner_changed w env name old_owner "" m =
            m1)) := by
  refine ⟨?_, ?_, ?_⟩
  · intro h
    simp [hd_app_mgr_dbus_name_owner_changed, h]
  · intro h
    have := name_owner_changed_items_skip w env name m m.tree [] h
    simp only [List.append_nil] at this
    simp only [hd_app_mgr_dbus_name_owner_changed, ne_eq, not_true,
      if_false, this]
    rfl
  · intro pre X post htree hpre htype hsv
    have key : hd_app_mgr_dbus_name_owner_changed w env name old_owner "" m =
        name_owner_changed_items w env name m (X :: post) := by
      simp only [hd_app_mgr_dbus_name_owner_changed, ne_eq, not_true,
        if_false, htree,
        name_owner_changed_items_skip w env name m pre (X :: post) hpre]
    have key2 : name_owner_changed_items w env name m (X :: post) =
        if ((if (m.items X).state ≠ .HD_APP_STATE_HIBERNATING then
              hd_launcher_app_set_state X .HD_APP_STATE_INACTIVE m
            else m).items X).prestart_mode = .HD_APP_PRESTART_ALWAYS then
          hd_app_mgr_state_check w env
            (hd_app_mgr_add_to_queue .QUEUE_PRESTARTABLE (some X)
              (if (m.items X).state ≠ .HD_APP_STATE_HIBERNATING then
                hd_launcher_app_set_state X .HD_APP_STATE_INACTIVE m
              else m))
        else
          (if (m.items X).state ≠ .HD_APP_STATE_HIBERNATING then
            hd_launcher_app_set_state X .HD_APP_STATE_INACTIVE m
          else m) := by
      simp only [name_owner_changed_items, htype, hsv, and_self, if_true]
    rw [key, key2]
    by_cases hst : (m.items X).state = .HD_APP_STATE_HIBERNATING
    · refine ⟨m, rfl, rfl, rfl, rfl, ?_, fun a _ => rfl, ?_, ?_, ?_⟩
      · simp only [hst, if_true]
        rw [← hst]
      · simp [hd_app_mgr_add_to_queue, Mgr.set_queue, Mgr.queue]
      · intro hp
        simp [hst, hp]
      · intro hp
        simp [hst, hp]
    · refine ⟨hd_launcher_app_set_state X .HD_APP_STATE_INACTIVE m, rfl, rfl,
        rfl, rfl, ?_, ?_, ?_, ?_, ?_⟩
      · simp [hd_launcher_app_set_state, hst]
      · intro a ha
        simp [hd_launcher_app_set_state, ha]
      · simp [hd_app_mgr_add_to_queue, Mgr.set_queue, Mgr.queue,
          hd_launcher_app_set_state]
      · intro hp
        simp [hst, hp, hd_launcher_app_set_state]
      · intro hp
        simp [hst, hp, hd_launcher_app_set_state]

/-- C20 at the input of the specification: application 1, shown, with the
always-on policy, is the first of the tree with the service
"com.nokia.sample"; when that service loses its owner (before start-up has
finished, so that the state check prestarts nothing), application 1 is
Inactive and stands at the tail of the prestartable queue. -/
theorem name_owner_changed_witness :
    ((hd_app_mgr_dbus_name_owner_changed 32 sample_env "com.nokia.sample"
      ":1.42" "" (sample_mgr_of .HD_APP_STATE_SHOWN 1234 [2] [] []
        [])).items 1).state = .HD_APP_STATE_INACTIVE ∧
    (hd_app_mgr_dbus_name_owner_changed 32 sample_env "com.nokia.sample"
      ":1.42" "" (sample_mgr_of .HD_APP_STATE_SHOWN 1234 [2] [] []
        [])).queue .QUEUE_PRESTARTABLE = [2, 1] ∧
    hd_app_mgr_dbus_name_owner_changed 32 sample_env "com.nokia.sample"
      ":1.42" ":1.43" (sample_mgr_of .HD_APP_STATE_SHOWN 1234 [2] [] []
        []) = sample_mgr_of .HD_APP_STATE_SHOWN 1234 [2] [] [] [] :=
  ⟨by decide, by decide,
    (name_owner_changed_spec 32 sample_env "com.nokia.sample" ":1.42"
      ":1.43" (sample_mgr_of .HD_APP_STATE_SHOWN 1234 [2] [] [] [])).1
      (by decide)⟩

/-! ## C21: window matching -/

theorem char_toNat_sub_eq_zero (a b : Char) :
    ((a.toNat : Int) - (b.toNat : Int) = 0) ↔ a = b := by
  constructor
  · intro h
    have h1 : a.toNat = b.toNat := by omega
    apply Char.ext
    apply UInt32.ext
    exact h1
  · intro h
    subst h
    omega

/-- The GLib comparison over the length of its first argument is zero
exactly when that argument, ignoring ASCII case, is a beginning of the
second. -/
theorem strncasecmp_eq_zero_iff (s1 s2 : List Char)
    (h : ∀ ch ∈ s1, ch.toNat ≠ 0) :
    g_ascii_strncasecmp s1 s2 s1.length = 0 ↔
      s1.map g_ascii_tolower <+: s2.map g_ascii_tolower := by
  induction s1 generalizing s2 with
  | nil => simp [g_ascii_strncasecmp]
  | cons c1 t1 ih =>
    have hc : c1.toNat ≠ 0 := h c1 (by simp)
    have ht : ∀ ch ∈ t1, ch.toNat ≠ 0 := fun ch hch => h ch (by simp [hch])
    cases s2 with
    | nil =>
      simp only [List.length_cons, g_ascii_strncasecmp, List.map_cons,
        List.map_nil, List.prefix_nil]
      constructor
      · intro h0
        exact absurd (by exact_mod_cast h0) hc
      · intro h0
        exact absurd h0 (by simp)
    | cons c2 t2 =>
      simp only [List.length_cons, g_ascii_strncasecmp, List.map_cons,
        List.cons_prefix_cons]
      by_cases he : g_ascii_tolower c1 = g_ascii_tolower c2
      · simp only [he, ne_eq, not_true, if_false, true_and]
        exact ih t2 ht
      · simp only [ne_eq, he, not_false_eq_true, if_true, false_and,
          iff_false]
        intro h0
        exact he ((char_toNat_sub_eq_zero _ _).1 h0)

theorem match_class_iff (res_class wm_class : Option String) :
    (match res_class, wm_class with
      | some c, some wc => decide (wc = c)
      | _, _ => false) = true ↔
      ∃ c, res_class = some c ∧ wm_class = some c := by
  cases res_class with
  | none => simp
  | some c =>
    cases wm_class with
    | none => simp
    | some wc =>
      simp only [decide_eq_true_eq, Option.some.injEq, exists_eq_left']

theorem match_some_iff (r : Option String) (P : String → Prop)
    [DecidablePred P] :
    (match r with
      | some c => decide (P c)
      | none => false) = true ↔ ∃ c, r = some c ∧ P c := by
  cases r with
  | none => simp
  | some c => simp

/-- The three tests of the source are those of the specification, for a
class hint that is a C string. -/
theorem match_window_app_iff (res_name res_class : Option String)
    (app : HdLauncherItem) (h : ∀ c, res_class = some c → c_string c) :
    match_window_app res_name res_class app = true ↔
      window_matches res_name res_class app := by
  unfold match_window_app window_matches
  rw [Bool.or_eq_true, Bool.or_eq_true, match_class_iff,
    match_some_iff res_class, match_some_iff res_name, or_assoc]
  refine or_congr Iff.rfl (or_congr ?_ Iff.rfl)
  constructor
  · rintro ⟨c, hc, hz⟩
    exact ⟨c, hc, (strncasecmp_eq_zero_iff _ _ (h c hc)).1 hz⟩
  · rintro ⟨c, hc, hp⟩
    exact ⟨c, hc, (strncasecmp_eq_zero_iff _ _ (h c hc)).2 hp⟩

theorem match_window_items_some_iff (res_name res_class : Option String)
    (items : AppRef → HdLauncherItem) (l : List AppRef) (X : AppRef) :
    match_window_items res_name res_class items l = some X ↔
      ∃ pre post, l = pre ++ X :: post ∧
        ((items X).item_type = .HD_APPLICATION_LAUNCHER ∧
          match_window_app res_name res_class (items X) = true) ∧
        ∀ p ∈ pre, ¬ ((items p).item_type = .HD_APPLICATION_LAUNCHER ∧
          match_window_app res_name res_class (items p) = true) := by
  induction l with
  | nil => simp [match_window_items]
  | cons a t ih =>
    by_cases hg : (items a).item_type = .HD_APPLICATION_LAUNCHER ∧
        match_window_app res_name res_class (items a) = true
    · have e : match_window_items res_name res_class items (a :: t) =
          some a := by
        simp [match_window_items, hg.1, hg.2]
      rw [e]
      constructor
      · intro h
        have hx : a = X := by simpa using h
        subst hx
        exact ⟨[], t, rfl, hg, by simp⟩
      · rintro ⟨pre, post, hl, _, hpre⟩
        cases pre with
        | nil =>
          have : a = X := by simpa using (List.cons.inj hl).1
          rw [this]
        | cons b pre' =>
          have hb : a = b := (List.cons.inj hl).1
          exact absurd (hb ▸ hg) (hpre b (by simp))
    · have e : match_window_items res_name res_class items (a :: t) =
          match_window_items res_name res_class items t := by
        by_cases ht : (items a).item_type = .HD_APPLICATION_LAUNCHER
        · have hm : match_window_app res_name res_class (items a) = false := by
            cases hv : match_window_app res_name res_class (items a)
            · rfl
            · exact absurd ⟨ht, hv⟩ hg
          simp [match_window_items, ht, hm]
        · simp [match_window_items, ht]
      rw [e, ih]
      constructor
      · rintro ⟨pre, post, hl, hX, hpre⟩
        refine ⟨a :: pre, post, by simp [hl], hX, ?_⟩
        intro p hp
        rcases List.mem_cons.1 hp with hp | hp
        · rw [hp]; exact hg
        · exact hpre p hp
      · rintro ⟨pre, post, hl, hX, hpre⟩
        cases pre with
        | nil =>
          have : a = X := by simpa using (List.cons.inj hl).1
          exact absurd (this ▸ hX) hg
        | cons b pre' =>
          refine ⟨pre', post, by simpa using (List.cons.inj hl).2, hX, ?_⟩
          intro p hp
          exact hpre p (by simp [hp])

theorem match_window_items_none_iff (res_name res_class : Option String)
    (items : AppRef → HdLauncherItem) (l : List AppRef) :
    match_window_items res_name res_class items l = none ↔
      ∀ p ∈ l, ¬ ((items p).item_type = .HD_APPLICATION_LAUNCHER ∧
        match_window_app res_name res_class (items p) = true) := by
  induction l with
  | nil => simp [match_window_items]
  | cons a t ih =>
    by_cases ht : (items a).item_type = .HD_APPLICATION_LAUNCHER
    · cases hm : match_window_app res_name res_class (items a)
      · simp [match_window_items, ht, hm, ih]
      · simp [match_window_items, ht, hm]
    · simp [match_window_items, ht, ih]

theorem match_window_eq (res_name res_class : Option String) (m : Mgr)
    (hhint : res_name ≠ none ∨ res_class ≠ none) :
    hd_app_mgr_match_window res_name res_class m =
      match match_window_items res_name res_class m.items m.tree with
      | some result =>
        (((m.emit (.app_shown result)).set_queue .QUEUE_PRESTARTED
            ((m.queue .QUEUE_PRESTARTED).erase result)).set_queue
              .QUEUE_PRESTARTABLE
                ((m.queue .QUEUE_PRESTARTABLE).erase result),
          some result)
      | none => (m, none) := by
  have e : ¬ (res_name = none ∧ res_class = none) := by
    rintro ⟨h1, h2⟩
    rcases hhint with h | h
    · exact h h1
    · exact h h2
  unfold hd_app_mgr_match_window
  simp only [e, if_false, remove_from_queue_eq]
  cases match_window_items res_name res_class m.items m.tree with
  | none => rfl
  | some r => rfl

/-- C21: when at least one hint is given (and the class hint, if given, is
a C string), `hd_app_mgr_match_window` returns X exactly when X is the first
item of the tree, in its order, that is an application and passes one of
the three tests of the specification, items that are not applications being
skipped; it returns `NULL` exactly when no application of the tree passes
any.  On a match "application-appeared" is emitted once, for X; the first
occurrence of X is removed from the prestarted and from the prestartable
queue, so that X is in neither when no application occurs twice in the
queues; no launcher item changes and the hibernatable and hibernated queues
are unchanged.  When nothing matches the state is returned as it is. -/
theorem match_window_result (res_name res_class : Option String) (m : Mgr)
    (hhint : res_name ≠ none ∨ res_class ≠ none)
    (hnul : ∀ c, res_class = some c → c_string c) :
    (∀ X, (hd_app_mgr_match_window res_name res_class m).2 = some X ↔
      ∃ pre post, m.tree = pre ++ X :: post ∧
        ((m.items X).item_type = .HD_APPLICATION_LAUNCHER ∧
          window_matches res_name res_class (m.items X)) ∧
        ∀ p ∈ pre, ¬ ((m.items p).item_type = .HD_APPLICATION_LAUNCHER ∧
          window_matches res_name res_class (m.items p))) ∧
    ((hd_app_mgr_match_window res_name res_class m).2 = none ↔
      ∀ p ∈ m.tree, ¬ ((m.items p).item_type = .HD_APPLICATION_LAUNCHER ∧
        window_matches res_name res_class (m.items p))) ∧
    (∀ X, (hd_app_mgr_match_window res_name res_class m).2 = some X →
      app_shown_calls (hd_app_mgr_match_window res_name res_class m).1.log =
        app_shown_calls m.log ++ [X] ∧
      (hd_app_mgr_match_window res_name res_class m).1.items = m.items ∧
      (hd_app_mgr_match_window res_name res_class m).1.queue
          .QUEUE_HIBERNATABLE = m.queue .QUEUE_HIBERNATABLE ∧
      (hd_app_mgr_match_window res_name res_class m).1.queue
          .QUEUE_HIBERNATED = m.queue .QUEUE_HIBERNATED ∧
      (hd_app_mgr_match_window res_name res_class m).1.queue
          .QUEUE_PRESTARTED = (m.queue .QUEUE_PRESTARTED).erase X ∧
      (hd_app_mgr_match_window res_name res_class m).1.queue
          .QUEUE_PRESTARTABLE = (m.queue .QUEUE_PRESTARTABLE).erase X ∧
      ((all_queues m).Nodup →
        X ∉ (hd_app_mgr_match_window res_name res_class m).1.queue
          .QUEUE_PRESTARTED ∧
        X ∉ (hd_app_mgr_match_window res_name res_class m).1.queue
          .QUEUE_PRESTARTABLE)) ∧
    ((hd_app_mgr_match_window res_name res_class m).2 = none →
      (hd_app_mgr_match_window res_name res_class m).1 = m ∧
      app_shown_calls (hd_app_mgr_match_window res_name res_class m).1.log =
        app_shown_calls m.log) := by
  have hiff : ∀ it : HdLauncherItem,
      match_window_app res_name res_class it = true ↔
        window_matches res_name res_class it :=
    fun it => match_window_app_iff res_name res_class it hnul
  have hsnd : (hd_app_mgr_match_window res_name res_class m).2 =
      match_window_items res_name res_class m.items m.tree := by
    rw [match_window_eq res_name res_class m hhint]
    cases match_window_items res_name res_class m.items m.tree <;> rfl
  refine ⟨?_, ?_, ?_, ?_⟩
  · intro X
    rw [hsnd, match_window_items_some_iff]
    simp only [hiff]
  · rw [hsnd, match_window_items_none_iff]
    simp only [hiff]
  · intro X hX
    rw [hsnd] at hX
    rw [match_window_eq res_name res_class m hhint, hX]
    refine ⟨?_, rfl, rfl, rfl, ?_, ?_, ?_⟩
    · simp [Mgr.emit, Mgr.set_queue, app_shown_calls, List.filterMap_append]
    · simp [Mgr.emit, Mgr.set_queue, Mgr.queue]
    · simp [Mgr.emit, Mgr.set_queue, Mgr.queue]
    · intro hinv
      have hn1 := nodup_of_all_queues m hinv .QUEUE_PRESTARTED
      have hn2 := nodup_of_all_queues m hinv .QUEUE_PRESTARTABLE
      constructor
      · have : ((((m.emit (.app_shown X)).set_queue .QUEUE_PRESTARTED
            ((m.queue .QUEUE_PRESTARTED).erase X)).set_queue
              .QUEUE_PRESTARTABLE
                ((m.queue .QUEUE_PRESTARTABLE).erase X)).queue
                  .QUEUE_PRESTARTED) =
            (m.queue .QUEUE_PRESTARTED).erase X := by
          simp [Mgr.emit, Mgr.set_queue, Mgr.queue]
        rw [this]
        exact hn1.not_mem_erase
      · have : ((((m.emit (.app_shown X)).set_queue .QUEUE_PRESTARTED
            ((m.queue .QUEUE_PRESTARTED).erase X)).set_queue
              .QUEUE_PRESTARTABLE
                ((m.queue .QUEUE_PRESTARTABLE).erase X)).queue
                  .QUEUE_PRESTARTABLE) =
            (m.queue .QUEUE_PRESTARTABLE).erase X := by
          simp [Mgr.emit, Mgr.set_queue, Mgr.queue]
        rw [this]
        exact hn2.not_mem_erase
  · intro hN
    rw [hsnd] at hN
    rw [match_window_eq res_name res_class m hhint, hN]
    exact ⟨rfl, rfl⟩

/-- C21 at a concrete catalog: with the class hint "Mail" the category
"mail-folders" is skipped though its id begins with the hint, and the
application "mail" (item 4) is returned by the test on the id; it leaves the
prestartable queue `[4]` and "application-appeared" is emitted for it. -/
theorem match_window_result_witness :
    (hd_app_mgr_match_window none (some "Mail")
      (sample_mgr_desk [4] [])).2 = some 4 ∧
    app_shown_calls (hd_app_mgr_match_window none (some "Mail")
      (sample_mgr_desk [4] [])).1.log = [4] ∧
    (hd_app_mgr_match_window none (some "Mail")
      (sample_mgr_desk [4] [])).1.queue .QUEUE_PRESTARTABLE = [] ∧
    (hd_app_mgr_match_window none (some "Tetris")
      (sample_mgr_desk [4] [])).2 = none :=
  have h := match_window_result none (some "Mail") (sample_mgr_desk [4] [])
    (Or.inr (by simp))
    (by
      intro c hc
      cases hc
      intro ch hch
      simp only [String.toList, List.mem_cons, List.mem_singleton,
        List.not_mem_nil, or_false] at hch
      rcases hch with h | h | h | h <;> subst h <;> decide)
  have h4 : (hd_app_mgr_match_window none (some "Mail")
      (sample_mgr_desk [4] [])).2 = some 4 := by decide
  ⟨h4, (h.2.2.1 4 h4).1, by decide, by decide⟩

/-! ## C22: window matching with empty hints -/

/-- C22 fails on the code: with no name hint, or the empty name hint, and
the zero-length class hint "", `hd_app_mgr_match_window` does not return
`NULL`: the comparison of the first `strlen ("") = 0` characters succeeds
for every id, so the first application of the tree (item 2) is returned,
"application-appeared" is emitted for it and it is removed from the
prestarted queue `[2]`. -/
theorem match_window_empty_class_matches :
    (hd_app_mgr_match_window none (some "")
      (sample_mgr_desk [] [2])).2 = some 2 ∧
    (hd_app_mgr_match_window (some "") (some "")
      (sample_mgr_desk [] [2])).2 = some 2 ∧
    app_shown_calls (hd_app_mgr_match_window (some "") (some "")
      (sample_mgr_desk [] [2])).1.log = [2] ∧
    (sample_mgr_desk [] [2]).queue .QUEUE_PRESTARTED = [2] ∧
    (hd_app_mgr_match_window (some "") (some "")
      (sample_mgr_desk [] [2])).1.queue .QUEUE_PRESTARTED = [] ∧
    (hd_app_mgr_match_window none none (sample_mgr_desk [] [2])).2 =
      none := by
  decide

/-! ## C25: precedence between applications -/

/-- C25 fails: with the class hint "Browser", application 3 declares the
window class "Browser", but application 2, which stands before it in the
tree and declares no window class, is returned, because its id
"browser-settings" begins with the hint when case is ignored. -/
theorem match_window_earlier_id_wins :
    (sample_mgr_desk [] []).tree = [1, 2, 3, 4] ∧
    ((sample_mgr_desk [] []).items 3).wm_class = some "Browser" ∧
    ((sample_mgr_desk [] []).items 2).wm_class = none ∧
    (hd_app_mgr_match_window none (some "Browser")
      (sample_mgr_desk [] [])).2 = some 2 := by
  decide

/-- C25, amended: for every catalog and every class hint (a C string), if
an application X of the tree declares a window class equal to the hint and
no application standing before X in the tree passes any of the three tests,
then `hd_app_mgr_match_window` returns X, an application whose declared
window class equals the hint; the exact match of the window class takes
precedence over the matches of the applications that stand after X, not
over those of the applications before it. -/
theorem match_window_class_first (res_name : Option String) (c : String)
    (m : Mgr) (pre post : List AppRef) (X : AppRef) (hc : c_string c)
    (htree : m.tree = pre ++ X :: post)
    (hX : (m.items X).item_type = .HD_APPLICATION_LAUNCHER)
    (hcls : (m.items X).wm_class = some c)
    (hpre : ∀ p ∈ pre, ¬ ((m.items p).item_type = .HD_APPLICATION_LAUNCHER ∧
      window_matches res_name (some c) (m.items p))) :
    (hd_app_mgr_match_window res_name (some c) m).2 = some X ∧
    (m.items X).wm_class = some c := by
  have hnul : ∀ c', some c = some c' → c_string c' := by
    intro c' h
    cases h
    exact hc
  have hsnd : (hd_app_mgr_match_window res_name (some c) m).2 =
      match_window_items res_name (some c) m.items m.tree := by
    rw [match_window_eq res_name (some c) m (Or.inr (by simp))]
    cases match_window_items res_name (some c) m.items m.tree <;> rfl
  refine ⟨?_, hcls⟩
  rw [hsnd, match_window_items_some_iff]
  refine ⟨pre, post, htree, ⟨hX, ?_⟩, ?_⟩
  · rw [match_window_app_iff _ _ _ hnul]
    exact Or.inl ⟨c, rfl, hcls⟩
  · intro p hp
    rw [match_window_app_iff _ _ _ hnul]
    exact hpre p hp

/-- C25, amended, at a concrete catalog: with the class hint "Browser" and
the name hint of the mail program, application 3, which declares the class,
stands before application 4, which only passes the test on the executable,
and no earlier application passes a test once item 2 is taken out of the
tree: application 3 is returned. -/
theorem match_window_class_first_witness :
    (hd_app_mgr_match_window (some "/usr/bin/mail") (some "Browser")
      { sample_mgr_desk [] [] with tree := [1, 3, 4] }).2 = some 3 ∧
    ((sample_mgr_desk [] []).items 3).wm_class = some "Browser" :=
  match_window_class_first (some "/usr/bin/mail") "Browser"
    { sample_mgr_desk [] [] with tree := [1, 3, 4] } [1] [4] 3
    (by
      intro ch hch
      simp only [String.toList, List.mem_cons, List.mem_singleton,
        List.not_mem_nil, or_false] at hch
      rcases hch with h | h | h | h | h | h | h <;> subst h <;> decide)
    rfl (by decide) (by decide)
    (by
      intro p hp
      have : p = 1 := by simpa using hp
      subst this
      intro h
      exact absurd h.1 (by decide))

/-! ## C23: reading a counter -/

/-- C24 fails on the code: with the prestart block firing and the
prestartable queue `[1, 2]`, application 1 stays at the head when it has no
service, when the session bus cannot be reached and when it is already
executing, since `hd_app_mgr_prestart` returns before it touches the queue;
the state check asks for another round each time, and after three rounds
application 1, without service, is still at the head, has been tried three
times, and application 2 has never been tried. -/
theorem prestart_early_return_keeps_head :
    state_check_loop_may_prestart 32 sample_env sample_mgr_no_service =
      true ∧
    (hd_app_mgr_state_check_loop 32 sample_env
      sample_mgr_no_service).1.queue .QUEUE_PRESTARTABLE = [1, 2] ∧
    (hd_app_mgr_state_check_loop 32 sample_env sample_mgr_no_service).2 =
      true ∧
    (hd_app_mgr_state_check_loop 32 sample_env_no_bus
      sample_mgr_ready).1.queue .QUEUE_PRESTARTABLE = [1, 2] ∧
    (hd_app_mgr_state_check_loop 32 sample_env
      sample_mgr_ready_shown).1.queue .QUEUE_PRESTARTABLE = [1, 2] ∧
    (run 32 [(sample_env, .signal .lowmem_off), (sample_env, .timeout),
      (sample_env, .timeout)] sample_mgr_no_service).queue
        .QUEUE_PRESTARTABLE = [1, 2] ∧
    prestart_calls (run 32 [(sample_env, .signal .lowmem_off),
      (sample_env, .timeout), (sample_env, .timeout)]
        sample_mgr_no_service).log = [1, 1, 1] := by
  decide

/-! ## C26: the states of the prestarted applications -/

/-- C26 fails on the code: from empty queues, application 1 is prestarted
after start-up and then launched by the user; `hd_app_mgr_launch` removes
it from the prestartable queue only, so it is in the prestarted queue in
state Loading, and the low-memory block of the next state check kills it:
`SIGTERM` goes to its process. -/
theorem launched_app_is_killed :
    all_queues sample_mgr_single = [] ∧
    (run 32 (launch_prestarted_run.take 2) sample_mgr_single).queue
      .QUEUE_PRESTARTED = [1] ∧
    ((run 32 (launch_prestarted_run.take 2) sample_mgr_single).items
      1).state = .HD_APP_STATE_PRESTARTED ∧
    (run 32 (launch_prestarted_run.take 3) sample_mgr_single).queue
      .QUEUE_PRESTARTED = [1] ∧
    ((run 32 (launch_prestarted_run.take 3) sample_mgr_single).items
      1).state = .HD_APP_STATE_LOADING ∧
    kill_calls (run 32 launch_prestarted_run sample_mgr_single).log = [1] ∧
    sigterm_calls (run 32 launch_prestarted_run sample_mgr_single).log =
      [4321] ∧
    ((run 32 launch_prestarted_run sample_mgr_single).items 1).state =
      .HD_APP_STATE_INACTIVE := by
  decide

end HdAppMgr
